import Mathlib

/-!
Verification of the ENCODE `checkfiles` file-checking pipeline.

This file gives a shallow embedding, in Lean, of the parts of
`checkfiles.py` that the verified properties are about: the fastq
read-name classifier and signature algorithm, the barcode filter, the
read-length check, the signature-conflict detector, the per-file check
driver `check_file`, and the optimistic-concurrency PATCH protocol in
`patch_file` / `fetch_files`.

Conventions of the embedding:
* Python dicts with string values become association lists
  (`Dict := List (String × String)`) with `dget` / `dset`.
* Python sets become duplicate-free lists in insertion order; the
  hash-dependent iteration order of `list(someSet)[0]` is an explicit
  oracle parameter `pick : List String → String`.
* External effects (subprocess output, portal HTTP responses, the
  filesystem) are oracle values carried in environment records; a run of
  a function is its value at one environment.
* A Python exception that the source does not catch is modelled by
  `Option`/`none` (the job crashes).
-/

set_option linter.unusedVariables false

namespace Checkfiles

/-! ## Python-style string and dict primitives -/

/-- Python dict with string keys and values, as an insertion-ordered
association list (keys unique by construction through `dset`). -/
abbrev Dict := List (String × String)

/-- `d.get(k)` / `k in d` for a Python dict. -/
def dget : Dict → String → Option String
  | [], _ => none
  | (k', v) :: d, k => if k' = k then some v else dget d k

/-- `d[k] = v` for a Python dict: overwrite in place if the key exists,
else append (Python dicts preserve insertion order; keys are unique for
dicts built through `dset`). -/
def dset : Dict → String → String → Dict
  | [], k, v => [(k, v)]
  | (k', v') :: d, k, v =>
    if k' = k then (k, v) :: d else (k', v') :: dset d k v

/-- Python-set `add` on an insertion-ordered duplicate-free list. -/
def sadd (l : List String) (x : String) : List String :=
  if x ∈ l then l else l ++ [x]

/-- The whitespace characters of `re` / `str.strip` (ASCII fragment of
Python's `\s`). -/
def isPyWs (c : Char) : Bool :=
  c = ' ' || c = '\t' || c = '\n' || c = '\x0d' || c = '\x0b' || c = '\x0c'

/-- `re.split` on a single-character class: split at every character
satisfying `p`, keeping empty pieces. -/
def splitChars (p : Char → Bool) : List Char → List (List Char)
  | [] => [[]]
  | c :: cs =>
    if p c then [] :: splitChars p cs
    else
      match splitChars p cs with
      | [] => [[c]]
      | h :: t => (c :: h) :: t

/-- `re.split` lifted to `String`. -/
def pySplit (p : Char → Bool) (s : String) : List String :=
  (splitChars p s.data).map List.asString

/-- `str.strip()` on a character list. -/
def pyStripList (l : List Char) : List Char :=
  ((l.dropWhile isPyWs).reverse.dropWhile isPyWs).reverse

/-- `str.strip()`. -/
def pyStrip (s : String) : String :=
  (pyStripList s.data).asString

/-- Python slicing `s[:n]`. -/
def pyTake (n : Nat) (s : String) : String :=
  (s.data.take n).asString

/-- Lexicographic comparison of code-point lists. -/
def strLtAux : List Char → List Char → Bool
  | [], [] => false
  | [], _ :: _ => true
  | _ :: _, [] => false
  | a :: as, b :: bs =>
    if a.toNat < b.toNat then true
    else if b.toNat < a.toNat then false
    else strLtAux as bs

/-- Python string comparison `a < b` (lexicographic on code points),
which coincides with Lean's `String` order. -/
def strLt (a b : String) : Bool :=
  strLtAux a.data b.data

/-- `sorted(...)` for lists of strings: insertion sort by `strLt`. -/
def pyInsertSorted (x : String) : List String → List String
  | [] => [x]
  | y :: ys => if strLt y x then y :: pyInsertSorted x ys else x :: y :: ys

/-- `sorted(list(s))` on a list of strings. -/
def pySort : List String → List String
  | [] => []
  | x :: xs => pyInsertSorted x (pySort xs)

/-- `v in s` for Python strings (substring containment), as a predicate
on the underlying character lists. -/
def strContains (s v : String) : Prop :=
  v.data <:+: s.data

instance (s v : String) : Decidable (strContains s v) :=
  inferInstanceAs (Decidable (v.data <:+: s.data))

/-! ## `update_content_error` (checkfiles.py:75) -/

/-- `update_content_error(errors, error_message)`: start or extend the
comma-joined `content_error` entry. -/
def update_content_error (errors : Dict) (error_message : String) : Dict :=
  match dget errors "content_error" with
  | none => dset errors "content_error" error_message
  | some s => dset errors "content_error" (s ++ ", " ++ error_message)

/-! ## Read-name regular expressions (checkfiles.py:47-67)

Each Python regular expression is translated into a decidable matcher.
No character class in these patterns contains `':'`, so a pattern built
from `':'`-separated clauses matches exactly when splitting the string
at `':'` yields the right number of fields, each matching its clause.
`X+Y*` with `X ⊆ Y` matches exactly the nonempty strings whose first
character is in `X` and whose remaining characters are in `Y`. -/

/-- `[a-zA-Z\d_-]`. -/
def isWordDashChar (c : Char) : Bool :=
  c.isAlphanum || c = '_' || c = '-'

/-- `[a-zA-Z\d-]`. -/
def isAlnumDashChar (c : Char) : Bool :=
  c.isAlphanum || c = '-'

/-- `@[a-zA-Z\d]+[a-zA-Z\d_-]*`: an `@` followed by a word whose first
character is alphanumeric. -/
def matchAtWord (s : String) : Bool :=
  match s.data with
  | '@' :: c :: rest => c.isAlphanum && rest.all isWordDashChar
  | _ => false

/-- A nonempty string over the class `p`. -/
def matchSome (p : Char → Bool) (s : String) : Bool :=
  !s.data.isEmpty && s.data.all p

/-- `\d+[\s_][123]` (the field of `read_name_pattern` holding the y
coordinate, the separator and the read number). -/
def matchDigitsSepRead (s : String) : Bool :=
  match s.data.reverse with
  | r :: sep :: rest =>
    (r = '1' || r = '2' || r = '3') && (isPyWs sep || sep = '_') &&
      (!rest.isEmpty && rest.all Char.isDigit)
  | _ => false

/-- `\d+[/1|/2]*`: a nonempty digit run followed by characters of the
class `/1|2` (greedy digit matching is complete here because the class
part is closed under taking suffixes). -/
def matchDigitsThenSlashClass (l : List Char) : Bool :=
  let ds := l.takeWhile Char.isDigit
  !ds.isEmpty &&
    (l.drop ds.length).all (fun c => c = '/' || c = '1' || c = '|' || c = '2')

/-- `\d+[/1|/2]*[\s_][123]` (the corresponding field of
`special_read_name_pattern`). -/
def matchDigitsSlashSepRead (s : String) : Bool :=
  match s.data.reverse with
  | r :: sep :: rest =>
    (r = '1' || r = '2' || r = '3') && (isPyWs sep || sep = '_') &&
      matchDigitsThenSlashClass rest.reverse
  | _ => false

/-- `[YXN]`. -/
def matchYXN (s : String) : Bool :=
  s = "Y" || s = "X" || s = "N"

/-- `([ACNTG\+]*|[0-9]*)`: the barcode group. -/
def matchBarcodeGroup (s : String) : Bool :=
  s.data.all (fun c => c = 'A' || c = 'C' || c = 'N' || c = 'T' || c = 'G' || c = '+') ||
    s.data.all Char.isDigit

/-- The first six `':'`-separated fields shared by the three Illumina
patterns: `@[a-zA-Z\d]+[a-zA-Z\d_-]*`, `[a-zA-Z\d-]+`, `[a-zA-Z\d_-]+`,
`\d+`, `\d+`, `\d+`. -/
def matchIlluminaHead (parts : List String) : Bool :=
  matchAtWord (parts.getD 0 "") &&
  matchSome isAlnumDashChar (parts.getD 1 "") &&
  matchSome isWordDashChar (parts.getD 2 "") &&
  matchSome Char.isDigit (parts.getD 3 "") &&
  matchSome Char.isDigit (parts.getD 4 "") &&
  matchSome Char.isDigit (parts.getD 5 "")

/-- `read_name_prefix` (checkfiles.py:47):
`^(@[a-zA-Z\d]+[a-zA-Z\d_-]*:[a-zA-Z\d-]+:[a-zA-Z\d_-]+:\d+:\d+:\d+:\d+)$`. -/
def matches_read_name_pfx (s : String) : Bool :=
  let parts := pySplit (· = ':') s
  parts.length = 7 && matchIlluminaHead parts &&
    matchSome Char.isDigit (parts.getD 6 "")

/-- `read_name_pattern` (checkfiles.py:51): the head, then
`\d+[\s_][123]`, `[YXN]`, `[0-9]+`, and the barcode group. -/
def matches_read_name_pattern (s : String) : Bool :=
  let parts := pySplit (· = ':') s
  parts.length = 10 && matchIlluminaHead parts &&
    matchDigitsSepRead (parts.getD 6 "") &&
    matchYXN (parts.getD 7 "") &&
    matchSome Char.isDigit (parts.getD 8 "") &&
    matchBarcodeGroup (parts.getD 9 "")

/-- `special_read_name_pattern` (checkfiles.py:56): as
`read_name_pattern` but with `[/1|/2]*` glued to the y coordinate. -/
def matches_special_read_name_pattern (s : String) : Bool :=
  let parts := pySplit (· = ':') s
  parts.length = 10 && matchIlluminaHead parts &&
    matchDigitsSlashSepRead (parts.getD 6 "") &&
    matchYXN (parts.getD 7 "") &&
    matchSome Char.isDigit (parts.getD 8 "") &&
    matchBarcodeGroup (parts.getD 9 "")

/-- `srr_read_name_pattern` (checkfiles.py:61): `^(@SRR[\d.]+)$`. -/
def matches_srr_read_name_pattern (s : String) : Bool :=
  match s.data with
  | '@' :: 'S' :: 'R' :: 'R' :: rest =>
    !rest.isEmpty && rest.all (fun c => c.isDigit || c = '.')
  | _ => false

/-- `.` of `re` never matches a newline. -/
def noNewline (l : List Char) : Bool :=
  l.all (· ≠ '\n')

/-- First alternative of `pacbio_read_name_pattern`:
`^(@m\d{6}_\d{6}_\d+_[a-zA-Z\d_-]+\/.*)$`. -/
def pacbioAlt1 (l : List Char) : Bool :=
  match l with
  | '@' :: 'm' :: rest =>
    decide ((rest.take 6).length = 6) && (rest.take 6).all Char.isDigit &&
    (match rest.drop 6 with
     | '_' :: rest2 =>
       decide ((rest2.take 6).length = 6) && (rest2.take 6).all Char.isDigit &&
       (match rest2.drop 6 with
        | '_' :: rest3 =>
          let ds := rest3.takeWhile Char.isDigit
          !ds.isEmpty &&
          (match rest3.drop ds.length with
           | '_' :: rest4 =>
             let ws := rest4.takeWhile isWordDashChar
             !ws.isEmpty &&
             (match rest4.drop ws.length with
              | '/' :: rest5 => noNewline rest5
              | _ => false)
           | _ => false)
        | _ => false)
     | _ => false)
  | _ => false

/-- Second alternative: `^(@m\d+U?_\d{6}_\d{6}\/.*)$`. -/
def pacbioAlt2 (l : List Char) : Bool :=
  match l with
  | '@' :: 'm' :: rest =>
    let ds := rest.takeWhile Char.isDigit
    !ds.isEmpty &&
    (let rest2 :=
      match rest.drop ds.length with
      | 'U' :: r => r
      | r => r
     match rest2 with
     | '_' :: rest3 =>
       decide ((rest3.take 6).length = 6) && (rest3.take 6).all Char.isDigit &&
       (match rest3.drop 6 with
        | '_' :: rest4 =>
          decide ((rest4.take 6).length = 6) && (rest4.take 6).all Char.isDigit &&
          (match rest4.drop 6 with
           | '/' :: rest5 => noNewline rest5
           | _ => false)
        | _ => false)
     | _ => false)
  | _ => false

/-- Third alternative: `^(@c.+)$`. -/
def pacbioAlt3 (l : List Char) : Bool :=
  match l with
  | '@' :: 'c' :: rest => !rest.isEmpty && noNewline rest
  | _ => false

/-- `pacbio_read_name_pattern` (checkfiles.py:65). -/
def matches_pacbio_read_name_pattern (s : String) : Bool :=
  pacbioAlt1 s.data || pacbioAlt2 s.data || pacbioAlt3 s.data

/-! ## Fastq read-name state machine (checkfiles.py:333-580)

The mutable accumulators of `process_fastq_file` become one state
record.  Python sets are duplicate-free lists in insertion order; the
expression `list(read_numbers_set)[0]` is modelled by an oracle
`pick : List String → String` standing for the hash-dependent iteration
order of the set in one interpreter run.  The ghost flag `amb` records
whether some pick happened while the set held more than one element; it
influences no computed value. -/

/-- The accumulators threaded through the fastq scan. -/
structure FqState where
  read_numbers_set : List String
  signatures_set : List String
  signatures_no_barcode_set : List String
  /-- `old_illumina_current_prefix` in the source. -/
  old_illumina_current_pfx : String
  read_lengths_dictionary : List (Nat × Nat)
  errors : Dict
  /-- Ghost: a pick was taken from a set with more than one element. -/
  amb : Bool
  deriving Repr, DecidableEq

/-- The initial accumulators of `process_fastq_file` (checkfiles.py:591). -/
def initFqState (errors : Dict) : FqState :=
  { read_numbers_set := []
    signatures_set := []
    signatures_no_barcode_set := []
    old_illumina_current_pfx := "empty"
    read_lengths_dictionary := []
    errors := errors
    amb := false }

/-- `list(read_numbers_set)[0]`: `IndexError` (modelled `none`) on an
empty set; otherwise the oracle chooses the first element of the
iteration order.  The ghost `amb` flag records a pick from a
multi-element set. -/
def pickFrom (pick : List String → String) (st : FqState) : Option (String × FqState) :=
  if st.read_numbers_set.isEmpty then none
  else
    some (pick st.read_numbers_set,
      if st.read_numbers_set.length > 1 then { st with amb := true } else st)

/-- Last `n` characters, `s[-n:]` for `n ≤ len(s)`. -/
def lastChars (n : Nat) (s : String) : String :=
  ((s.data.reverse.take n).reverse).asString

/-- Python `s.endswith(t)`: the last `len(t)` code points equal `t`
(kernel-reducible, unlike core `String.endsWith`). -/
def pyEndsWith (s t : String) : Bool :=
  decide (s.data.drop (s.data.length - t.data.length) = t.data)

/-- The split `re.split(r'[:\s_]', read_name)` used by the Illumina
processors. -/
def splitColonWsU (s : String) : List String :=
  pySplit (fun c => c = ':' || isPyWs c || c = '_') s

/-- `process_illumina_read_name_pattern` (checkfiles.py:333).  The
pattern match in the caller guarantees at least ten fields, so the
out-of-range default of `getD` is never consulted. -/
def process_illumina_read_name_pattern (pick : List String → String)
    (read_name : String) (srr_flag : Bool) (st : FqState) : Option FqState :=
  let arr := splitColonWsU read_name
  let flowcell := arr.getD 2 ""
  let lane_number := arr.getD 3 ""
  match
    (if srr_flag then
      pickFrom pick st
    else
      some (arr.getD (arr.length - 4) "",
        { st with read_numbers_set := sadd st.read_numbers_set (arr.getD (arr.length - 4) "") })) with
  | none => none
  | some (read_number, st) =>
    let barcode_index := arr.getD (arr.length - 1) ""
    some { st with
      signatures_set := (sadd st.signatures_set
        (flowcell ++ ":" ++ lane_number ++ ":" ++ read_number ++ ":" ++ barcode_index ++ ":"))
      signatures_no_barcode_set := (sadd st.signatures_no_barcode_set
        (flowcell ++ ":" ++ lane_number ++ ":" ++ read_number ++ ":")) }

/-- `process_special_read_name_pattern` (checkfiles.py:355). -/
def process_special_read_name_pattern (pick : List String → String)
    (read_name : String) (words_array : List String) (srr_flag : Bool)
    (st : FqState) : Option FqState :=
  match
    (if srr_flag then
      pickFrom pick st
    else
      if (words_array.getD 0 "").length > 3 &&
          (lastChars 2 (words_array.getD 0 "") = "/1" ||
            lastChars 2 (words_array.getD 0 "") = "/2") then
        some (lastChars 1 (words_array.getD 0 ""),
          { st with read_numbers_set :=
              (sadd st.read_numbers_set (lastChars 1 (words_array.getD 0 ""))) })
      else
        some ("not initialized", st)) with
  | none => none
  | some (read_number, st) =>
    let arr := splitColonWsU read_name
    let flowcell := arr.getD 2 ""
    let lane_number := arr.getD 3 ""
    let barcode_index := arr.getD (arr.length - 1) ""
    some { st with
      signatures_set := (sadd st.signatures_set
        (flowcell ++ ":" ++ lane_number ++ ":" ++ read_number ++ ":" ++ barcode_index ++ ":"))
      signatures_no_barcode_set := (sadd st.signatures_no_barcode_set
        (flowcell ++ ":" ++ lane_number ++ ":" ++ read_number ++ ":")) }

/-- `process_new_illumina_prefix` (checkfiles.py:381). -/
def process_new_illumina_pfx (pick : List String → String)
    (read_name : String) (srr_flag : Bool) (st : FqState) : Option FqState :=
  match
    (if srr_flag then
      pickFrom pick st
    else
      some ("1", { st with read_numbers_set := sadd st.read_numbers_set "1" })) with
  | none => none
  | some (read_number, st) =>
    let arr := pySplit (· = ':') read_name
    if arr.length > 3 then
      let flowcell := arr.getD 2 ""
      let lane_number := arr.getD 3 ""
      let pfx := flowcell ++ ":" ++ lane_number
      if pfx ≠ st.old_illumina_current_pfx then
        some { st with
          old_illumina_current_pfx := pfx
          signatures_set := (sadd st.signatures_set
            (flowcell ++ ":" ++ lane_number ++ ":" ++ read_number ++ "::" ++ read_name)) }
      else
        some st
    else
      some st

/-- `process_pacbio_read_name_pattern` (checkfiles.py:408). -/
def process_pacbio_read_name_pattern (read_name : String) (st : FqState) : FqState :=
  if (pySplit (· = '/') read_name).length > 1 then
    { st with signatures_set := (sadd st.signatures_set
        ("pacbio:0:1::" ++ (pySplit (· = '/') read_name).getD 0 "")) }
  else
    st

/-- `process_old_illumina_read_name_pattern` (checkfiles.py:421). -/
def process_old_illumina_read_name_pattern (pick : List String → String)
    (read_name : String) (srr_flag : Bool) (st : FqState) : Option FqState :=
  match
    (if srr_flag then
      pickFrom pick st
    else
      if lastChars 2 read_name = "/1" || lastChars 2 read_name = "/2" then
        some (lastChars 1 read_name,
          { st with read_numbers_set := sadd st.read_numbers_set (lastChars 1 read_name) })
      else
        some ("1", st)) with
  | none => none
  | some (read_number, st) =>
    let arr := pySplit (· = ':') read_name
    if arr.length > 1 then
      let pfx := arr.getD 0 "" ++ ":" ++ arr.getD 1 ""
      if pfx ≠ st.old_illumina_current_pfx then
        let f0 := (arr.getD 0 "").data.drop 1
        let flowcell :=
          if f0.contains '-' || f0.contains '_' then "TEMP" else f0.asString
        let lane_number :=
          if !(arr.getD 1 "").data.isEmpty && (arr.getD 1 "").data.all Char.isDigit then
            arr.getD 1 ""
          else "0"
        some { st with
          old_illumina_current_pfx := pfx
          signatures_set := (sadd st.signatures_set
            (flowcell ++ ":" ++ lane_number ++ ":" ++ read_number ++ "::" ++ read_name)) }
      else
        some st
    else
      some st

/-- The `read_name_details` portal record: array positions of the
signature parts; a position of `0` is falsy in the source's
`not read_name_details.get(...)` tests. -/
structure ReadNameDetails where
  flowcell_id_location : Nat
  lane_id_location : Nat
  read_number_location : Option Nat
  barcode_location : Option Nat
  deriving Repr, DecidableEq

/-- `process_read_name_line` (checkfiles.py:457).  The recursion for
SRR-style names is fuelled: the recursive call receives the second
space-separated token, which contains no space, so a nested SRR branch
always raises `IndexError` (`none`) before recursing again; fuel 2 is
exact and the fuel-0 case is unreachable from the public entry. -/
def process_read_name_line (pick : List String → String)
    (read_name_details : Option ReadNameDetails) :
    Nat → String → Bool → FqState → Option FqState
  | 0, _, _, _ => none
  | fuel + 1, read_name_line, srr_flag, st =>
    let read_name := pyStrip read_name_line
    match read_name_details with
    | some details =>
      let arr := pySplit (fun c => c = ':' || isPyWs c) read_name
      let flowcell := arr.getD details.flowcell_id_location ""
      let lane_number := arr.getD details.lane_id_location ""
      let read_number :=
        if details.read_number_location = none ∨ details.read_number_location = some 0 then "1"
        else arr.getD (details.read_number_location.getD 0) ""
      let barcode_index :=
        if details.barcode_location = none ∨ details.barcode_location = some 0 then ""
        else arr.getD (details.barcode_location.getD 0) ""
      some { st with
        read_numbers_set := sadd st.read_numbers_set read_number
        signatures_set := (sadd st.signatures_set
          (flowcell ++ ":" ++ lane_number ++ ":" ++ read_number ++ ":" ++ barcode_index ++ ":"))
        signatures_no_barcode_set := (sadd st.signatures_no_barcode_set
          (flowcell ++ ":" ++ lane_number ++ ":" ++ read_number ++ ":")) }
    | none =>
      let words_array := pySplit isPyWs read_name
      if !matches_read_name_pattern read_name then
        if matches_special_read_name_pattern read_name then
          process_special_read_name_pattern pick read_name words_array srr_flag st
        else if matches_srr_read_name_pattern ((pySplit (· = ' ') read_name).getD 0 "") then
          let srr_portion := (pySplit (· = ' ') read_name).getD 0 ""
          let st :=
            if srr_portion.data.count '.' = 2 then
              { st with read_numbers_set := sadd st.read_numbers_set (lastChars 1 srr_portion) }
            else
              { st with read_numbers_set := sadd st.read_numbers_set "1" }
          match (pySplit (· = ' ') read_name).get? 1 with
          | none => none
          | some illumina_portion =>
            process_read_name_line pick read_name_details fuel
              ("@" ++ illumina_portion) true st
        else if matches_pacbio_read_name_pattern read_name then
          let movie_identifier := (pySplit (· = '/') read_name).getD 0 ""
          if movie_identifier.length > 0 then
            some (process_pacbio_read_name_pattern read_name st)
          else
            some { st with errors := dset st.errors "fastq_format_readname" read_name }
        else
          if words_array.length = 1 then
            if matches_read_name_pfx read_name then
              process_new_illumina_pfx pick read_name srr_flag st
            else if read_name.length > 3 && read_name.data.count ':' > 2 then
              process_old_illumina_read_name_pattern pick read_name srr_flag st
            else
              some { st with errors := dset st.errors "fastq_format_readname" read_name }
          else
            some { st with errors := dset st.errors "fastq_format_readname" read_name }
      else
        process_illumina_read_name_pattern pick read_name srr_flag st

/-- `process_sequence_line` (checkfiles.py:576): tally the length of the
stripped sequence line. -/
def process_sequence_line (sequence_line : String) (rld : List (Nat × Nat)) :
    List (Nat × Nat) :=
  let length := (pyStrip sequence_line).length
  match rld.find? (fun p => p.1 = length) with
  | none => rld ++ [(length, 1)]
  | some _ => rld.map (fun p => if p.1 = length then (p.1, p.2 + 1) else p)

/-! ## Portal metadata records -/

/-- One entry of `flowcell_details`.  A missing key is `none`; the
source's truthiness tests treat `0` and `""` as absent. -/
structure FlowcellDetail where
  lane : Option Nat
  barcode : Option String
  deriving Repr, DecidableEq

/-- Python truthiness of `entry.get('lane')`. -/
def truthyLane : Option Nat → Bool
  | none => false
  | some n => n ≠ 0

/-- Python truthiness of `entry.get('barcode')`. -/
def truthyBarcode : Option String → Bool
  | none => false
  | some b => b ≠ ""

/-- The fields of the portal file record that `check_file`,
`check_format`, `process_fastq_file` and `patch_file` read.
`genome_annot` stands for the source's genome-annotation field. -/
structure Item where
  accession : Option String
  md5sum : String
  file_format : String
  file_format_type : Option String
  output_type : Option String
  assembly : Option String
  genome_annot : Option String
  read_length : Option Nat
  flowcell_details : Option (List FlowcellDetail)
  status : String
  no_file_available : Bool
  deriving Repr, DecidableEq

/-- A `@graph` entry of a portal search response, as read by the
conflict detectors. -/
structure SearchEntry where
  accession : Option String
  flowcell_details : Option (List FlowcellDetail)
  deriving Repr, DecidableEq

/-- Python truthiness of a possibly-missing list field. -/
def truthyList {α : Type} : Option (List α) → Bool
  | none => false
  | some l => !l.isEmpty

/-! ## Fastq signature post-processing and conflicts
(checkfiles.py:707-772, 913-968) -/

/-- Set-`add` for `(lane, barcode)` pairs. -/
def saddLB (l : List (Nat × String)) (x : Nat × String) : List (Nat × String) :=
  if x ∈ l then l else l ++ [x]

/-- `create_a_list_of_barcodes` (checkfiles.py:755): the set of
`(lane, barcode)` pairs of the entries having both (truthy). -/
def create_a_list_of_barcodes (details : List FlowcellDetail) : List (Nat × String) :=
  details.foldl
    (fun barcodes entry =>
      if truthyLane entry.lane && truthyBarcode entry.barcode then
        saddLB barcodes (entry.lane.getD 0, entry.barcode.getD "")
      else
        barcodes)
    []

/-- `compare_flowcell_details` (checkfiles.py:765).  The source computes
both barcode sets from `flowcell_details_1`; the second argument is
never consulted (line 767). -/
def compare_flowcell_details (flowcell_details_1 flowcell_details_2 : List FlowcellDetail) :
    Bool :=
  let barcodes_1 := create_a_list_of_barcodes flowcell_details_1
  let barcodes_2 := create_a_list_of_barcodes flowcell_details_1
  barcodes_1.any (fun x => barcodes_2.contains x)

/-- The conflict strings one `@graph` entry contributes for one
signature (checkfiles.py:934-955). -/
def conflictsForEntry (signature : String) (item : Item) (entry : SearchEntry) :
    List String :=
  if (! pyEndsWith signature "::") ||
      (pyEndsWith signature "::" && truthyList entry.flowcell_details &&
        truthyList item.flowcell_details &&
        compare_flowcell_details (entry.flowcell_details.getD [])
          (item.flowcell_details.getD [])) then
    match entry.accession, item.accession with
    | some ea, some ia =>
      if ea ≠ ia then [signature ++ " in file " ++ ea ++ " "] else []
    | some ea, none => [signature ++ " in file " ++ ea ++ " "]
    | none, none => [signature ++ " file on the portal."]
    | none, some _ => []
  else
    []

/-- One iteration of the signature loop of
`check_for_fastq_signature_conflicts`: accumulate lookup errors and
conflict strings. -/
def fastqSigConflictStep (sigSearch : String → Except String (List SearchEntry))
    (item : Item) (acc : Dict × List String) (signature : String) :
    Dict × List String :=
  if ! pyEndsWith signature "mixed:" then
    match sigSearch signature with
    | .error e =>
      (dset acc.1 "lookup_for_fastq_signature"
        ("Network error occured, while looking for fastq signature conflict on the portal. " ++ e),
       acc.2)
    | .ok graph =>
      if graph.length > 0 then
        (acc.1, graph.foldl (fun cs entry => cs ++ conflictsForEntry signature item entry) acc.2)
      else
        (acc.1, acc.2)
  else
    acc

/-- `check_for_fastq_signature_conflicts` (checkfiles.py:913): returns
the updated error dict and the boolean the source returns. -/
def check_for_fastq_signature_conflicts
    (sigSearch : String → Except String (List SearchEntry))
    (errors : Dict) (item : Item) (signatures_to_check : List String) :
    Dict × Bool :=
  let scanned := (pySort signatures_to_check).foldl (fastqSigConflictStep sigSearch item) (errors, [])
  let conflicts := scanned.2
  if conflicts.length > 0 then
    let msg := "Fastq file contains read name signature that conflict with " ++
      "signature of existing file(s): " ++ String.intercalate ", " conflicts
    (update_content_error (dset scanned.1 "not_unique_flowcell_details" msg) msg, false)
  else
    (scanned.1, true)

/-- A parsed 5-field signature `f:l:r:b:rest`. -/
abbrev Sig5 := String × String × String × String × String

/-- The `(flowcell, lane, read)` bucket key of a parsed signature. -/
def sigKey (e : Sig5) : String × String × String := (e.1, e.2.1, e.2.2.1)

/-- The barcode field of a parsed signature. -/
def sigBarcode (e : Sig5) : String := e.2.2.2.1

/-- Generic association-list lookup (Python dict `get`). -/
def aget {α β : Type} [DecidableEq α] : List (α × β) → α → Option β
  | [], _ => none
  | (k', v) :: m, k => if k' = k then some v else aget m k

/-- Python's `if b not in d: d[b] = 0` followed by `d[b] += 1`. -/
def abump {α : Type} [DecidableEq α] : List (α × Nat) → α → List (α × Nat)
  | [], k => [(k, 1)]
  | (k', v) :: m, k => if k' = k then (k', v + 1) :: m else (k', v) :: abump m k

/-- One step of the `flowcells_dict` construction of `process_barcodes`
(checkfiles.py:710-716). -/
def addSigToDict (d : List ((String × String × String) × List (String × Nat)))
    (e : Sig5) : List ((String × String × String) × List (String × Nat)) :=
  match d with
  | [] => [(sigKey e, [(sigBarcode e, 1)])]
  | (k', bd) :: rest =>
    if k' = sigKey e then (k', abump bd (sigBarcode e)) :: rest
    else (k', bd) :: addSigToDict rest e

/-- The nested counting dict of `process_barcodes`. -/
def buildFlowcellsDict (entries : List Sig5) :
    List ((String × String × String) × List (String × Nat)) :=
  entries.foldl addSigToDict []

/-- The sum of the counts of one counting dict (`total` in
`process_barcodes`, `reads_quantity` in `process_read_lengths`). -/
def sumCounts {α : Type} (bd : List (α × Nat)) : Nat :=
  bd.foldl (fun t p => t + p.2) 0

/-- A kept `(flowcell, lane, read, barcode)` quadruple. -/
abbrev Quad := String × String × String × String

/-- Set-`add` for quadruples. -/
def saddQ (l : List Quad) (x : Quad) : List Quad :=
  if x ∈ l then l else l ++ [x]

/-- The emission loop of `process_barcodes` (checkfiles.py:717-727),
producing the kept `(flowcell, lane, read, barcode)` keys.  The float
test `float(total)/float(count) < 100` on positive integers far below
2^49 is exactly `total < 100 * count`. -/
def processBarcodesCore (d : List ((String × String × String) × List (String × Nat))) :
    List Quad :=
  d.foldl
    (fun acc kbd =>
      kbd.2.foldl
        (fun acc p =>
          if sumCounts kbd.2 < 100 * p.2 then
            saddQ acc (kbd.1.1, kbd.1.2.1, kbd.1.2.2, p.1)
          else acc)
        acc)
    []

/-- `(f, l, r, b) = entry.split(':')` with exactly five fields; a
different arity raises `ValueError` (modelled `none`). -/
def parseSig5 (entry : String) : Option Sig5 :=
  match pySplit (· = ':') entry with
  | [f, l, r, b, rest] => some (f, l, r, b, rest)
  | _ => none

/-- `process_barcodes` (checkfiles.py:707). -/
def process_barcodes (signatures_set : List String) : Option (List String) :=
  match signatures_set.mapM parseSig5 with
  | none => none
  | some entries =>
    some ((processBarcodesCore (buildFlowcellsDict entries)).map
      (fun q => q.1 ++ ":" ++ q.2.1 ++ ":" ++ q.2.2.1 ++ ":" ++ q.2.2.2 ++ ":"))

/-- `str((k, c))` for a pair of ints, as Python formats it. -/
def strOfPair (p : Nat × Nat) : String :=
  "(" ++ toString p.1 ++ ", " ++ toString p.2 ++ ")"

/-- `reads_quantity` (checkfiles.py:738): the number of reads whose
length is within 2 bp (inclusive) of the declared length. -/
def readsQuantity (read_lengths_dict : List (Nat × Nat)) (submitted_read_length : Nat) : Nat :=
  sumCounts (read_lengths_dict.filter
    (fun (p : Nat × Nat) => decide ((submitted_read_length : Int) - 2 ≤ (p.1 : Int)) &&
      decide ((p.1 : Int) ≤ (submitted_read_length : Int) + 2)))

/-- `informative_length_list`, comma-joined and parenthesised
(checkfiles.py:740-747). -/
def informativeLengthJoin (lengths_list : List (Nat × Nat)) : String :=
  String.intercalate ", "
    ((lengths_list.map (fun p => toString p.1 ++ "bp, " ++ toString p.2)).map
      (fun s => "(" ++ s ++ ")"))

/-- The `errors_to_report['read_length']` message of
`process_read_lengths` (checkfiles.py:744-747). -/
def readLengthErrMsg (submitted_read_length : Nat) (lengths_list : List (Nat × Nat)) :
    String :=
  "in file metadata the read_length is " ++ toString submitted_read_length ++
    "bp, however the uploaded fastq file contains reads of following length(s) " ++
    informativeLengthJoin lengths_list ++ ". "

/-- `process_read_lengths` (checkfiles.py:731) for
`threshold_percentage = 0.9`: the float test
`0.9 * read_count > reads_quantity` on integers far below 2^49 is
exactly `9 * read_count > 10 * reads_quantity`. -/
def process_read_lengths (read_lengths_dict : List (Nat × Nat))
    (lengths_list : List (Nat × Nat)) (submitted_read_length : Nat)
    (read_count : Nat) (errors_to_report : Dict) : Dict :=
  if 10 * readsQuantity read_lengths_dict submitted_read_length < 9 * read_count then
    update_content_error
      (dset errors_to_report "read_length"
        (readLengthErrMsg submitted_read_length lengths_list))
      ("Fastq file metadata specified read length was " ++ toString submitted_read_length ++
        "bp, but the file contains read length(s) " ++ informativeLengthJoin lengths_list)
  else
    errors_to_report

/-! ## `process_fastq_file` (checkfiles.py:583-704) -/

/-- The `result` bag of a job, with one typed field per key the source
writes or `patch_file` reads. -/
structure Result where
  file_size : Option Nat
  last_modified : Option String
  md5sum : Option String
  content_md5sum : Option String
  validateFiles_args : Option String
  validateFiles : Option String
  bamValidation : Option String
  read_count : Option Nat
  fastq_signature : Option (List String)
  mapped_run_type : Option String
  mapped_read_length : Option Int
  samtools_stats_extraction : Option String
  samtools_stats_mapped_run_type_extraction : Option (List String)
  samtools_stats_mapped_read_length_extraction : Option (List String)
  CRISPR_guide_quant_validation : Option String
  CRISPR_PAM_validation : Option String
  deriving Repr, DecidableEq

/-- `job['result'] = {}`. -/
def emptyResult : Result :=
  { file_size := none, last_modified := none, md5sum := none
    content_md5sum := none, validateFiles_args := none, validateFiles := none
    bamValidation := none, read_count := none, fastq_signature := none
    mapped_run_type := none, mapped_read_length := none
    samtools_stats_extraction := none
    samtools_stats_mapped_run_type_extraction := none
    samtools_stats_mapped_read_length_extraction := none
    CRISPR_guide_quant_validation := none, CRISPR_PAM_validation := none }

/-- The Ultima platform uuid (checkfiles.py:610). -/
def ultimaUuid : String := "25acccbd-cb36-463b-ac96-adbac11227e6"

/-- The PacBio/Nanopore/Ultima platform uuids excluded from the
read-length check (checkfiles.py:649) and from the BAM mapped-property
extraction (checkfiles.py:1165). -/
def excludedPlatformUuids : List String :=
  ["ced61406-dcc6-43c4-bddd-4c977cc676e8",
   "c7564b38-ab4f-4c42-a401-3de48689a998",
   "e2be5728-5744-4da4-8881-cb9526d0389e",
   "7cc06b8c-5535-4a77-b719-4c23644e767d",
   "8f1a9a8c-3392-4032-92a8-5d196c9d7810",
   "6c275b37-018d-4bf8-85f6-6e3b830524a9",
   "6ce511d5-eeb3-41fc-bea7-8c38301e88c1",
   "25acccbd-cb36-463b-ac96-adbac11227e6"]

/-- Oracle environment of one `process_fastq_file` run: the portal
lookups, the decoded byte stream (`none` for a line that raises
`UnicodeDecodeError`), and an optional `IOError` point. -/
structure FqEnv where
  /-- `get_platform_uuid` (checkfiles.py:840): network failure text, or
  the uuid (`none` when the record names no platform). -/
  platformLookup : Except String (Option String)
  /-- `get_read_name_details` (checkfiles.py:827). -/
  detailsLookup : Except String (Option ReadNameDetails)
  lines : List (Option String)
  /-- `some n`: the stream raises `IOError` after `n` elements. -/
  ioErrorAfter : Option Nat
  sigSearch : String → Except String (List SearchEntry)

/-- The scan loop of `process_fastq_file` (checkfiles.py:598-625);
returns the final accumulators, the read count and the line index, or
`none` on an uncaught exception in the read-name machinery. -/
def fqScanLoop (pick : List String → String) (platform_uuid : Option String)
    (details : Option ReadNameDetails) :
    List (Option String) → FqState → Nat → Nat → Option (FqState × Nat × Nat)
  | [], st, read_count, line_index => some (st, read_count, line_index)
  | encoded :: rest, st, read_count, line_index =>
    match encoded with
    | none =>
      fqScanLoop pick platform_uuid details rest
        { st with errors := (dset st.errors "readname_encoding"
            "Error occured, while decoding the readname string.") }
        read_count line_index
    | some line =>
      let li := line_index + 1
      match
        (if li = 1 ∧ platform_uuid ≠ some ultimaUuid then
          process_read_name_line pick details 2 line false st
        else
          some st) with
      | none => none
      | some st =>
        if li = 2 then
          fqScanLoop pick platform_uuid details rest
            { st with read_lengths_dictionary :=
                (process_sequence_line line st.read_lengths_dictionary) }
            (read_count + 1) (li % 4)
        else
          fqScanLoop pick platform_uuid details rest st read_count (li % 4)

/-- Insertion of a pair into a key-sorted list (for
`sorted(read_lengths_dictionary.keys())`). -/
def insertByKey (x : Nat × Nat) : List (Nat × Nat) → List (Nat × Nat)
  | [] => [x]
  | y :: ys => if y.1 < x.1 then y :: insertByKey x ys else x :: y :: ys

/-- `[(k, d[k]) for k in sorted(d.keys())]` (checkfiles.py:644-646). -/
def sortByKey : List (Nat × Nat) → List (Nat × Nat)
  | [] => []
  | x :: xs => insertByKey x (sortByKey xs)

/-- The outcome of `process_fastq_file`: the mutated error dict and
result bag, plus the final accumulators (exposed for the statements). -/
structure FqOut where
  errors : Dict
  result : Result
  state : FqState
  deriving Repr, DecidableEq

/-- The read1/read2 consistency block (checkfiles.py:633-641). -/
def fqMixedCheck (platform_uuid : Option String) (st : FqState) : FqState :=
  if platform_uuid ≠ some ultimaUuid ∧ st.read_numbers_set.length > 1 then
    { st with errors := (update_content_error
        (dset st.errors "inconsistent_read_numbers"
          ("fastq file contains mixed read numbers " ++
            String.intercalate ", " (pySort st.read_numbers_set) ++ "."))
        "Fastq file contains a mixture of read1 and read2 sequences") }
  else
    st

/-- The read-length block (checkfiles.py:643-673). -/
def fqReadLength (platform_uuid : Option String) (item : Item) (read_count : Nat)
    (st : FqState) : FqState :=
  if platform_uuid.all (fun u => u ∉ excludedPlatformUuids) then
    match item.read_length with
    | some submitted =>
      if submitted > 2 then
        { st with errors := (process_read_lengths st.read_lengths_dictionary
            (sortByKey st.read_lengths_dictionary) submitted read_count st.errors) }
      else
        { st with errors := (noReadLengthError st) }
    | none => { st with errors := (noReadLengthError st) }
  else
    st
where
  /-- The `else` branch of the read-length block: the record declares no
  usable read length (checkfiles.py:666-673). -/
  noReadLengthError (st : FqState) : Dict :=
    update_content_error
      (dset st.errors "read_length"
        ("no specified read length in the uploaded fastq file, " ++
          "while read length(s) found in the file were " ++
          String.intercalate ", " ((sortByKey st.read_lengths_dictionary).map strOfPair) ++ ". "))
      ("Fastq file metadata lacks read length information, " ++
        "but the file contains read length(s) " ++
        String.intercalate ", " ((sortByKey st.read_lengths_dictionary).map strOfPair))

/-- The `signatures_for_comparison` computation (checkfiles.py:678-696). -/
def signaturesForComparison (item : Item) (st : FqState) : Option (List String) :=
  if st.old_illumina_current_pfx = "empty" ∧
      (truthyList item.flowcell_details &&
        (item.flowcell_details.getD []).any (fun entry => entry.barcode = some "UMI")) then
    some (st.signatures_no_barcode_set.foldl (fun acc entry => sadd acc (entry ++ "UMI:")) [])
  else
    if st.old_illumina_current_pfx = "empty" ∧ st.signatures_set.length > 100 then
      match process_barcodes st.signatures_set with
      | none => none
      | some kept =>
        if kept.length = 0 then
          some (st.signatures_no_barcode_set.foldl (fun acc entry => sadd acc (entry ++ "mixed:")) [])
        else
          some kept
    else
      some st.signatures_set

/-- The post-scan phase of `process_fastq_file` (checkfiles.py:628-704):
read-count reporting, the read1/read2 and read-length checks, the
Ultima early return, and the signature phase. -/
def fqPostScan (sigSearch : String → Except String (List SearchEntry))
    (pu : Option String) (item : Item) (result0 : Result)
    (st0 : FqState) (read_count : Nat) : Option FqOut :=
  let result := { result0 with read_count := some read_count }
  let st := fqReadLength pu item read_count (fqMixedCheck pu st0)
  if pu = some ultimaUuid then
    some { errors := st.errors, result := result, state := st }
  else
    match signaturesForComparison item st with
    | none => none
    | some sfc =>
      let result := { result with fastq_signature := some (pySort sfc) }
      let checked := check_for_fastq_signature_conflicts sigSearch st.errors item sfc
      some { errors := checked.1, result := result,
             state := { st with errors := checked.1 } }

/-- `process_fastq_file` (checkfiles.py:583).  `none` models an uncaught
exception (a crash of the job). -/
def process_fastq_file (pick : List String → String) (env : FqEnv)
    (item : Item) (errors0 : Dict) (result0 : Result) : Option FqOut :=
  let pe :=
    match env.platformLookup with
    | .error e =>
      (none, dset errors0 "lookup_for_platform"
        ("Network error occured, while looking for platform on the portal. " ++ e))
    | .ok u => (u, errors0)
  let de :=
    match env.detailsLookup with
    | .error e =>
      ((none : Option ReadNameDetails), dset pe.2 "lookup_for_read_name_detaisl"
        ("Network error occured, while looking for file read_name details on the portal. " ++ e))
    | .ok d => (d, pe.2)
  match env.ioErrorAfter with
  | some n =>
    -- the stream breaks with IOError after n elements: the `else`
    -- branch of the try does not run, no result field is written
    match fqScanLoop pick pe.1 de.1 (env.lines.take n) (initFqState de.2) 0 0 with
    | none => none
    | some (st, _, _) =>
      some { errors := dset st.errors "unzipped_fastq_streaming"
              "Error occured, while streaming unzipped fastq."
             result := result0
             state := st }
  | none =>
    match fqScanLoop pick pe.1 de.1 env.lines (initFqState de.2) 0 0 with
    | none => none
    | some (st, read_count, _) =>
      fqPostScan env.sigSearch pe.1 item result0 st read_count

/-! ### Concrete set-iteration oracles and streams -/

/-- Iteration order taking the first element of the insertion-ordered
set representation. -/
def pickHead : List String → String := fun l => l.headD ""

/-- Iteration order taking the last element (a different but equally
valid hash order). -/
def pickLast : List String → String := fun l => l.getLastD ""

/-- A fastq file record under checking. -/
def c4item : Item :=
  { accession := some "ENCFF000TST", md5sum := "d41d8cd98f00b204e9800998ecf8427e",
    file_format := "fastq", file_format_type := none, output_type := some "reads",
    assembly := none, genome_annot := none, read_length := some 4,
    flowcell_details := none, status := "uploading", no_file_available := false }

/-- A stream whose second read is SRR-style with three dot-separated
fields: its `srr_flag` recursion picks from the two-element
`read_numbers_set` left by the first read. -/
def c4env : FqEnv :=
  { platformLookup := .ok none, detailsLookup := .ok none,
    lines := [some "@A:1:FC:1:2:3:4 2:N:0:ACGT", some "ACGT", some "+", some "IIII",
      some "@SRR123.4.1 A:1:FC:1:2:3:4", some "ACGT", some "+", some "IIII"],
    ioErrorAfter := none, sigSearch := fun _ => .ok [] }

/-- A single-read stream: no srr path, the oracle is never consulted
ambiguously. -/
def c4wenv : FqEnv :=
  { platformLookup := .ok none, detailsLookup := .ok none,
    lines := [some "@A:1:FC:1:2:3:4 1:N:0:ACGT", some "ACGT", some "+", some "IIII"],
    ioErrorAfter := none, sigSearch := fun _ => .ok [] }

/-- The `c4wenv` stream with the Ultima platform. -/
def c9env : FqEnv :=
  { platformLookup := .ok (some ultimaUuid), detailsLookup := .ok none,
    lines := [some "@A:1:FC:1:2:3:4 1:N:0:ACGT", some "ACGT", some "+", some "IIII"],
    ioErrorAfter := none, sigSearch := fun _ => .ok [] }

/-- The concrete outcome of the `c4wenv` run (total by construction;
the default is never taken). -/
def c8wout : FqOut :=
  (process_fastq_file pickHead c4wenv c4item [] emptyResult).getD
    ⟨[], emptyResult, initFqState []⟩

/-- A file record declaring two `(lane, barcode)` flowcell pairs. -/
def c3item : Item :=
  { accession := some "ENCFF000AAA", md5sum := "d41d8cd98f00b204e9800998ecf8427e",
    file_format := "fastq", file_format_type := none, output_type := some "reads",
    assembly := none, genome_annot := none, read_length := some 4,
    flowcell_details := some [{ lane := some 1, barcode := some "ACGT" },
      { lane := some 2, barcode := some "TTTT" }],
    status := "uploading", no_file_available := false }

/-- A search hit from another file whose `(lane, barcode)` set
intersects the one of `c3item`. -/
def c3entry : SearchEntry :=
  { accession := some "ENCFF000BBB",
    flowcell_details := some [{ lane := some 1, barcode := some "ACGT" }] }

/-! ## `check_format` (checkfiles.py:82-260) -/

/-- A single-quote character, for building the source's messages. -/
def sq : String := (Char.ofNat 39).toString

/-- `'{}'.format(x)` for a possibly-`None` string. -/
def strOfOptStr : Option String → String
  | none => "None"
  | some s => s

/-- `str.rstrip('\n')`. -/
def pyRstripNl (s : String) : String :=
  ((s.data.reverse.dropWhile (fun c => c = Char.ofNat 10)).reverse).asString

/-- Hexadecimal digit test. -/
def isHexDigitC (c : Char) : Bool :=
  c.isDigit || (97 ≤ c.toNat && c.toNat ≤ 102) || (65 ≤ c.toNat && c.toNat ≤ 70)

/-- `int(s, 16)` succeeds: optional surrounding whitespace, optional
sign, optional `0x`/`0X`, then hex digits (digit-group underscores are
not modelled). -/
def pyIsHexInt (s : String) : Bool :=
  let t := pyStripList s.data
  let t := match t with
    | c :: r => if c = Char.ofNat 43 ∨ c = Char.ofNat 45 then r else c :: r
    | [] => []
  let t := match t with
    | c0 :: cx :: r => if c0 = Char.ofNat 48 ∧ (cx = Char.ofNat 120 ∨ cx = Char.ofNat 88) then r else c0 :: cx :: r
    | r => r
  !t.isEmpty && t.all isHexDigitC

/-- `int(s)` (base 10): optional surrounding whitespace, optional sign,
then digits (digit-group underscores are not modelled). -/
def pyParseInt (s : String) : Option Int :=
  let t := pyStripList s.data
  match t with
  | c :: r =>
    if c = Char.ofNat 45 then
      if !r.isEmpty && r.all Char.isDigit then
        some (-(Int.ofNat (r.foldl (fun a ch => a * 10 + (ch.toNat - 48)) 0)))
      else none
    else
      let t := if c = Char.ofNat 43 then r else c :: r
      if !t.isEmpty && t.all Char.isDigit then
        some (Int.ofNat (t.foldl (fun a ch => a * 10 + (ch.toNat - 48)) 0))
      else none
  | [] => none

/-- `v in s` as a `Bool`. -/
def strContainsB (s v : String) : Bool :=
  decide (strContains s v)

/-- `GZIP_TYPES` (checkfiles.py:26). -/
def GZIP_TYPES : List String :=
  ["CEL", "bam", "bed", "bedpe", "csfasta", "csqual", "fasta", "fastq",
   "gff", "gtf", "tagAlign", "tar", "txt", "sam", "wig", "vcf", "pairs"]

/-- Environment of one `check_format` call: the outputs of the two
subprocess invocations (`samtools quickcheck` and `validateFiles`),
`.error` for a `CalledProcessError` with the decoded output. -/
structure CheckFormatEnv where
  quickcheckOut : Except String String
  validateOut : Except String String

/-- `validate_map.get((file_format, file_format_type))`
(checkfiles.py:124-217).  `none` stands both for an absent key and for
an explicitly `None` entry (`gtf`, `tar`, `tsv`, `csv`, `2bit`, `CEL`,
`sam`, `wig`, `hdf5`, `hic`, `gff`, `vcf`, `btr`): the source tests
`validate_args is None`, which identifies the two. -/
def validate_map (chromInfo encValData : String) :
    String → Option String → Option (List String)
  | "fasta", none => some ["-type=fasta"]
  | "fastq", none => some ["-type=fastq"]
  | "bam", none => some ["-type=bam", chromInfo]
  | "bigWig", none => some ["-type=bigWig", chromInfo]
  | "bigInteract", none => some ["-type=bigBed5+13", chromInfo, "-as=" ++ encValData ++ "/as/interact.as"]
  | "bed", some "bed3" => some ["-type=bed3", chromInfo]
  | "bigBed", some "bed3" => some ["-type=bigBed3", chromInfo]
  | "bed", some "bed5" => some ["-type=bed5", chromInfo]
  | "bigBed", some "bed5" => some ["-type=bigBed5", chromInfo]
  | "bed", some "bed6" => some ["-type=bed6", chromInfo]
  | "bigBed", some "bed6" => some ["-type=bigBed6", chromInfo]
  | "bed", some "bed9" => some ["-type=bed9", chromInfo]
  | "bigBed", some "bed9" => some ["-type=bigBed9", chromInfo]
  | "bedGraph", none => some ["-type=bedGraph", chromInfo]
  | "bed", some "bed3+" => some ["-tab", "-type=bed3+", chromInfo]
  | "bigBed", some "bed3+" => some ["-tab", "-type=bigBed3+", chromInfo]
  | "bed", some "bed6+" => some ["-tab", "-type=bed6+", chromInfo]
  | "bigBed", some "bed6+" => some ["-tab", "-type=bigBed6+", chromInfo]
  | "bed", some "bed9+" => some ["-tab", "-type=bed9+", chromInfo]
  | "bigBed", some "bed9+" => some ["-tab", "-type=bigBed9+", chromInfo]
  | "bed", some "unknown" => some ["-tab", "-type=bed3+", chromInfo]
  | "bigBed", some "unknown" => some ["-tab", "-type=bigBed3+", chromInfo]
  | "bed", some "bedLogR" => some ["-type=bed9+1", chromInfo, "-as=" ++ encValData ++ "/as/bedLogR.as"]
  | "bigBed", some "bedLogR" => some ["-type=bigBed9+1", chromInfo, "-as=" ++ encValData ++ "/as/bedLogR.as"]
  | "bed", some "bedMethyl" => some ["-type=bed9+2", chromInfo, "-as=" ++ encValData ++ "/as/bedMethyl.as"]
  | "bigBed", some "bedMethyl" => some ["-type=bigBed9+2", chromInfo, "-as=" ++ encValData ++ "/as/bedMethyl.as"]
  | "bed", some "broadPeak" => some ["-type=bed6+3", chromInfo, "-as=" ++ encValData ++ "/as/broadPeak.as"]
  | "bigBed", some "broadPeak" => some ["-type=bigBed6+3", chromInfo, "-as=" ++ encValData ++ "/as/broadPeak.as"]
  | "bed", some "gappedPeak" => some ["-type=bed12+3", chromInfo, "-as=" ++ encValData ++ "/as/gappedPeak.as"]
  | "bigBed", some "gappedPeak" => some ["-type=bigBed12+3", chromInfo, "-as=" ++ encValData ++ "/as/gappedPeak.as"]
  | "bed", some "narrowPeak" => some ["-type=bed6+4", chromInfo, "-as=" ++ encValData ++ "/as/narrowPeak.as"]
  | "bigBed", some "narrowPeak" => some ["-type=bigBed6+4", chromInfo, "-as=" ++ encValData ++ "/as/narrowPeak.as"]
  | "bed", some "bedRnaElements" => some ["-type=bed6+3", chromInfo, "-as=" ++ encValData ++ "/as/bedRnaElements.as"]
  | "bigBed", some "bedRnaElements" => some ["-type=bed6+3", chromInfo, "-as=" ++ encValData ++ "/as/bedRnaElements.as"]
  | "bed", some "bedExonScore" => some ["-type=bed6+3", chromInfo, "-as=" ++ encValData ++ "/as/bedExonScore.as"]
  | "bigBed", some "bedExonScore" => some ["-type=bigBed6+3", chromInfo, "-as=" ++ encValData ++ "/as/bedExonScore.as"]
  | "bed", some "bedRrbs" => some ["-type=bed9+2", chromInfo, "-as=" ++ encValData ++ "/as/bedRrbs.as"]
  | "bigBed", some "bedRrbs" => some ["-type=bigBed9+2", chromInfo, "-as=" ++ encValData ++ "/as/bedRrbs.as"]
  | "bed", some "enhancerAssay" => some ["-type=bed9+1", chromInfo, "-as=" ++ encValData ++ "/as/enhancerAssay.as"]
  | "bigBed", some "enhancerAssay" => some ["-type=bigBed9+1", chromInfo, "-as=" ++ encValData ++ "/as/enhancerAssay.as"]
  | "bed", some "modPepMap" => some ["-type=bed9+7", chromInfo, "-as=" ++ encValData ++ "/as/modPepMap.as"]
  | "bigBed", some "modPepMap" => some ["-type=bigBed9+7", chromInfo, "-as=" ++ encValData ++ "/as/modPepMap.as"]
  | "bed", some "pepMap" => some ["-type=bed9+7", chromInfo, "-as=" ++ encValData ++ "/as/pepMap.as"]
  | "bigBed", some "pepMap" => some ["-type=bigBed9+7", chromInfo, "-as=" ++ encValData ++ "/as/pepMap.as"]
  | "bed", some "openChromCombinedPeaks" => some ["-type=bed9+12", chromInfo, "-as=" ++ encValData ++ "/as/openChromCombinedPeaks.as"]
  | "bigBed", some "openChromCombinedPeaks" => some ["-type=bigBed9+12", chromInfo, "-as=" ++ encValData ++ "/as/openChromCombinedPeaks.as"]
  | "bed", some "peptideMapping" => some ["-type=bed6+4", chromInfo, "-as=" ++ encValData ++ "/as/peptideMapping.as"]
  | "bigBed", some "peptideMapping" => some ["-type=bigBed6+4", chromInfo, "-as=" ++ encValData ++ "/as/peptideMapping.as"]
  | "bed", some "shortFrags" => some ["-type=bed6+21", chromInfo, "-as=" ++ encValData ++ "/as/shortFrags.as"]
  | "bigBed", some "shortFrags" => some ["-type=bigBed6+21", chromInfo, "-as=" ++ encValData ++ "/as/shortFrags.as"]
  | "bed", some "encode_elements_H3K27ac" => some ["-tab", "-type=bed9+1", chromInfo, "-as=" ++ encValData ++ "/as/encode_elements_H3K27ac.as"]
  | "bigBed", some "encode_elements_H3K27ac" => some ["-tab", "-type=bigBed9+1", chromInfo, "-as=" ++ encValData ++ "/as/encode_elements_H3K27ac.as"]
  | "bed", some "encode_elements_H3K9ac" => some ["-tab", "-type=bed9+1", chromInfo, "-as=" ++ encValData ++ "/as/encode_elements_H3K9ac.as"]
  | "bigBed", some "encode_elements_H3K9ac" => some ["-tab", "-type=bigBed9+1", chromInfo, "-as=" ++ encValData ++ "/as/encode_elements_H3K9ac.as"]
  | "bed", some "encode_elements_H3K4me1" => some ["-tab", "-type=bed9+1", chromInfo, "-as=" ++ encValData ++ "/as/encode_elements_H3K4me1.as"]
  | "bigBed", some "encode_elements_H3K4me1" => some ["-tab", "-type=bigBed9+1", chromInfo, "-as=" ++ encValData ++ "/as/encode_elements_H3K4me1.as"]
  | "bed", some "encode_elements_H3K4me3" => some ["-tab", "-type=bed9+1", chromInfo, "-as=" ++ encValData ++ "/as/encode_elements_H3K4me3.as"]
  | "bigBed", some "encode_elements_H3K4me3" => some ["-tab", "-type=bigBed9+1", chromInfo, "-as=" ++ encValData ++ "/as/encode_elements_H3K4me3.as"]
  | "bed", some "dnase_master_peaks" => some ["-tab", "-type=bed9+1", chromInfo, "-as=" ++ encValData ++ "/as/dnase_master_peaks.as"]
  | "bigBed", some "dnase_master_peaks" => some ["-tab", "-type=bigBed9+1", chromInfo, "-as=" ++ encValData ++ "/as/dnase_master_peaks.as"]
  | "bed", some "encode_elements_dnase_tf" => some ["-tab", "-type=bed5+1", chromInfo, "-as=" ++ encValData ++ "/as/encode_elements_dnase_tf.as"]
  | "bigBed", some "encode_elements_dnase_tf" => some ["-tab", "-type=bigBed5+1", chromInfo, "-as=" ++ encValData ++ "/as/encode_elements_dnase_tf.as"]
  | "bed", some "candidate enhancer predictions" => some ["-type=bed3+", chromInfo, "-as=" ++ encValData ++ "/as/candidate_enhancer_prediction.as"]
  | "bigBed", some "candidate enhancer predictions" => some ["-type=bigBed3+", chromInfo, "-as=" ++ encValData ++ "/as/candidate_enhancer_prediction.as"]
  | "bed", some "enhancer predictions" => some ["-type=bed3+", chromInfo, "-as=" ++ encValData ++ "/as/enhancer_prediction.as"]
  | "bigBed", some "enhancer predictions" => some ["-type=bigBed3+", chromInfo, "-as=" ++ encValData ++ "/as/enhancer_prediction.as"]
  | "bed", some "idr_peak" => some ["-type=bed6+", chromInfo, "-as=" ++ encValData ++ "/as/idr_peak.as"]
  | "bigBed", some "idr_peak" => some ["-type=bigBed6+", chromInfo, "-as=" ++ encValData ++ "/as/idr_peak.as"]
  | "bed", some "tss_peak" => some ["-type=bed6+", chromInfo, "-as=" ++ encValData ++ "/as/tss_peak.as"]
  | "bigBed", some "tss_peak" => some ["-type=bigBed6+", chromInfo, "-as=" ++ encValData ++ "/as/tss_peak.as"]
  | "bed", some "idr_ranked_peak" => some ["-type=bed6+14", chromInfo, "-as=" ++ encValData ++ "/as/idr_ranked_peak.as"]
  | "bed", some "element enrichments" => some ["-type=bed6+5", chromInfo, "-as=" ++ encValData ++ "/as/mpra_starr.as"]
  | "bigBed", some "element enrichments" => some ["-type=bigBed6+5", chromInfo, "-as=" ++ encValData ++ "/as/mpra_starr.as"]
  | "bed", some "CRISPR element quantifications" => some ["-type=bed3+22", chromInfo, "-as=" ++ encValData ++ "/as/element_quant_format.as"]
  | "bedpe", none => some ["-type=bed3+", chromInfo]
  | "bedpe", some "mango" => some ["-type=bed3+", chromInfo]
  | "rcc", none => some ["-type=rcc"]
  | "idat", none => some ["-type=idat"]
  | "tagAlign", none => some ["-type=tagAlign", chromInfo]
  | "csfasta", none => some ["-type=csfasta"]
  | "csqual", none => some ["-type=csqual"]
  | _, _ => none

/-- The `if not subreads:` tail of `check_format`
(checkfiles.py:226-260): `samtools quickcheck` for bams, then the
`validateFiles` run. -/
def checkFormatCore (env : CheckFormatEnv) (encValData : String) (item : Item)
    (errors0 : Dict) (result0 : Result) (chromInfo : String) (subreads : Bool) :
    Dict × Result :=
  if subreads then
    (errors0, result0)
  else
    let er1 :=
      if item.file_format = "bam" then
        match env.quickcheckOut with
        | .error e =>
          (update_content_error (dset errors0 "bamValidation" e)
            ("File failed bam validation (samtools quickcheck). " ++ e), result0)
        | .ok o => (errors0, { result0 with bamValidation := some o })
      else (errors0, result0)
    match validate_map chromInfo encValData item.file_format item.file_format_type with
    | none => er1
    | some validate_args =>
      if chromInfo ∈ validate_args ∧ item.assembly = none then
        (update_content_error (dset er1.1 "assembly" "missing assembly")
          "File metadata lacks assembly information", er1.2)
      else
        let result2 := { er1.2 with validateFiles_args :=
          (some (String.intercalate " " validate_args)) }
        match env.validateOut with
        | .error e =>
          (update_content_error (dset er1.1 "validateFiles" e)
            ("File failed file format specific validation (encValData) " ++ e), result2)
        | .ok o => (er1.1, { result2 with validateFiles := some o })

/-- `check_format` (checkfiles.py:82): the `ASSEMBLY_MAP` lookup, the
three `chromInfo`/`subreads` header cases, then `checkFormatCore`. -/
def check_format (env : CheckFormatEnv) (encValData : String) (item : Item)
    (errors0 : Dict) (result0 : Result) : Dict × Result :=
  let assembly :=
    match item.assembly with
    | some "GRCh38-minimal" => some "GRCh38"
    | some "mm10-minimal" => some "mm10"
    | a => a
  if item.file_format = "bam" ∧
      (item.output_type = some "transcriptome alignments" ∨
        item.output_type = some "gene alignments" ∨
        item.output_type = some "redacted transcriptome alignments") then
    let errors1 :=
      if item.assembly = none then
        update_content_error (dset errors0 "assembly" "missing assembly")
          "File metadata lacks assembly information"
      else errors0
    let errors2 :=
      if item.genome_annot = none then
        update_content_error (dset errors1 "genome_annotation" "missing genome_annotation")
          "File metadata lacks genome annotation information"
      else errors1
    if errors2 ≠ [] then
      (errors2, result0)
    else
      let chromInfo :=
        if item.output_type = some "transcriptome alignments" ∨
            item.output_type = some "redacted transcriptome alignments" then
          "-chromInfo=" ++ encValData ++ "/" ++ strOfOptStr assembly ++ "/" ++
            strOfOptStr item.genome_annot ++ "/chrom.sizes"
        else
          "-chromInfo=" ++ encValData ++ "/" ++ strOfOptStr assembly ++ "/" ++
            strOfOptStr item.genome_annot ++ "/gene.sizes"
      checkFormatCore env encValData item errors2 result0 chromInfo false
  else if item.file_format = "bam" ∧ item.output_type = some "subreads" then
    checkFormatCore env encValData item errors0 result0 "" true
  else
    checkFormatCore env encValData item errors0 result0
      ("-chromInfo=" ++ encValData ++ "/" ++ strOfOptStr assembly ++ "/chrom.sizes") false

/-! ## `check_for_contentmd5sum_conflicts` (checkfiles.py:971) -/

/-- Python `str` of a list of strings (`str(conflicts)`). -/
def pyReprStrList (l : List String) : String :=
  "[" ++ String.intercalate ", " (l.map (fun s => sq ++ s ++ sq)) ++ "]"

/-- Portal response of the content-md5 conflict search: a network
error (`RequestException`), a JSON decoding error (`str(r)`), or the
`@graph` list reduced to the entries' optional accessions. -/
inductive MdSearchResp where
  | netErr (e : String)
  | jsonErr (s : String)
  | ok (graph : List (Option String))

/-- `check_for_contentmd5sum_conflicts` (checkfiles.py:971). -/
def check_for_contentmd5sum_conflicts (mdSearch : MdSearchResp) (item : Item)
    (result0 : Result) (output : String) (errors : Dict) : Dict × Result :=
  let cm := pyTake 32 output
  let result := { result0 with content_md5sum := some cm }
  if ! pyIsHexInt cm then
    (update_content_error (dset errors "content_md5sum" (pyRstripNl output))
      "File content md5sum format error", result)
  else
    match mdSearch with
    | .netErr e =>
      (dset errors "lookup_for_content_md5sum"
        ("Network error occured, while looking for content md5sum conflict on the portal. " ++ e),
       result)
    | .jsonErr st => (dset errors "content_md5sum_lookup_json_error" st, result)
    | .ok graph =>
      if graph.length > 0 then
        let conflicts := graph.foldl
          (fun cs entry =>
            match entry, item.accession with
            | some ea, some ia =>
              if ea ≠ ia then cs ++ [cm ++ " in file " ++ ea ++ " "] else cs
            | some ea, none => cs ++ [cm ++ " in file " ++ ea ++ " "]
            | none, none => cs ++ [cm ++ " "]
            | none, some _ => cs)
          []
        if conflicts.length > 0 then
          (update_content_error (dset errors "content_md5sum" (pyReprStrList conflicts))
            ("File content md5sum conflicts with content md5sum of existing file(s) " ++
              String.intercalate ", " conflicts), result)
        else (errors, result)
      else (errors, result)

/-! ## `validate_crispr` (checkfiles.py:262) -/

/-- Stdout line lists of the two CRISPR validation scripts. -/
structure CrisprEnv where
  guideLines : List String
  pamLines : List String

/-- One iteration of the guide-quantification line loop of
`validate_crispr` (checkfiles.py:285-297). -/
def crisprGuideStep (acc : Dict × Result × Bool) (line0 : String) :
    Dict × Result × Bool :=
  let line := pyStrip line0
  if strContainsB line "passed" then
    (acc.1, { acc.2.1 with CRISPR_guide_quant_validation := some line }, true)
  else
    (update_content_error (dset acc.1 "CRISPR_guide_quant_validation" line)
      ("File failed CRISPR guide quantification format validation " ++
        "(check_guide_quant_format.py). " ++ line),
     acc.2.1, acc.2.2)

/-- `validate_crispr` (checkfiles.py:262): the guide-quantification
line loop, then (if some line passed) the PAM check on the fourth
line. -/
def validate_crispr (env : CrisprEnv) (errors0 : Dict) (result0 : Result) :
    Dict × Result :=
  let g := env.guideLines.foldl crisprGuideStep (errors0, result0, false)
  if g.2.2 then
    match env.pamLines.get? 3 with
    | none => (g.1, g.2.1)
    | some l4 =>
      let line := pyStrip l4
      if strContainsB line
          "More than 80% of the PAMs are NGG. The coordinates are likely to be correct" then
        (g.1, { g.2.1 with CRISPR_PAM_validation := some line })
      else
        (update_content_error (dset g.1 "CRISPR_PAM_validation" line)
          ("File failed CRISPR PAM validation (check_PAM.py). " ++ line), g.2.1)
  else
    (g.1, g.2.1)

/-! ## The bam mapped-properties helpers (checkfiles.py:775, 805, 886) -/

/-- The error writes `get_platform_from_bams` (checkfiles.py:886) and
its callees `get_all_derived_from` and `get_platform_uuid` can make:
each constructor is one `except RequestException` site. -/
inductive BamLookupWrite where
  | derivedFrom (e : String)
  | fileDerivedFrom (e : String)
  | fileFmt (e : String)
  | plat (e : String)

/-- Apply one such write to the error dict, with the exact source
messages. -/
def applyBamLookupWrite (errors : Dict) : BamLookupWrite → Dict
  | .derivedFrom e =>
    dset errors "lookup_for_derived_from"
      ("Network error occured, while looking for derived_from on the portal. " ++ e)
  | .fileDerivedFrom e =>
    dset errors "lookup_for_file_derived_from"
      ("Network error occured, while looking for derived_from on the portal. " ++ e)
  | .fileFmt e =>
    dset errors "lookup_for_file"
      ("Network error occured, while looking for file_format on the portal. " ++ e)
  | .plat e =>
    dset errors "lookup_for_platform"
      ("Network error occured, while looking for platform on the portal. " ++ e)

/-- One iteration of the `samtools stats` line loop of
`get_mapped_run_type_bam` (checkfiles.py:782-794). -/
def mappedRunTypeStep (acc : Option (Option String × Dict × Result))
    (line0 : String) : Option (Option String × Dict × Result) :=
  match acc with
  | none => none
  | some (npr, errors, result) =>
    let line := pyStrip line0
    if strContainsB line "Failure" then
      some (npr, update_content_error (dset errors "samtools_stats_decoding_failure" line)
        ("File failed samtools stats extraction. " ++ line), result)
    else
      if strContainsB line "SN" ∧ strContainsB (pyStrip line) "reads paired" then
        let parts := pySplit (fun c => c = Char.ofNat 9) line
        match parts.get? 2 with
        | none => none
        | some npr2 =>
          some (some npr2, errors,
            { result with samtools_stats_mapped_run_type_extraction := some parts })
      else some (npr, errors, result)

/-- `get_mapped_run_type_bam` (checkfiles.py:775) on the stdout lines
of `samtools stats`; `none` models the uncaught `IndexError` /
`ValueError` on a malformed `reads paired` line. -/
def get_mapped_run_type_bam (lines : List String) (errors0 : Dict) (result0 : Result) :
    Option (Option String × Dict × Result) :=
  let scanned := lines.foldl mappedRunTypeStep (some (none, errors0, result0))
  match scanned with
  | none => none
  | some (npr, errors, result) =>
    match npr with
    | none => some (none, errors, result)
    | some nprs =>
      if nprs = "" then some (none, errors, result)
      else
        match pyParseInt nprs with
        | none => none
        | some n =>
          some (some (if n > 0 then "paired-ended" else "single-ended"), errors, result)

/-- One iteration of the line loop of `get_mapped_read_length_bam`
(checkfiles.py:812-824). -/
def mappedReadLengthStep (acc : Option (Option Int × Dict × Result))
    (line0 : String) : Option (Option Int × Dict × Result) :=
  match acc with
  | none => none
  | some (rl, errors, result) =>
    let line := pyStrip line0
    if strContainsB line "Failure" then
      some (rl, update_content_error (dset errors "samtools_stats_decoding_failure" line)
        ("File failed samtools stats extraction. " ++ line), result)
    else
      let parts := pySplit (fun c => c = Char.ofNat 9) line
      match pyParseInt (parts.getD 0 "") with
      | none => none
      | some n =>
        some (some n, errors,
          { result with samtools_stats_mapped_read_length_extraction := some parts })

/-- `get_mapped_read_length_bam` (checkfiles.py:805); `none` models the
uncaught `ValueError` on a non-numeric first field. -/
def get_mapped_read_length_bam (lines : List String) (errors0 : Dict) (result0 : Result) :
    Option (Option Int × Dict × Result) :=
  lines.foldl mappedReadLengthStep (some (none, errors0, result0))

/-! ## `remove_local_file` (checkfiles.py:1220) -/

/-- `remove_local_file`: given whether the path exists and whether
`os.remove` succeeds, return the new existence state and errors. -/
def remove_local_file (removeOk : Bool) (path : String) (exists0 : Bool)
    (errors : Dict) : Bool × Dict :=
  if exists0 then
    if removeOk then (false, errors)
    else (true, dset errors "file_remove_error" ("OS could not remove the file " ++ path))
  else (exists0, errors)

/-! ## `check_file` (checkfiles.py:1018) -/

/-- Python truthiness of `errors.get(k)` for a string-valued key. -/
def truthyOptStr : Option String → Bool
  | none => false
  | some s => s ≠ ""

/-- `os.path.join`. -/
def pyPathJoin (a b : String) : String :=
  if b.data.head? = some (Char.ofNat 47) then b
  else if a = "" ∨ a.data.getLast? = some (Char.ofNat 47) then a ++ b
  else a ++ "/" ++ b

/-- Python slicing `s[-a:-b]` for `a > b`. -/
def pySliceNeg (s : String) (a b : Nat) : String :=
  let n := s.data.length
  ((s.data.drop (n - a)).take ((n - b) - (n - a))).asString

/-- A canonical rendering of the `result` bag for the
`gathered information` message (`str(result)`).  Python's `str` of a
dict lists keys in insertion order; this rendering fixes a canonical
order instead — no caller reads the message back. -/
def reprResult (r : Result) : String :=
  let fields : List (Option String) := [
    r.file_size.map (fun v => sq ++ "file_size" ++ sq ++ ": " ++ toString v),
    r.last_modified.map (fun v => sq ++ "last_modified" ++ sq ++ ": " ++ sq ++ v ++ sq),
    r.md5sum.map (fun v => sq ++ "md5sum" ++ sq ++ ": " ++ sq ++ v ++ sq),
    r.content_md5sum.map (fun v => sq ++ "content_md5sum" ++ sq ++ ": " ++ sq ++ v ++ sq),
    r.validateFiles_args.map (fun v => sq ++ "validateFiles_args" ++ sq ++ ": " ++ sq ++ v ++ sq),
    r.validateFiles.map (fun v => sq ++ "validateFiles" ++ sq ++ ": " ++ sq ++ v ++ sq),
    r.bamValidation.map (fun v => sq ++ "bamValidation" ++ sq ++ ": " ++ sq ++ v ++ sq),
    r.read_count.map (fun v => sq ++ "read_count" ++ sq ++ ": " ++ toString v),
    r.fastq_signature.map (fun v => sq ++ "fastq_signature" ++ sq ++ ": " ++ pyReprStrList v),
    r.mapped_run_type.map (fun v => sq ++ "mapped_run_type" ++ sq ++ ": " ++ sq ++ v ++ sq),
    r.mapped_read_length.map (fun v => sq ++ "mapped_read_length" ++ sq ++ ": " ++ toString v),
    r.samtools_stats_extraction.map
      (fun v => sq ++ "samtools_stats_extraction" ++ sq ++ ": " ++ sq ++ v ++ sq),
    r.samtools_stats_mapped_run_type_extraction.map
      (fun v => sq ++ "samtools_stats_mapped_run_type_extraction" ++ sq ++ ": " ++ pyReprStrList v),
    r.samtools_stats_mapped_read_length_extraction.map
      (fun v => sq ++ "samtools_stats_mapped_read_length_extraction" ++ sq ++ ": " ++ pyReprStrList v),
    r.CRISPR_guide_quant_validation.map
      (fun v => sq ++ "CRISPR_guide_quant_validation" ++ sq ++ ": " ++ sq ++ v ++ sq),
    r.CRISPR_PAM_validation.map
      (fun v => sq ++ "CRISPR_PAM_validation" ++ sq ++ ": " ++ sq ++ v ++ sq)]
  "\x7b" ++ String.intercalate ", " (fields.filterMap id) ++ "\x7d"

/-- The `os.stat` outcome (checkfiles.py:1040-1058). -/
inductive StatResult where
  | fileNotFound
  | osError
  | ok (size : Nat) (lastModified : String)

/-- Environment of the bam mapped-properties block
(checkfiles.py:1159-1211). -/
structure BamEnv where
  lookupWrites : List BamLookupWrite
  platformList : List String
  statsProcFail : Bool
  runTypeLines : List String
  readLengthLines : List String

/-- A job record as built by `fetch_files` and consumed by
`check_file` and `patch_file`.  `item = none` models a job whose
`frame=edit` read failed (`job['item']` missing). -/
structure CJob where
  item : Option Item
  errors : Dict
  result : Result
  skip : Bool
  local_file : Option String
  download_url : Option String
  run_ts : String
  upload_expiration : Option String
  etag : String
  patched : Bool

/-- Oracle environment of one `check_file` run: filesystem and
subprocess outcomes, the portal responses, and whether `os.remove`
succeeds on the scratch bed. -/
structure CheckEnv where
  mirror : String
  encValData : String
  statResult : StatResult
  md5Out : Except String String
  gzipTest : Except String Bool
  contentMd5Out : Except String String
  mdSearch : MdSearchResp
  grepCountFail : Option (Int × String)
  bedCreateFail : Option (Int × String)
  checkFormat : CheckFormatEnv
  fastqProcFail : Bool
  fq : FqEnv
  crispr : CrisprEnv
  bam : BamEnv
  removeOk : Bool

/-- The bam mapped-properties block of `check_file`
(checkfiles.py:1161-1211), entered with a nonempty platform list
gate handled by the caller; `none` models the uncaught parse errors of
the two samtools helpers. -/
def bamBlock (env : CheckEnv) (local_path : String)
    (errors0 : Dict) (result0 : Result) : Option (Dict × Result) :=
  let errorsA := env.bam.lookupWrites.foldl applyBamLookupWrite errors0
  if env.bam.platformList ≠ [] then
    if env.bam.platformList.all (fun p => ! excludedPlatformUuids.contains p) then
      if env.bam.statsProcFail then
        let e := "Failed to extract information from " ++ local_path
        let errorsB := update_content_error (dset errorsA "samtools_stats_extraction" e)
          ("File failed samtools stats extraction " ++ e)
        let m := "Failed to extract mapped read length and/or mapped run type from " ++ local_path
        some (update_content_error (dset errorsB "missing_mapped_properties" m)
          ("File failed samtools stats extraction. " ++ m), result0)
      else
        match get_mapped_run_type_bam env.bam.runTypeLines errorsA result0 with
        | none => none
        | some (runType, errors1, result1) =>
          match get_mapped_read_length_bam env.bam.readLengthLines errors1 result1 with
          | none => none
          | some (readLength, errors2, result2) =>
            let result3 := { result2 with samtools_stats_extraction :=
              (some ("Failed to extract information from " ++ local_path)) }
            if truthyOptStr runType &&
                (match readLength with | some rl => rl != 0 | none => false) then
              some (errors2,
                { result3 with mapped_run_type := runType, mapped_read_length := readLength })
            else
              let m := "Failed to extract mapped read length and/or mapped run type from " ++
                local_path
              some (update_content_error (dset errors2 "missing_mapped_properties" m)
                ("File failed samtools stats extraction. " ++ m), result3)
    else some (errorsA, result0)
  else some (errorsA, result0)

/-- The gzip expectation, content-md5 and bed comment-stripping stage
of `check_file` (checkfiles.py:1087-1134).  The two booleans are
`is_local_bed_present` and whether the scratch bed file exists. -/
def gzStage (env : CheckEnv) (item : Item) (is_gzipped : Bool)
    (errors0 : Dict) (result0 : Result) : Dict × Result × Bool × Bool :=
  if ! GZIP_TYPES.contains item.file_format then
    (if is_gzipped then
      update_content_error (dset errors0 "gzip" "Expected un-gzipped file")
        "Expected un-gzipped file"
    else errors0, result0, false, false)
  else if ! is_gzipped then
    (update_content_error (dset errors0 "gzip" "Expected gzipped file")
      "Expected gzipped file", result0, false, false)
  else
    let cm : Dict × Result :=
      match env.contentMd5Out with
      | .error e => (dset errors0 "content_md5sum" e, result0)
      | .ok output => check_for_contentmd5sum_conflicts env.mdSearch item result0 output errors0
    if item.file_format = "bed" then
      match env.grepCountFail with
      | some (rc, out) =>
        (if rc > 1 then dset cm.1 "grep_bed_problem" out else cm.1, cm.2, false, false)
      | none =>
        match env.bedCreateFail with
        | some (rc, out) =>
          ((if rc > 1 then dset cm.1 "grep_bed_problem" out
            else dset cm.1 "bed_comments_remove_failure" out), cm.2, true, true)
        | none => (cm.1, cm.2, true, true)
    else (cm.1, cm.2, false, false)

/-- The `check_format` call and the scratch removal
(checkfiles.py:1136-1140), on the `gzStage` outcome. -/
def cfStage (env : CheckEnv) (item : Item) (unzipped : String)
    (gz : Dict × Result × Bool × Bool) : Dict × Result × Bool :=
  if gz.2.2.1 then
    let c := check_format env.checkFormat env.encValData item gz.1 gz.2.1
    let rm := remove_local_file env.removeOk unzipped gz.2.2.2 c.1
    (rm.2, c.2, rm.1)
  else
    let c := check_format env.checkFormat env.encValData item gz.1 gz.2.1
    (c.1, c.2, gz.2.2.2)

/-- The tail of `check_file` after a successful `is_path_gzipped` test
(checkfiles.py:1087-1217): the gzip/content/bed stage, the
`check_format`/removal stage, then the fastq, CRISPR and bam blocks,
the status check and the `gathered information` note.  The second
component of the returned pair is whether the scratch bed still
exists. -/
def checkFileAfterGzip (env : CheckEnv) (pick : List String → String) (job : CJob)
    (item : Item) (local_path unzipped : String) (is_gzipped : Bool)
    (errors0 : Dict) (result0 : Result) : Option (CJob × Bool) :=
  let gz := gzStage env item is_gzipped errors0 result0
  let cf := cfStage env item unzipped gz
  match (if item.file_format = "fastq" ∧ ! truthyOptStr (dget cf.1 "validateFiles") then
          (if env.fastqProcFail then
            some (dset cf.1 "fastq_information_extraction"
              ("Failed to extract information from " ++ local_path), cf.2.1)
          else
            match process_fastq_file pick env.fq item cf.1 cf.2.1 with
            | none => none
            | some out => some (out.errors, out.result))
        else some (cf.1, cf.2.1)) with
  | none => none
  | some fqr =>
    match (if item.file_format = "tsv" then
            match item.output_type with
            | none => none
            | some ot =>
              if ot = "guide quantifications" then
                match item.file_format_type with
                | none => some fqr
                | some fft =>
                  if fft = "guide quantifications" then
                    match item.assembly with
                    | none => some fqr
                    | some a =>
                      if a = "GRCh38" then some (validate_crispr env.crispr fqr.1 fqr.2)
                      else some fqr
                  else some fqr
              else some fqr
          else some fqr) with
    | none => none
    | some cr =>
      match (if item.file_format = "bam" ∧ ! truthyOptStr (dget cr.1 "validateFiles") then
              match item.output_type with
              | none => none
              | some ot =>
                if ! strContainsB ot "subreads" then
                  bamBlock env local_path cr.1 cr.2
                else some cr
            else some cr) with
      | none => none
      | some bm =>
        let errors1 := if item.status ≠ "uploading" then
            dset bm.1 "status_check"
              ("status " ++ sq ++ item.status ++ sq ++ " is not " ++ sq ++ "uploading" ++ sq)
          else bm.1
        let errors2 := if errors1 ≠ [] then
            dset errors1 "gathered information"
              ("Gathered information about the file was: " ++ reprResult bm.2 ++ ".")
          else errors1
        some ({ job with errors := errors2, result := bm.2 }, cf.2.2)

/-- The md5sum stage of `check_file` (checkfiles.py:1064-1081): record
the computed md5, flag a non-hex value, and flag a mismatch with the
declared md5. -/
def md5Stage (env : CheckEnv) (item : Item) (errors0 : Dict) (result0 : Result) :
    Dict × Result :=
  match env.md5Out with
  | .error e => (dset errors0 "md5sum" e, result0)
  | .ok output =>
    let computed := pyTake 32 output
    let result1 := { result0 with md5sum := some computed }
    let errors1 :=
      if ! pyIsHexInt computed then dset errors0 "md5sum" (pyRstripNl output)
      else errors0
    if computed ≠ item.md5sum then
      (update_content_error (dset errors1 "md5sum"
        ("checked " ++ computed ++ " does not match item " ++ item.md5sum))
        ("File metadata-specified md5sum " ++ item.md5sum ++
          " does not match the calculated md5sum " ++ computed), result1)
    else (errors1, result1)

/-- The main part of `check_file` from the `os.stat` call on
(checkfiles.py:1040-1217), with the local path resolved. -/
def checkFileMain (env : CheckEnv) (pick : List String → String) (job : CJob)
    (item : Item) (local_path : String) : Option (CJob × Bool) :=
  let unzipped := pySliceNeg local_path 18 7 ++ "_modified.bed"
  match env.statResult with
  | .fileNotFound =>
    match job.upload_expiration with
    | none => none
    | some exp =>
      let errors :=
        if strLt exp job.run_ts then
          dset job.errors "file_not_found" "File has not been uploaded yet."
        else
          dset job.errors "file_not_found_unexpired_credentials"
            ("File has not been uploaded yet, but the credentials are not expired, " ++
              "so the status was not changed.")
      some ({ job with errors := errors, skip := true }, false)
  | .osError =>
    some ({ job with errors := (dset job.errors "file_check_skipped_due_to_s3_connectivity"
        "File check was skipped due to temporary S3 connectivity issues"), skip := true }, false)
  | .ok size lm =>
    let er := md5Stage env item job.errors
      { job.result with file_size := some size, last_modified := some lm }
    match env.gzipTest with
    | .error _ => some ({ job with errors := er.1, result := er.2 }, false)
    | .ok is_gzipped =>
      checkFileAfterGzip env pick job item local_path unzipped is_gzipped er.1 er.2

/-- `check_file` (checkfiles.py:1018): `none` models an uncaught
exception (a crash of the job); otherwise the updated job and whether
the `_modified.bed` scratch file exists at return. -/
def check_file (env : CheckEnv) (pick : List String → String) (job0 : CJob) :
    Option (CJob × Bool) :=
  match job0.item with
  | none => none
  | some item =>
    let job := { job0 with result := emptyResult }
    if job.skip then some (job, false)
    else
      match job.local_file with
      | some lp => checkFileMain env pick job item lp
      | none =>
        if item.no_file_available then some (job, false)
        else
          match job.download_url with
          | none => none
          | some du =>
            checkFileMain env pick job item
              (pyPathJoin env.mirror ((du.data.drop 5).asString))

/-! ## `fetch_files` (checkfiles.py:1235) and `patch_file`
(checkfiles.py:1326) -/

/-- Portal responses seen while `fetch_files` builds one job from one
`@graph` entry (checkfiles.py:1273-1323). -/
structure FetchEnv where
  /-- `fileObject.ok`. -/
  fileObjectOk : Bool
  /-- `r.ok` of the `@@upload` request. -/
  uploadOk : Bool
  /-- `fileObject.json()['s3_uri']`: `none` models the `KeyError`. -/
  s3Uri : Option String
  /-- `upload_credentials['upload_url']`: `none` models the `KeyError`. -/
  uploadUrl : Option String
  /-- `upload_credentials.get('expiration', '')`. -/
  expiration : Option String
  /-- `'{} {}\n{}'.format(r.status_code, r.reason, r.text)` of the
  upload request. -/
  uploadStatusLine : String
  /-- `r.ok` of the `frame=edit` read. -/
  editOk : Bool
  /-- `r.headers['etag']` of the `frame=edit` read. -/
  editEtag : String
  /-- `r.json()` of the `frame=edit` read. -/
  editItem : Item
  /-- `'{} {}\n{}'` of the failed `frame=edit` read. -/
  editStatusLine : String
  /-- `datetime.datetime.utcnow().isoformat() + 'Z'`. -/
  runTs : String
  includeUnexpired : Bool
  localFile : Option String

/-- One iteration of the job-building loop of `fetch_files`
(checkfiles.py:1273-1323). -/
def fetch_job (env : FetchEnv) : CJob :=
  let errors : Dict := []
  let errors :=
    if ! env.fileObjectOk then
      dset errors "file_HTTPError" "HTTP error: unable to get file object"
    else errors
  let eduexp : Dict × Option String × Option String :=
    if env.fileObjectOk ∧ env.uploadOk then
      let edu : Dict × Option String :=
        match env.s3Uri with
        | some s => (errors, if s ≠ "" then some s else none)
        | none =>
          match env.uploadUrl with
          | some u => (errors, some u)
          | none => (dset errors "download_url_missing" "download url is missing", none)
      let exp := env.expiration.getD ""
      let errors2 :=
        if strLt env.runTs exp ∧ ! env.includeUnexpired then
          dset edu.1 "unexpired_credentials"
            ("File status have not been changed, the file check was skipped due to file" ++
              sq ++ "s unexpired upload credentials")
        else edu.1
      (errors2, edu.2, some exp)
    else
      (dset errors "get_upload_url_request" env.uploadStatusLine, none, none)
  let eie : Dict × Option Item × String :=
    if env.editOk then (eduexp.1, some env.editItem, env.editEtag)
    else (dset eduexp.1 "get_edit_request" env.editStatusLine, none, "")
  { item := eie.2.1
    errors := eie.1
    result := emptyResult
    skip := eie.1 ≠ []
    local_file := env.localFile
    download_url := eduexp.2.1
    run_ts := env.runTs
    upload_expiration := eduexp.2.2
    etag := eie.2.2
    patched := false }

/-- The `data` dict `patch_file` builds (checkfiles.py:1328-1362): one
typed field per possible key. -/
structure PatchData where
  status : Option String
  content_error_detail : Option String
  file_size : Option Nat
  read_count : Option Nat
  fastq_signature : Option (List String)
  content_md5sum : Option String
  mapped_run_type : Option String
  mapped_read_length : Option Int
  deriving Repr, DecidableEq

/-- `data = {}`. -/
def emptyPatchData : PatchData :=
  { status := none, content_error_detail := none, file_size := none
    read_count := none, fastq_signature := none, content_md5sum := none
    mapped_run_type := none, mapped_read_length := none }

/-- The fresh `frame=edit` response fetched by `patch_file` before
patching (checkfiles.py:1365). -/
structure EtagResp where
  ok : Bool
  etag : String
  json_status : String
  deriving Repr, DecidableEq

/-- Oracle environment of one `patch_file` run. -/
structure PatchEnv where
  /-- `.error e` models the `RequestException` (`str(e)`). -/
  etagFetch : Except String EtagResp
  /-- `r.ok` of the PATCH itself. -/
  patchOk : Bool
  /-- `'{} {}\n{}'` of the failed PATCH. -/
  patchFailLine : String

/-- The outcome of `patch_file`: the final error dict, the PATCH
request issued (`If-Match` header and body), if any, and the `patched`
flag. -/
structure PatchOutcome where
  errors : Dict
  request : Option (String × PatchData)
  patched : Bool

/-- The error promotion and the `data` dict built by `patch_file`
(checkfiles.py:1328-1362): the possibly updated errors and the body. -/
def patchData (job : CJob) : Dict × PatchData :=
  let result := job.result
  let ed : Dict × PatchData :=
    if job.errors = [] ∧ job.skip = false then
      (job.errors, { emptyPatchData with status := some "in progress" })
    else
      let errors2 :=
        match dget job.errors "fastq_format_readname" with
        | some v =>
          update_content_error job.errors
            ("Fastq file contains read names that don’t follow " ++
              "the Illumina standard naming schema; for example " ++ v)
        | none => job.errors
      let d1 :=
        match dget errors2 "content_error" with
        | some ce =>
          { emptyPatchData with status := some "content error"
                                content_error_detail := some (pyStrip (pyTake 5000 ce)) }
        | none => emptyPatchData
      let d2 :=
        match dget errors2 "file_not_found" with
        | some _ => { emptyPatchData with status := some "upload failed" }
        | none => d1
      (errors2, d2)
  (ed.1,
    { ed.2 with
      file_size := result.file_size
      read_count := result.read_count
      fastq_signature :=
        (match result.fastq_signature with
         | some l => if l ≠ [] then some l else none
         | none => none)
      content_md5sum := result.content_md5sum
      mapped_run_type := result.mapped_run_type
      mapped_read_length := result.mapped_read_length })

/-- `patch_file` (checkfiles.py:1326).  `none` models the uncaught
`KeyError` of the etag-mismatch message on a job without an `item`. -/
def patch_file (env : PatchEnv) (job : CJob) : Option PatchOutcome :=
  let ed := patchData job
  let data := ed.2
  if data ≠ emptyPatchData then
    match env.etagFetch with
    | .error e =>
      let msg := "Network error occured, while looking for etag of the file object to be " ++
        "patched on the portal. " ++ e
      some { errors := (dset ed.1 "lookup_for_etag" msg), request := none, patched := false }
    | .ok resp =>
      if resp.ok then
        if job.etag = resp.etag then
          if env.patchOk then
            some { errors := ed.1, request := some (job.etag, data), patched := true }
          else
            some { errors := (dset ed.1 "patch_file_request" env.patchFailLine)
                   request := some (job.etag, data)
                   patched := false }
        else
          match job.item with
          | none => none
          | some it =>
            let msg := "Original etag was " ++ job.etag ++ ", but the current etag is " ++
              resp.etag ++ "." ++ " File " ++ it.accession.getD "UNKNOWN" ++ " " ++
              "was " ++ it.status ++ " and now is " ++ resp.json_status ++ "."
            some { errors := (dset ed.1 "etag_does_not_match" msg)
                   request := none
                   patched := false }
      else
        some { errors := ed.1, request := none, patched := false }
  else
    some { errors := ed.1, request := none, patched := false }

/-- The md5-mismatch content-error message (checkfiles.py:1079-1081). -/
def c6msg (declared computed : String) : String :=
  "File metadata-specified md5sum " ++ declared ++
    " does not match the calculated md5sum " ++ computed

/-- A bed3 file record under checking. -/
def c7item : Item :=
  { accession := some "ENCFF000BED", md5sum := "d41d8cd98f00b204e9800998ecf8427e",
    file_format := "bed", file_format_type := some "bed3", output_type := some "peaks",
    assembly := some "GRCh38", genome_annot := none, read_length := none,
    flowcell_details := none, status := "uploading", no_file_available := false }

/-- A job holding a local gzipped bed upload of that record. -/
def c7job : CJob :=
  { item := some c7item, errors := [], result := emptyResult, skip := false,
    local_file := some "/m/ENCFF000BED.bed.gz", download_url := none,
    run_ts := "2020-01-02T00:00:00Z", upload_expiration := some "2020-01-01T00:00:00Z",
    etag := "W7", patched := false }

/-- A run of the bed job in which every step succeeds except the final
`os.remove` of the `_modified.bed` scratch file. -/
def c7env : CheckEnv :=
  { mirror := "/m", encValData := "/opt/encValData",
    statResult := .ok 100 "2020-01-01T00:00:00",
    md5Out := .ok "d41d8cd98f00b204e9800998ecf8427e  f\n",
    gzipTest := .ok true,
    contentMd5Out := .ok "0123456789abcdef0123456789abcdef  f\n",
    mdSearch := .ok [],
    grepCountFail := none, bedCreateFail := none,
    checkFormat := { quickcheckOut := .ok "", validateOut := .ok "ok" },
    fastqProcFail := false, fq := c4wenv,
    crispr := { guideLines := [], pamLines := [] },
    bam := { lookupWrites := [], platformList := [], statsProcFail := false,
             runTypeLines := [], readLengthLines := [] },
    removeOk := false }

/-- The same run with a succeeding `os.remove`. -/
def c7envOk : CheckEnv :=
  { c7env with removeOk := true }

/-- The concrete outcome of the failing-remove run (total by
construction; the default is never taken). -/
def c7out : CJob × Bool := (check_file c7env pickHead c7job).getD (c7job, false)

/-- The concrete outcome of the succeeding-remove run. -/
def c7outOk : CJob × Bool := (check_file c7envOk pickHead c7job).getD (c7job, true)

/-- The bed run against a stat that raises `FileNotFoundError`. -/
def c2env : CheckEnv := { c7env with statResult := .fileNotFound }

/-- A job whose upload credentials expired before the run started. -/
def c2job : CJob :=
  { item := some c4item, errors := [], result := emptyResult, skip := false,
    local_file := some "/m/ENCFF000TST.fastq.gz", download_url := none,
    run_ts := "2020-01-02T00:00:00Z", upload_expiration := some "2020-01-01T00:00:00Z",
    etag := "W2", patched := false }

/-- A patch environment whose fresh etag matches `c2job`. -/
def c2penv : PatchEnv :=
  { etagFetch := .ok { ok := true, etag := "W2", json_status := "uploading" },
    patchOk := true, patchFailLine := "" }

/-- The concrete `check_file` outcome of the missing-file run. -/
def c2out : CJob × Bool := (check_file c2env pickHead c2job).getD (c2job, true)

/-- A job that `fetch_files` skipped because its `frame=edit` read
failed: no data-producing error key, no gathered result. -/
def c2sJob : CJob :=
  { item := none, errors := [("get_edit_request", "500 Internal Server Error")],
    result := emptyResult, skip := true, local_file := none, download_url := none,
    run_ts := "2020-01-02T00:00:00Z", upload_expiration := none, etag := "", patched := false }

/-- The bed run with a mismatching computed md5 and a succeeding
`os.remove`. -/
def c6env : CheckEnv :=
  { c7env with md5Out := .ok "ffffffffffffffffffffffffffffffff  f\n", removeOk := true }

/-- A patch environment whose fresh etag matches `c7job`. -/
def c6penv : PatchEnv :=
  { etagFetch := .ok { ok := true, etag := "W7", json_status := "uploading" },
    patchOk := true, patchFailLine := "" }

/-- The concrete `check_file` outcome of the md5-mismatch run. -/
def c6out : CJob × Bool := (check_file c6env pickHead c7job).getD (c7job, true)

/-- The concrete `patch_file` outcome of the md5-mismatch run. -/
def c6pout : PatchOutcome := (patch_file c6penv c6out.1).getD ⟨[], none, false⟩

/-- A clean job as built from a fresh upload: no errors, not skipped. -/
def c1job : CJob :=
  { item := some c4item, errors := [], result := emptyResult, skip := false,
    local_file := none, download_url := none, run_ts := "", upload_expiration := none,
    etag := "W1", patched := false }

/-- A patch environment whose fresh etag matches `c1job`. -/
def c1penv : PatchEnv :=
  { etagFetch := .ok { ok := true, etag := "W1", json_status := "uploading" },
    patchOk := true, patchFailLine := "" }

/-- The concrete `patch_file` outcome of the clean job. -/
def c1pout : PatchOutcome := (patch_file c1penv c1job).getD ⟨[], none, false⟩

/-! ### Growth of the `content_error` entry

Every writer of `content_error` in the source goes through
`update_content_error`, which appends: once set, the entry only ever
grows at the right.  `ceHas v errors` records that `content_error`
holds `v` followed by some suffix. -/

def ceHas (v : String) (errors : Dict) : Prop :=
  ∃ s, dget errors "content_error" = some (v ++ s)

/-! ## Counting semantics of `process_barcodes` -/

/-- Spec-side recount: how many parsed signatures fall in the given
`(flowcell, lane, read)` bucket with the given barcode. -/
def pairCount (entries : List Sig5) (key : String × String × String) (b : String) : Nat :=
  entries.countP (fun e => sigKey e = key && sigBarcode e = b)

/-- Spec-side recount: the size of a `(flowcell, lane, read)` bucket. -/
def bucketCount (entries : List Sig5) (key : String × String × String) : Nat :=
  entries.countP (fun e => sigKey e = key)

/-- The invariant tying `buildFlowcellsDict` to the spec-side recounts:
nodup keys, bucket totals, and per-barcode counts. -/
def DictInv (entries : List Sig5)
    (d : List ((String × String × String) × List (String × Nat))) : Prop :=
  (d.map Prod.fst).Nodup ∧
  (∀ key, aget d key = none → bucketCount entries key = 0) ∧
  (∀ key bd, aget d key = some bd →
    (bd.map Prod.fst).Nodup ∧ sumCounts bd = bucketCount entries key ∧
    (∀ b, aget bd b = none → pairCount entries key b = 0) ∧
    (∀ b c, aget bd b = some c → c = pairCount entries key b ∧ 0 < c))

/-- The 100-signature input refuting C5 as stated: one bucket holding
100 distinct barcodes, each barcode at exactly 1% of the bucket. -/
def c5sigs : List String :=
  (List.range 100).map (fun i => "F:1:1:B" ++ toString i ++ ":")

/-- `c5sigs`, parsed. -/
def c5entries : List Sig5 :=
  (List.range 100).map (fun i => ("F", "1", "1", "B" ++ toString i, ""))

/-! ### Dict lemmas -/

theorem dget_dset_self (d : Dict) (k v : String) : dget (dset d k v) k = some v := by
  induction d with
  | nil => simp [dget, dset]
  | cons q qs ih =>
    obtain ⟨k', v'⟩ := q
    by_cases hq : k' = k
    · simp [dget, dset, hq]
    · simp [dget, dset, hq, ih]

theorem dget_dset_ne (d : Dict) (k k' v : String) (hne : k' ≠ k) :
    dget (dset d k v) k' = dget d k' := by
  have hne' : ¬(k = k') := fun h => hne h.symm
  induction d with
  | nil => simp [dget, dset, hne']
  | cons q qs ih =>
    obtain ⟨k₀, v₀⟩ := q
    by_cases hq : k₀ = k
    · subst hq
      simp [dget, dset, hne']
    · by_cases hq' : k₀ = k'
      · simp [dget, dset, hq, hq', hne]
      · simp [dget, dset, hq, hq', ih]

/-- `update_content_error` only ever extends the existing message. -/
theorem update_content_error_extends (d : Dict) (m : String) (s : String)
    (h : dget d "content_error" = some s) :
    ∃ t, dget (update_content_error d m) "content_error" = some (s ++ t) := by
  unfold update_content_error
  rw [h]
  exact ⟨", " ++ m, by rw [dget_dset_self]; rw [String.append_assoc]⟩

theorem update_content_error_other (d : Dict) (m : String) (k : String)
    (hk : k ≠ "content_error") :
    dget (update_content_error d m) k = dget d k := by
  unfold update_content_error
  cases dget d "content_error" <;> exact dget_dset_ne _ _ _ _ hk

/-! ### Effect lemmas for the read-name machinery -/

theorem pickFrom_effects (pick : List String → String) (st : FqState) (x : String)
    (st' : FqState) (h : pickFrom pick st = some (x, st')) :
    st'.errors = st.errors ∧ st'.read_numbers_set = st.read_numbers_set ∧
      st'.signatures_set = st.signatures_set ∧
      st'.signatures_no_barcode_set = st.signatures_no_barcode_set ∧
      st'.old_illumina_current_pfx = st.old_illumina_current_pfx ∧
      st'.read_lengths_dictionary = st.read_lengths_dictionary := by
  unfold pickFrom at h
  split at h
  · exact Option.noConfusion h
  · have h2 : st' =
        (if st.read_numbers_set.length > 1 then { st with amb := true } else st) :=
      (congrArg Prod.snd (Option.some_inj.mp h)).symm
    rw [h2]
    split <;> simp

/-- The read-name processors write no error key themselves; the
`errors` dict survives each helper unchanged. -/
theorem process_illumina_read_name_pattern_errors (pick : List String → String)
    (read_name : String) (srr_flag : Bool) (st st' : FqState)
    (h : process_illumina_read_name_pattern pick read_name srr_flag st = some st') :
    st'.errors = st.errors := by
  unfold process_illumina_read_name_pattern at h
  split at h
  · split at h
    · exact Option.noConfusion h
    · rename_i read_number st₂ heq
      rw [← Option.some_inj.mp h]
      exact (pickFrom_effects _ _ _ _ heq).1
  · dsimp only at h
    rw [← Option.some_inj.mp h]

theorem process_special_read_name_pattern_errors (pick : List String → String)
    (read_name : String) (words_array : List String) (srr_flag : Bool) (st st' : FqState)
    (h : process_special_read_name_pattern pick read_name words_array srr_flag st = some st') :
    st'.errors = st.errors := by
  unfold process_special_read_name_pattern at h
  split at h
  · exact Option.noConfusion h
  · rename_i x read_number st₂ heq
    dsimp only at h
    rw [← Option.some_inj.mp h]
    split at heq
    · exact (pickFrom_effects _ _ _ _ heq).1
    · split at heq <;>
      · obtain ⟨h1, h2⟩ := (Prod.mk.injEq _ _ _ _).mp (Option.some_inj.mp heq)
        rw [← h2]

theorem process_new_illumina_pfx_errors (pick : List String → String)
    (read_name : String) (srr_flag : Bool) (st st' : FqState)
    (h : process_new_illumina_pfx pick read_name srr_flag st = some st') :
    st'.errors = st.errors := by
  unfold process_new_illumina_pfx at h
  split at h
  · exact Option.noConfusion h
  · rename_i x read_number st₂ heq
    have he : st₂.errors = st.errors := by
      split at heq
      · exact (pickFrom_effects _ _ _ _ heq).1
      · obtain ⟨h1, h2⟩ := (Prod.mk.injEq _ _ _ _).mp (Option.some_inj.mp heq)
        rw [← h2]
    dsimp only at h
    split at h
    · split at h
      · rw [← Option.some_inj.mp h]
        exact he
      · rw [← Option.some_inj.mp h]
        exact he
    · rw [← Option.some_inj.mp h]
      exact he

theorem process_pacbio_read_name_pattern_errors (read_name : String) (st : FqState) :
    (process_pacbio_read_name_pattern read_name st).errors = st.errors := by
  unfold process_pacbio_read_name_pattern
  split <;> rfl

theorem process_old_illumina_read_name_pattern_errors (pick : List String → String)
    (read_name : String) (srr_flag : Bool) (st st' : FqState)
    (h : process_old_illumina_read_name_pattern pick read_name srr_flag st = some st') :
    st'.errors = st.errors := by
  unfold process_old_illumina_read_name_pattern at h
  split at h
  · exact Option.noConfusion h
  · rename_i x read_number st₂ heq
    have he : st₂.errors = st.errors := by
      split at heq
      · exact (pickFrom_effects _ _ _ _ heq).1
      · split at heq <;>
        · obtain ⟨h1, h2⟩ := (Prod.mk.injEq _ _ _ _).mp (Option.some_inj.mp heq)
          rw [← h2]
    dsimp only at h
    split at h
    · split at h
      · rw [← Option.some_inj.mp h]
        exact he
      · rw [← Option.some_inj.mp h]
        exact he
    · rw [← Option.some_inj.mp h]
      exact he

/-- `process_read_name_line` touches only the `fastq_format_readname`
error key. -/
theorem process_read_name_line_errors (pick : List String → String)
    (details : Option ReadNameDetails) :
    ∀ (fuel : Nat) (line : String) (srr : Bool) (st st' : FqState),
    process_read_name_line pick details fuel line srr st = some st' →
    ∀ k, k ≠ "fastq_format_readname" → dget st'.errors k = dget st.errors k
  | 0, line, srr, st, st', h => by exact Option.noConfusion h
  | fuel + 1, line, srr, st, st', h => by
    unfold process_read_name_line at h
    rcases details with _ | d
    · simp only at h
      split at h
      · -- `not matches_read_name_pattern` branch
        split at h
        · intro k hk
          rw [process_special_read_name_pattern_errors _ _ _ _ _ _ h]
        · split at h
          · -- SRR branch
            split at h
            · exact Option.noConfusion h
            · intro k hk
              have := process_read_name_line_errors pick none fuel _ true _ _ h k hk
              rw [this]
              split <;> rfl
          · split at h
            · -- pacbio
              split at h
              · rw [← Option.some_inj.mp h]
                intro k hk
                rw [process_pacbio_read_name_pattern_errors]
              · rw [← Option.some_inj.mp h]
                intro k hk
                exact dget_dset_ne _ _ _ _ hk
            · split at h
              · split at h
                · intro k hk
                  rw [process_new_illumina_pfx_errors _ _ _ _ _ h]
                · split at h
                  · intro k hk
                    rw [process_old_illumina_read_name_pattern_errors _ _ _ _ _ h]
                  · rw [← Option.some_inj.mp h]
                    intro k hk
                    exact dget_dset_ne _ _ _ _ hk
              · rw [← Option.some_inj.mp h]
                intro k hk
                exact dget_dset_ne _ _ _ _ hk
      · intro k hk
        rw [process_illumina_read_name_pattern_errors _ _ _ _ _ h]
    · rw [← Option.some_inj.mp h]
      intro k hk
      rfl

/-! ### Step equations and invariants of the scan loop -/

theorem fqScanLoop_nil (pick : List String → String) (u : Option String)
    (details : Option ReadNameDetails) (st : FqState) (rc li : Nat) :
    fqScanLoop pick u details [] st rc li = some (st, rc, li) := rfl

theorem fqScanLoop_cons_none (pick : List String → String) (u : Option String)
    (details : Option ReadNameDetails) (rest : List (Option String))
    (st : FqState) (rc li : Nat) :
    fqScanLoop pick u details (none :: rest) st rc li =
      fqScanLoop pick u details rest
        { st with errors := (dset st.errors "readname_encoding"
            "Error occured, while decoding the readname string.") } rc li := rfl

theorem fqScanLoop_cons_some (pick : List String → String) (u : Option String)
    (details : Option ReadNameDetails) (line : String) (rest : List (Option String))
    (st : FqState) (rc li : Nat) :
    fqScanLoop pick u details (some line :: rest) st rc li =
      match
        (if li + 1 = 1 ∧ u ≠ some ultimaUuid then
          process_read_name_line pick details 2 line false st
        else some st) with
      | none => none
      | some st₂ =>
        if li + 1 = 2 then
          fqScanLoop pick u details rest
            { st₂ with read_lengths_dictionary :=
                (process_sequence_line line st₂.read_lengths_dictionary) }
            (rc + 1) ((li + 1) % 4)
        else
          fqScanLoop pick u details rest st₂ rc ((li + 1) % 4) := rfl

/-- The scan loop touches only the `readname_encoding` and
`fastq_format_readname` error keys. -/
theorem fqScanLoop_errors (pick : List String → String) (u : Option String)
    (details : Option ReadNameDetails) :
    ∀ (lines : List (Option String)) (st : FqState) (rc li : Nat)
      (st' : FqState) (rc' li' : Nat),
    fqScanLoop pick u details lines st rc li = some (st', rc', li') →
    ∀ k, k ≠ "readname_encoding" → k ≠ "fastq_format_readname" →
      dget st'.errors k = dget st.errors k := by
  intro lines
  induction lines with
  | nil =>
    intro st rc li st' rc' li' h k hk1 hk2
    rw [fqScanLoop_nil] at h
    obtain ⟨h1, -⟩ := Prod.mk.injEq _ _ _ _ |>.mp (Option.some_inj.mp h)
    rw [← h1]
  | cons enc rest ih =>
    intro st rc li st' rc' li' h k hk1 hk2
    cases enc with
    | none =>
      rw [fqScanLoop_cons_none] at h
      rw [ih _ _ _ _ _ _ h k hk1 hk2]
      exact dget_dset_ne _ _ _ _ hk1
    | some line =>
      rw [fqScanLoop_cons_some] at h
      split at h
      · exact Option.noConfusion h
      · rename_i x st₂ heq
        have he2 : dget st₂.errors k = dget st.errors k := by
          split at heq
          · exact process_read_name_line_errors pick details 2 _ _ _ _ heq k hk2
          · rw [← Option.some_inj.mp heq]
        split at h
        · rw [ih _ _ _ _ _ _ h k hk1 hk2]
          exact he2
        · rw [ih _ _ _ _ _ _ h k hk1 hk2]
          exact he2

/-- With the Ultima platform the scan loop never calls the read-name
machinery: it cannot crash, it leaves every read-name accumulator
untouched, it adds at most `readname_encoding` to the errors, and it is
independent of the set-iteration oracle. -/
theorem fqScanLoop_ultima (pick pick' : List String → String)
    (details : Option ReadNameDetails) :
    ∀ (lines : List (Option String)) (st : FqState) (rc li : Nat),
    ∃ st' rc' li',
      fqScanLoop pick (some ultimaUuid) details lines st rc li = some (st', rc', li') ∧
      fqScanLoop pick' (some ultimaUuid) details lines st rc li = some (st', rc', li') ∧
      st'.read_numbers_set = st.read_numbers_set ∧
      st'.signatures_set = st.signatures_set ∧
      st'.signatures_no_barcode_set = st.signatures_no_barcode_set ∧
      st'.old_illumina_current_pfx = st.old_illumina_current_pfx ∧
      (∀ k, k ≠ "readname_encoding" → dget st'.errors k = dget st.errors k) := by
  intro lines
  induction lines with
  | nil =>
    intro st rc li
    exact ⟨st, rc, li, rfl, rfl, rfl, rfl, rfl, rfl, fun _ _ => rfl⟩
  | cons enc rest ih =>
    intro st rc li
    cases enc with
    | none =>
      obtain ⟨st', rc', li', h1, h1', p2, p3, p4, p5, herr⟩ :=
        ih { st with errors := (dset st.errors "readname_encoding"
              "Error occured, while decoding the readname string.") } rc li
      exact ⟨st', rc', li', by rw [fqScanLoop_cons_none]; exact h1,
        by rw [fqScanLoop_cons_none]; exact h1', p2, p3, p4, p5,
        fun k hk => by rw [herr k hk]; exact dget_dset_ne _ _ _ _ hk⟩
    | some line =>
      have hcond : ¬(li + 1 = 1 ∧ (some ultimaUuid : Option String) ≠ some ultimaUuid) := by
        simp
      by_cases h2 : li + 1 = 2
      · obtain ⟨st', rc', li', h1, h1', p2, p3, p4, p5, herr⟩ :=
          ih { st with read_lengths_dictionary :=
                (process_sequence_line line st.read_lengths_dictionary) }
            (rc + 1) ((li + 1) % 4)
        refine ⟨st', rc', li', ?_, ?_, p2, p3, p4, p5, herr⟩
        · rw [fqScanLoop_cons_some, if_neg hcond]
          dsimp only
          rw [if_pos h2]
          exact h1
        · rw [fqScanLoop_cons_some, if_neg hcond]
          dsimp only
          rw [if_pos h2]
          exact h1'
      · obtain ⟨st', rc', li', h1, h1', p2, p3, p4, p5, herr⟩ := ih st rc ((li + 1) % 4)
        refine ⟨st', rc', li', ?_, ?_, p2, p3, p4, p5, herr⟩
        · rw [fqScanLoop_cons_some, if_neg hcond]
          dsimp only
          rw [if_neg h2]
          exact h1
        · rw [fqScanLoop_cons_some, if_neg hcond]
          dsimp only
          rw [if_neg h2]
          exact h1'

/-- With the Ultima platform the read1/read2 block is a no-op. -/
theorem fqMixedCheck_ultima (st : FqState) :
    fqMixedCheck (some ultimaUuid) st = st := by
  unfold fqMixedCheck
  rw [if_neg]
  simp

/-- With the Ultima platform the read-length block is a no-op (the uuid
is in the excluded set). -/
theorem fqReadLength_ultima (item : Item) (rc : Nat) (st : FqState) :
    fqReadLength (some ultimaUuid) item rc st = st := by
  unfold fqReadLength
  rw [if_neg]
  decide

/-- The signature-conflict scan touches only the
`lookup_for_fastq_signature`, `not_unique_flowcell_details` and
`content_error` keys. -/
theorem check_for_fastq_signature_conflicts_other_keys
    (sigSearch : String → Except String (List SearchEntry)) (errors : Dict)
    (item : Item) (sigs : List String) (k : String)
    (hk1 : k ≠ "lookup_for_fastq_signature")
    (hk2 : k ≠ "not_unique_flowcell_details")
    (hk3 : k ≠ "content_error") :
    dget (check_for_fastq_signature_conflicts sigSearch errors item sigs).1 k =
      dget errors k := by
  have hfold : ∀ (l : List String) (acc : Dict × List String),
      dget ((l.foldl (fastqSigConflictStep sigSearch item) acc).1) k = dget acc.1 k := by
    intro l
    induction l with
    | nil => intro acc; rfl
    | cons sgn rest ih =>
      intro acc
      rw [List.foldl_cons, ih]
      unfold fastqSigConflictStep
      split
      · split
        · exact dget_dset_ne _ _ _ _ hk1
        · split <;> rfl
      · rfl
  unfold check_for_fastq_signature_conflicts
  dsimp only
  split
  · rw [update_content_error_other _ _ _ hk3, dget_dset_ne _ _ _ _ hk2, hfold]
  · rw [hfold]

/-- C9: for a fastq whose platform uuid is
`25acccbd-cb36-463b-ac96-adbac11227e6` (Ultima), `process_fastq_file`
performs no read-name processing (the read-number and signature
accumulators stay empty and the run is independent of the set-iteration
oracle), records no mixed-read, read-length or signature-conflict
error, sets no `fastq_signature`, but still reports `read_count`. -/
theorem c9_ultima_bypass (pick pick' : List String → String) (env : FqEnv)
    (item : Item) (errors0 : Dict) (result0 : Result)
    (hplat : env.platformLookup = .ok (some ultimaUuid))
    (hio : env.ioErrorAfter = none) :
    ∃ out, process_fastq_file pick env item errors0 result0 = some out ∧
      (∃ n, out.result.read_count = some n) ∧
      out.result.fastq_signature = result0.fastq_signature ∧
      out.state.read_numbers_set = [] ∧
      out.state.signatures_set = [] ∧
      out.state.signatures_no_barcode_set = [] ∧
      (∀ k, k ∈ ["read_length", "inconsistent_read_numbers", "fastq_format_readname",
                 "not_unique_flowcell_details", "content_error"] →
        dget out.errors k = dget errors0 k) ∧
      process_fastq_file pick' env item errors0 result0 =
        process_fastq_file pick env item errors0 result0 := by
  unfold process_fastq_file
  rw [hplat, hio]
  dsimp only
  rcases hdet : env.detailsLookup with e | d
  · obtain ⟨st', rc', li', h1, h1', p2, p3, p4, p5, herr⟩ :=
      fqScanLoop_ultima pick pick' none env.lines
        (initFqState (dset errors0 "lookup_for_read_name_detaisl"
          ("Network error occured, while looking for file read_name details on the portal. " ++ e)))
        0 0
    dsimp only
    rw [h1, h1']
    unfold fqPostScan
    dsimp only
    rw [fqMixedCheck_ultima, fqReadLength_ultima, if_pos rfl]
    refine ⟨_, rfl, ⟨rc', rfl⟩, rfl, p2, p3, p4, ?_, rfl⟩
    intro k hk
    have hk' : k ≠ "readname_encoding" := by
      simp only [List.mem_cons, List.mem_singleton] at hk
      rcases hk with rfl | rfl | rfl | rfl | rfl | h
      · decide
      · decide
      · decide
      · decide
      · decide
      · exact absurd h (List.not_mem_nil k)
    have hk'' : k ≠ "lookup_for_read_name_detaisl" := by
      simp only [List.mem_cons, List.mem_singleton] at hk
      rcases hk with rfl | rfl | rfl | rfl | rfl | h
      · decide
      · decide
      · decide
      · decide
      · decide
      · exact absurd h (List.not_mem_nil k)
    rw [herr k hk']
    exact dget_dset_ne _ _ _ _ hk''
  · obtain ⟨st', rc', li', h1, h1', p2, p3, p4, p5, herr⟩ :=
      fqScanLoop_ultima pick pick' d env.lines (initFqState errors0) 0 0
    dsimp only
    rw [h1, h1']
    unfold fqPostScan
    dsimp only
    rw [fqMixedCheck_ultima, fqReadLength_ultima, if_pos rfl]
    refine ⟨_, rfl, ⟨rc', rfl⟩, rfl, p2, p3, p4, ?_, rfl⟩
    intro k hk
    have hk' : k ≠ "readname_encoding" := by
      simp only [List.mem_cons, List.mem_singleton] at hk
      rcases hk with rfl | rfl | rfl | rfl | rfl | h
      · decide
      · decide
      · decide
      · decide
      · decide
      · exact absurd h (List.not_mem_nil k)
    exact herr k hk'

theorem fqMixedCheck_rld (pu : Option String) (st : FqState) :
    (fqMixedCheck pu st).read_lengths_dictionary = st.read_lengths_dictionary := by
  unfold fqMixedCheck
  split <;> rfl

theorem fqMixedCheck_other_keys (pu : Option String) (st : FqState) (k : String)
    (h1 : k ≠ "inconsistent_read_numbers") (h2 : k ≠ "content_error") :
    dget (fqMixedCheck pu st).errors k = dget st.errors k := by
  unfold fqMixedCheck
  split
  · rw [update_content_error_other _ _ _ h2]
    exact dget_dset_ne _ _ _ _ h1
  · rfl

/-- The read-length outcome of the post-scan phase for a declared
length and a non-excluded, non-Ultima platform. -/
theorem fqPostScan_read_length (sigSearch : String → Except String (List SearchEntry))
    (pu : Option String) (item : Item) (result0 : Result) (st0 : FqState)
    (rc : Nat) (L : Nat) (out : FqOut)
    (hexcl : pu.all (fun u => u ∉ excludedPlatformUuids) = true)
    (hultima : pu ≠ some ultimaUuid)
    (hL : item.read_length = some L) (hL2 : L > 2)
    (hrl : dget st0.errors "read_length" = none)
    (hrun : fqPostScan sigSearch pu item result0 st0 rc = some out) :
    out.result.read_count = some rc ∧
      out.state.read_lengths_dictionary = st0.read_lengths_dictionary ∧
      (10 * readsQuantity st0.read_lengths_dictionary L < 9 * rc →
        dget out.errors "read_length" =
          some (readLengthErrMsg L (sortByKey st0.read_lengths_dictionary))) ∧
      (¬ 10 * readsQuantity st0.read_lengths_dictionary L < 9 * rc →
        dget out.errors "read_length" = none) := by
  have hrld1 : (fqMixedCheck pu st0).read_lengths_dictionary = st0.read_lengths_dictionary :=
    fqMixedCheck_rld pu st0
  have hrl1 : dget (fqMixedCheck pu st0).errors "read_length" = none := by
    rw [fqMixedCheck_other_keys pu st0 _ (by decide) (by decide)]
    exact hrl
  have hSTrld : (fqReadLength pu item rc (fqMixedCheck pu st0)).read_lengths_dictionary =
      st0.read_lengths_dictionary := by
    unfold fqReadLength
    rw [if_pos hexcl, hL]
    dsimp only
    rw [if_pos hL2]
    exact hrld1
  have hSTerr : (fqReadLength pu item rc (fqMixedCheck pu st0)).errors =
      process_read_lengths (fqMixedCheck pu st0).read_lengths_dictionary
        (sortByKey (fqMixedCheck pu st0).read_lengths_dictionary) L rc
        (fqMixedCheck pu st0).errors := by
    unfold fqReadLength
    rw [if_pos hexcl, hL]
    dsimp only
    rw [if_pos hL2]
  have hreadkey :
      dget (fqReadLength pu item rc (fqMixedCheck pu st0)).errors "read_length" =
        if 10 * readsQuantity st0.read_lengths_dictionary L < 9 * rc then
          some (readLengthErrMsg L (sortByKey st0.read_lengths_dictionary))
        else none := by
    rw [hSTerr]
    unfold process_read_lengths
    rw [hrld1]
    split
    · rw [update_content_error_other _ _ _ (by decide), dget_dset_self]
    · exact hrl1
  unfold fqPostScan at hrun
  dsimp only at hrun
  rw [if_neg hultima] at hrun
  rcases hsfc : signaturesForComparison item (fqReadLength pu item rc (fqMixedCheck pu st0))
    with _ | sfc <;> rw [hsfc] at hrun
  · exact Option.noConfusion hrun
  · dsimp only at hrun
    obtain rfl := (Option.some_inj.mp hrun).symm
    refine ⟨rfl, hSTrld, ?_, ?_⟩
    · intro hlt
      dsimp only
      rw [check_for_fastq_signature_conflicts_other_keys _ _ _ _ _
        (by decide) (by decide) (by decide), hreadkey, if_pos hlt]
    · intro hge
      dsimp only
      rw [check_for_fastq_signature_conflicts_other_keys _ _ _ _ _
        (by decide) (by decide) (by decide), hreadkey, if_neg hge]

/-- C8: for a fastq whose record declares `read_length > 2` and whose
platform is not in the excluded PacBio/Nanopore/Ultima set, a
`read_length` error is recorded iff fewer than 90% of the reads (in the
exact sense `10 * reads_quantity < 9 * read_count` of the source's
float test) have length within 2 bp inclusive of the declared length;
the recorded message names the observed length distribution. -/
theorem c8_read_length_error_iff (pick : List String → String) (env : FqEnv)
    (item : Item) (errors0 : Dict) (result0 : Result) (pu : Option String)
    (L : Nat) (out : FqOut)
    (hplat : env.platformLookup = .ok pu)
    (hexcl : pu.all (fun u => u ∉ excludedPlatformUuids) = true)
    (hL : item.read_length = some L) (hL2 : L > 2)
    (hio : env.ioErrorAfter = none)
    (herr0 : dget errors0 "read_length" = none)
    (hrun : process_fastq_file pick env item errors0 result0 = some out) :
    ∃ n, out.result.read_count = some n ∧
      (10 * readsQuantity out.state.read_lengths_dictionary L < 9 * n →
        dget out.errors "read_length" =
          some (readLengthErrMsg L (sortByKey out.state.read_lengths_dictionary))) ∧
      (¬ 10 * readsQuantity out.state.read_lengths_dictionary L < 9 * n →
        dget out.errors "read_length" = none) := by
  have hultima : pu ≠ some ultimaUuid := by
    intro hpu
    rw [hpu] at hexcl
    simp only [Option.all_some] at hexcl
    revert hexcl
    decide
  unfold process_fastq_file at hrun
  rw [hplat, hio] at hrun
  dsimp only at hrun
  rcases hdet : env.detailsLookup with e | d <;> rw [hdet] at hrun <;> dsimp only at hrun
  · rcases hloop : fqScanLoop pick pu none env.lines
        (initFqState (dset errors0 "lookup_for_read_name_detaisl"
          ("Network error occured, while looking for file read_name details on the portal. " ++ e)))
        0 0 with _ | ⟨st', rc', li'⟩ <;> rw [hloop] at hrun <;> dsimp only at hrun
    · exact Option.noConfusion hrun
    · have hrl' : dget st'.errors "read_length" = none := by
        rw [fqScanLoop_errors pick pu none _ _ _ _ _ _ _ hloop _ (by decide) (by decide)]
        show dget (dset errors0 "lookup_for_read_name_detaisl" _) "read_length" = none
        rw [dget_dset_ne _ _ _ _ (by decide)]
        exact herr0
      obtain ⟨h1, h2, h3, h4⟩ := fqPostScan_read_length env.sigSearch pu item result0 st' rc'
        L out hexcl hultima hL hL2 hrl' hrun
      refine ⟨rc', h1, ?_, ?_⟩
      · rw [h2]
        exact h3
      · rw [h2]
        exact h4
  · rcases hloop : fqScanLoop pick pu d env.lines (initFqState errors0) 0 0
        with _ | ⟨st', rc', li'⟩ <;> rw [hloop] at hrun <;> dsimp only at hrun
    · exact Option.noConfusion hrun
    · have hrl' : dget st'.errors "read_length" = none := by
        rw [fqScanLoop_errors pick pu d _ _ _ _ _ _ _ hloop _ (by decide) (by decide)]
        exact herr0
      obtain ⟨h1, h2, h3, h4⟩ := fqPostScan_read_length env.sigSearch pu item result0 st' rc'
        L out hexcl hultima hL hL2 hrl' hrun
      refine ⟨rc', h1, ?_, ?_⟩
      · rw [h2]
        exact h3
      · rw [h2]
        exact h4

/-! ### Determinism of the scan given unambiguous picks -/

/-- A pick from a set that leaves the ghost flag clear is forced: the
set was a singleton, so every valid iteration order yields the same
element and state. -/
theorem pickFrom_pick_irrel (pick pick' : List String → String) (st : FqState)
    (x : String) (st₂ : FqState)
    (hv : ∀ l, l ≠ [] → pick l ∈ l) (hv' : ∀ l, l ≠ [] → pick' l ∈ l)
    (hp : pickFrom pick st = some (x, st₂)) (hamb : st₂.amb = false) :
    pickFrom pick' st = some (x, st₂) := by
  unfold pickFrom at hp ⊢
  split at hp
  · exact Option.noConfusion hp
  · rename_i hne
    rw [if_neg hne]
    obtain ⟨hx, hst₂⟩ := (Prod.mk.injEq _ _ _ _).mp (Option.some_inj.mp hp)
    by_cases hlen : st.read_numbers_set.length > 1
    · rw [if_pos hlen] at hst₂
      rw [← hst₂] at hamb
      exact absurd hamb (by simp)
    · rw [if_neg hlen] at hst₂
      rw [if_neg hlen]
      obtain ⟨a, ha⟩ : ∃ a, st.read_numbers_set = [a] := by
        rcases hr : st.read_numbers_set with _ | ⟨a, t⟩
        · rw [hr] at hne
          simp at hne
        · rcases t with _ | ⟨b, t2⟩
          · exact ⟨a, rfl⟩
          · rw [hr] at hlen
            simp at hlen
      have h1 : pick st.read_numbers_set = a := by
        have := hv st.read_numbers_set (by rw [ha]; simp)
        rw [ha] at this ⊢
        simpa using this
      have h2 : pick' st.read_numbers_set = a := by
        have := hv' st.read_numbers_set (by rw [ha]; simp)
        rw [ha] at this ⊢
        simpa using this
      rw [h2, ← hx, h1, hst₂]

/-- The oracle enters each read-name helper only through `pickFrom`. -/
theorem process_illumina_congr (pick pick' : List String → String)
    (rn : String) (srr : Bool) (st : FqState)
    (hpe : pickFrom pick st = pickFrom pick' st) :
    process_illumina_read_name_pattern pick rn srr st =
      process_illumina_read_name_pattern pick' rn srr st := by
  unfold process_illumina_read_name_pattern
  rw [hpe]

theorem process_special_congr (pick pick' : List String → String)
    (rn : String) (wa : List String) (srr : Bool) (st : FqState)
    (hpe : pickFrom pick st = pickFrom pick' st) :
    process_special_read_name_pattern pick rn wa srr st =
      process_special_read_name_pattern pick' rn wa srr st := by
  unfold process_special_read_name_pattern
  rw [hpe]

theorem process_new_congr (pick pick' : List String → String)
    (rn : String) (srr : Bool) (st : FqState)
    (hpe : pickFrom pick st = pickFrom pick' st) :
    process_new_illumina_pfx pick rn srr st =
      process_new_illumina_pfx pick' rn srr st := by
  unfold process_new_illumina_pfx
  rw [hpe]

theorem process_old_congr (pick pick' : List String → String)
    (rn : String) (srr : Bool) (st : FqState)
    (hpe : pickFrom pick st = pickFrom pick' st) :
    process_old_illumina_read_name_pattern pick rn srr st =
      process_old_illumina_read_name_pattern pick' rn srr st := by
  unfold process_old_illumina_read_name_pattern
  rw [hpe]

/-- With the srr flag down no helper consults the oracle at all. -/
theorem process_illumina_congr_false (pick pick' : List String → String)
    (rn : String) (st : FqState) :
    process_illumina_read_name_pattern pick rn false st =
      process_illumina_read_name_pattern pick' rn false st := by
  unfold process_illumina_read_name_pattern
  simp only [Bool.false_eq_true, if_false]

theorem process_special_congr_false (pick pick' : List String → String)
    (rn : String) (wa : List String) (st : FqState) :
    process_special_read_name_pattern pick rn wa false st =
      process_special_read_name_pattern pick' rn wa false st := by
  unfold process_special_read_name_pattern
  simp only [Bool.false_eq_true, if_false]

theorem process_new_congr_false (pick pick' : List String → String)
    (rn : String) (st : FqState) :
    process_new_illumina_pfx pick rn false st =
      process_new_illumina_pfx pick' rn false st := by
  unfold process_new_illumina_pfx
  simp only [Bool.false_eq_true, if_false]

theorem process_old_congr_false (pick pick' : List String → String)
    (rn : String) (st : FqState) :
    process_old_illumina_read_name_pattern pick rn false st =
      process_old_illumina_read_name_pattern pick' rn false st := by
  unfold process_old_illumina_read_name_pattern
  simp only [Bool.false_eq_true, if_false]

/-- `pickFrom` never clears the ghost flag. -/
theorem pickFrom_amb_mono (pick : List String → String) (st : FqState)
    (x : String) (st₂ : FqState) (hp : pickFrom pick st = some (x, st₂))
    (hamb : st₂.amb = false) : st.amb = false := by
  unfold pickFrom at hp
  split at hp
  · exact Option.noConfusion hp
  · obtain ⟨-, hst₂⟩ := (Prod.mk.injEq _ _ _ _).mp (Option.some_inj.mp hp)
    split at hst₂
    · rw [← hst₂] at hamb
      exact absurd hamb (by simp)
    · rw [hst₂]
      exact hamb

/-- No read-name helper ever clears the ghost ambiguity flag. -/
theorem process_illumina_amb_mono (pick : List String → String)
    (rn : String) (srr : Bool) (st st' : FqState)
    (h : process_illumina_read_name_pattern pick rn srr st = some st')
    (hamb : st'.amb = false) : st.amb = false := by
  unfold process_illumina_read_name_pattern at h
  split at h
  · split at h
    · exact Option.noConfusion h
    · rename_i x st₂ heq
      refine pickFrom_amb_mono pick st x st₂ heq ?_
      rw [← Option.some_inj.mp h] at hamb
      exact hamb
  · dsimp only at h
    rw [← Option.some_inj.mp h] at hamb
    exact hamb

theorem process_special_amb_mono (pick : List String → String)
    (rn : String) (wa : List String) (srr : Bool) (st st' : FqState)
    (h : process_special_read_name_pattern pick rn wa srr st = some st')
    (hamb : st'.amb = false) : st.amb = false := by
  unfold process_special_read_name_pattern at h
  split at h
  · exact Option.noConfusion h
  · rename_i x read_number st₂ heq
    dsimp only at h
    rw [← Option.some_inj.mp h] at hamb
    split at heq
    · exact pickFrom_amb_mono pick st _ st₂ heq hamb
    · split at heq <;>
      · obtain ⟨h1, h2⟩ := (Prod.mk.injEq _ _ _ _).mp (Option.some_inj.mp heq)
        rw [← h2] at hamb
        exact hamb

theorem process_new_amb_mono (pick : List String → String)
    (rn : String) (srr : Bool) (st st' : FqState)
    (h : process_new_illumina_pfx pick rn srr st = some st')
    (hamb : st'.amb = false) : st.amb = false := by
  unfold process_new_illumina_pfx at h
  split at h
  · exact Option.noConfusion h
  · rename_i x read_number st₂ heq
    have hamb2 : st₂.amb = false := by
      dsimp only at h
      split at h
      · split at h
        · rw [← Option.some_inj.mp h] at hamb
          exact hamb
        · rw [← Option.some_inj.mp h] at hamb
          exact hamb
      · rw [← Option.some_inj.mp h] at hamb
        exact hamb
    split at heq
    · exact pickFrom_amb_mono pick st _ st₂ heq hamb2
    · obtain ⟨h1, h2⟩ := (Prod.mk.injEq _ _ _ _).mp (Option.some_inj.mp heq)
      rw [← h2] at hamb2
      exact hamb2

theorem process_old_amb_mono (pick : List String → String)
    (rn : String) (srr : Bool) (st st' : FqState)
    (h : process_old_illumina_read_name_pattern pick rn srr st = some st')
    (hamb : st'.amb = false) : st.amb = false := by
  unfold process_old_illumina_read_name_pattern at h
  split at h
  · exact Option.noConfusion h
  · rename_i x read_number st₂ heq
    have hamb2 : st₂.amb = false := by
      dsimp only at h
      split at h
      · split at h
        · rw [← Option.some_inj.mp h] at hamb
          exact hamb
        · rw [← Option.some_inj.mp h] at hamb
          exact hamb
      · rw [← Option.some_inj.mp h] at hamb
        exact hamb
    split at heq
    · exact pickFrom_amb_mono pick st _ st₂ heq hamb2
    · split at heq <;>
      · obtain ⟨h1, h2⟩ := (Prod.mk.injEq _ _ _ _).mp (Option.some_inj.mp heq)
        rw [← h2] at hamb2
        exact hamb2

theorem process_pacbio_amb (rn : String) (st : FqState) :
    (process_pacbio_read_name_pattern rn st).amb = st.amb := by
  unfold process_pacbio_read_name_pattern
  split <;> rfl

/-- A run of the illumina helper that keeps the ghost flag clear is
reproduced exactly by every other valid set-iteration oracle. -/
theorem process_illumina_pick_irrel (pick pick' : List String → String)
    (rn : String) (srr : Bool) (st st' : FqState)
    (hv : ∀ l, l ≠ [] → pick l ∈ l) (hv' : ∀ l, l ≠ [] → pick' l ∈ l)
    (h : process_illumina_read_name_pattern pick rn srr st = some st')
    (hamb : st'.amb = false) :
    process_illumina_read_name_pattern pick' rn srr st = some st' := by
  have h0 := h
  unfold process_illumina_read_name_pattern at h
  split at h
  · split at h
    · exact Option.noConfusion h
    · rename_i x st₂ heq
      have hamb2 : st₂.amb = false := by
        rw [← Option.some_inj.mp h] at hamb
        exact hamb
      rw [← process_illumina_congr pick pick' rn srr st
        (by rw [heq, pickFrom_pick_irrel pick pick' st x st₂ hv hv' heq hamb2])]
      exact h0
  · rename_i hsrr
    have hs : srr = false := by
      revert hsrr
      cases srr <;> simp
    rw [hs] at h0 ⊢
    rw [← process_illumina_congr_false pick pick' rn st]
    exact h0

theorem process_special_pick_irrel (pick pick' : List String → String)
    (rn : String) (wa : List String) (srr : Bool) (st st' : FqState)
    (hv : ∀ l, l ≠ [] → pick l ∈ l) (hv' : ∀ l, l ≠ [] → pick' l ∈ l)
    (h : process_special_read_name_pattern pick rn wa srr st = some st')
    (hamb : st'.amb = false) :
    process_special_read_name_pattern pick' rn wa srr st = some st' := by
  have h0 := h
  unfold process_special_read_name_pattern at h
  split at h
  · exact Option.noConfusion h
  · rename_i x read_number st₂ heq
    have hamb2 : st₂.amb = false := by
      dsimp only at h
      rw [← Option.some_inj.mp h] at hamb
      exact hamb
    split at heq
    · rw [← process_special_congr pick pick' rn wa srr st
        (by rw [heq, pickFrom_pick_irrel pick pick' st _ st₂ hv hv' heq hamb2])]
      exact h0
    · rename_i hsrr
      have hs : srr = false := by
        revert hsrr
        cases srr <;> simp
      rw [hs] at h0 ⊢
      rw [← process_special_congr_false pick pick' rn wa st]
      exact h0

theorem process_new_pick_irrel (pick pick' : List String → String)
    (rn : String) (srr : Bool) (st st' : FqState)
    (hv : ∀ l, l ≠ [] → pick l ∈ l) (hv' : ∀ l, l ≠ [] → pick' l ∈ l)
    (h : process_new_illumina_pfx pick rn srr st = some st')
    (hamb : st'.amb = false) :
    process_new_illumina_pfx pick' rn srr st = some st' := by
  have h0 := h
  unfold process_new_illumina_pfx at h
  split at h
  · exact Option.noConfusion h
  · rename_i x read_number st₂ heq
    have hamb2 : st₂.amb = false := by
      dsimp only at h
      split at h
      · split at h
        · rw [← Option.some_inj.mp h] at hamb
          exact hamb
        · rw [← Option.some_inj.mp h] at hamb
          exact hamb
      · rw [← Option.some_inj.mp h] at hamb
        exact hamb
    split at heq
    · rw [← process_new_congr pick pick' rn srr st
        (by rw [heq, pickFrom_pick_irrel pick pick' st _ st₂ hv hv' heq hamb2])]
      exact h0
    · rename_i hsrr
      have hs : srr = false := by
        revert hsrr
        cases srr <;> simp
      rw [hs] at h0 ⊢
      rw [← process_new_congr_false pick pick' rn st]
      exact h0

theorem process_old_pick_irrel (pick pick' : List String → String)
    (rn : String) (srr : Bool) (st st' : FqState)
    (hv : ∀ l, l ≠ [] → pick l ∈ l) (hv' : ∀ l, l ≠ [] → pick' l ∈ l)
    (h : process_old_illumina_read_name_pattern pick rn srr st = some st')
    (hamb : st'.amb = false) :
    process_old_illumina_read_name_pattern pick' rn srr st = some st' := by
  have h0 := h
  unfold process_old_illumina_read_name_pattern at h
  split at h
  · exact Option.noConfusion h
  · rename_i x read_number st₂ heq
    have hamb2 : st₂.amb = false := by
      dsimp only at h
      split at h
      · split at h
        · rw [← Option.some_inj.mp h] at hamb
          exact hamb
        · rw [← Option.some_inj.mp h] at hamb
          exact hamb
      · rw [← Option.some_inj.mp h] at hamb
        exact hamb
    split at heq
    · rw [← process_old_congr pick pick' rn srr st
        (by rw [heq, pickFrom_pick_irrel pick pick' st _ st₂ hv hv' heq hamb2])]
      exact h0
    · rename_i hsrr
      have hs : srr = false := by
        revert hsrr
        cases srr <;> simp
      rw [hs] at h0 ⊢
      rw [← process_old_congr_false pick pick' rn st]
      exact h0

/-- `process_read_name_line` never clears the ghost flag. -/
theorem process_read_name_line_amb_mono (pick : List String → String)
    (details : Option ReadNameDetails) :
    ∀ (fuel : Nat) (line : String) (srr : Bool) (st st' : FqState),
    process_read_name_line pick details fuel line srr st = some st' →
    st'.amb = false → st.amb = false
  | 0, line, srr, st, st', h => by exact Option.noConfusion h
  | fuel + 1, line, srr, st, st', h => by
    intro hamb
    unfold process_read_name_line at h
    rcases details with _ | d
    · simp only at h
      split at h
      · split at h
        · exact process_special_amb_mono _ _ _ _ _ _ h hamb
        · split at h
          · split at h
            · exact Option.noConfusion h
            · have := process_read_name_line_amb_mono pick none fuel _ true _ _ h hamb
              split at this <;> exact this
          · split at h
            · split at h
              · rw [← Option.some_inj.mp h] at hamb
                rw [process_pacbio_amb] at hamb
                exact hamb
              · rw [← Option.some_inj.mp h] at hamb
                exact hamb
            · split at h
              · split at h
                · exact process_new_amb_mono _ _ _ _ _ h hamb
                · split at h
                  · exact process_old_amb_mono _ _ _ _ _ h hamb
                  · rw [← Option.some_inj.mp h] at hamb
                    exact hamb
              · rw [← Option.some_inj.mp h] at hamb
                exact hamb
      · exact process_illumina_amb_mono _ _ _ _ _ h hamb
    · rw [← Option.some_inj.mp h] at hamb
      exact hamb

/-- A run of `process_read_name_line` that keeps the ghost flag clear is
reproduced exactly by every other valid set-iteration oracle. -/
theorem process_read_name_line_pick_irrel (pick pick' : List String → String)
    (hv : ∀ l, l ≠ [] → pick l ∈ l) (hv' : ∀ l, l ≠ [] → pick' l ∈ l)
    (details : Option ReadNameDetails) :
    ∀ (fuel : Nat) (line : String) (srr : Bool) (st st' : FqState),
    process_read_name_line pick details fuel line srr st = some st' →
    st'.amb = false →
    process_read_name_line pick' details fuel line srr st = some st'
  | 0, line, srr, st, st', h => by exact Option.noConfusion h
  | fuel + 1, line, srr, st, st', h => by
    intro hamb
    unfold process_read_name_line at h ⊢
    rcases details with _ | d
    · simp only at h ⊢
      split at h
      · rename_i hc1
        rw [if_pos hc1]
        split at h
        · rename_i hc2
          rw [if_pos hc2]
          exact process_special_pick_irrel pick pick' _ _ _ _ _ hv hv' h hamb
        · rename_i hc2
          rw [if_neg hc2]
          split at h
          · rename_i hc3
            rw [if_pos hc3]
            split at h
            · exact Option.noConfusion h
            · exact process_read_name_line_pick_irrel pick pick' hv hv' none fuel _ true _ _ h hamb
          · rename_i hc3
            rw [if_neg hc3]
            split at h
            · rename_i hc4
              rw [if_pos hc4]
              exact h
            · rename_i hc4
              rw [if_neg hc4]
              split at h
              · rename_i hc5
                rw [if_pos hc5]
                split at h
                · rename_i hc6
                  rw [if_pos hc6]
                  exact process_new_pick_irrel pick pick' _ _ _ _ hv hv' h hamb
                · rename_i hc6
                  rw [if_neg hc6]
                  split at h
                  · rename_i hc7
                    rw [if_pos hc7]
                    exact process_old_pick_irrel pick pick' _ _ _ _ hv hv' h hamb
                  · rename_i hc7
                    rw [if_neg hc7]
                    exact h
              · rename_i hc5
                rw [if_neg hc5]
                exact h
      · rename_i hc1
        rw [if_neg hc1]
        exact process_illumina_pick_irrel pick pick' _ _ _ _ hv hv' h hamb
    · exact h

/-- The scan loop never clears the ghost flag. -/
theorem fqScanLoop_amb_mono (pick : List String → String) (u : Option String)
    (details : Option ReadNameDetails) :
    ∀ (lines : List (Option String)) (st : FqState) (rc li : Nat)
      (st' : FqState) (rc' li' : Nat),
    fqScanLoop pick u details lines st rc li = some (st', rc', li') →
    st'.amb = false → st.amb = false := by
  intro lines
  induction lines with
  | nil =>
    intro st rc li st' rc' li' h hamb
    rw [fqScanLoop_nil] at h
    obtain ⟨h1, -⟩ := Prod.mk.injEq _ _ _ _ |>.mp (Option.some_inj.mp h)
    rw [← h1] at hamb
    exact hamb
  | cons enc rest ih =>
    intro st rc li st' rc' li' h hamb
    cases enc with
    | none =>
      rw [fqScanLoop_cons_none] at h
      have hm := ih _ _ _ _ _ _ h hamb
      exact hm
    | some line =>
      rw [fqScanLoop_cons_some] at h
      split at h
      · exact Option.noConfusion h
      · rename_i x st₂ heq
        have h2 : st₂.amb = false := by
          split at h
          · have hm := ih _ _ _ _ _ _ h hamb
            exact hm
          · exact ih _ _ _ _ _ _ h hamb
        split at heq
        · exact process_read_name_line_amb_mono pick details 2 _ _ _ _ heq h2
        · rw [← Option.some_inj.mp heq] at h2
          exact h2

/-- A run of the scan loop that keeps the ghost flag clear is reproduced
exactly by every other valid set-iteration oracle. -/
theorem fqScanLoop_pick_irrel (pick pick' : List String → String)
    (hv : ∀ l, l ≠ [] → pick l ∈ l) (hv' : ∀ l, l ≠ [] → pick' l ∈ l)
    (u : Option String) (details : Option ReadNameDetails) :
    ∀ (lines : List (Option String)) (st : FqState) (rc li : Nat)
      (st' : FqState) (rc' li' : Nat),
    fqScanLoop pick u details lines st rc li = some (st', rc', li') →
    st'.amb = false →
    fqScanLoop pick' u details lines st rc li = some (st', rc', li') := by
  intro lines
  induction lines with
  | nil =>
    intro st rc li st' rc' li' h hamb
    rw [fqScanLoop_nil] at h ⊢
    exact h
  | cons enc rest ih =>
    intro st rc li st' rc' li' h hamb
    cases enc with
    | none =>
      rw [fqScanLoop_cons_none] at h ⊢
      exact ih _ _ _ _ _ _ h hamb
    | some line =>
      rw [fqScanLoop_cons_some] at h ⊢
      split at h
      · exact Option.noConfusion h
      · rename_i x st₂ heq
        have h2 : st₂.amb = false := by
          split at h
          · have hm := fqScanLoop_amb_mono pick u details _ _ _ _ _ _ _ h hamb
            exact hm
          · exact fqScanLoop_amb_mono pick u details _ _ _ _ _ _ _ h hamb
        have heq2 :
            (if li + 1 = 1 ∧ u ≠ some ultimaUuid then
              process_read_name_line pick' details 2 line false st
            else some st) = some st₂ := by
          split at heq
          · rename_i hc
            rw [if_pos hc]
            exact process_read_name_line_pick_irrel pick pick' hv hv' details 2 _ _ _ _ heq h2
          · rename_i hc
            rw [if_neg hc]
            exact heq
        rw [heq2]
        dsimp only
        split at h
        · rename_i hc2
          rw [if_pos hc2]
          exact ih _ _ _ _ _ _ h hamb
        · rename_i hc2
          rw [if_neg hc2]
          exact ih _ _ _ _ _ _ h hamb

theorem fqMixedCheck_amb (pu : Option String) (st : FqState) :
    (fqMixedCheck pu st).amb = st.amb := by
  unfold fqMixedCheck
  split <;> rfl

theorem fqReadLength_amb (pu : Option String) (item : Item) (rc : Nat)
    (st : FqState) : (fqReadLength pu item rc st).amb = st.amb := by
  unfold fqReadLength
  split
  · split
    · split <;> rfl
    · rfl
  · rfl

/-- The post-scan phase never touches the ghost flag. -/
theorem fqPostScan_amb (sig : String → Except String (List SearchEntry))
    (pu : Option String) (item : Item) (r0 : Result) (st0 : FqState) (rc : Nat)
    (out : FqOut) (h : fqPostScan sig pu item r0 st0 rc = some out) :
    out.state.amb = st0.amb := by
  unfold fqPostScan at h
  dsimp only at h
  split at h
  · rw [← Option.some_inj.mp h]
    dsimp only
    rw [fqReadLength_amb, fqMixedCheck_amb]
  · split at h
    · exact Option.noConfusion h
    · rename_i sfc heq
      rw [← Option.some_inj.mp h]
      dsimp only
      rw [fqReadLength_amb, fqMixedCheck_amb]

/-- C4 (amended): signature determinism holds exactly for runs in which
every consultation of the set-iteration oracle happens while
`read_numbers_set` holds at most one element (the ghost ambiguity flag
`amb` stays `false`): such a run of `process_fastq_file` — including its
sorted `fastq_signature` list — is reproduced identically under every
other valid iteration order of the Python sets.  The original claim,
which asserted determinism also when `list(read_numbers_set)[0]` is
taken with more than one element in the set, is refuted by
`c4_counterexample`. -/
theorem c4_signature_determinism (pick pick' : List String → String)
    (env : FqEnv) (item : Item) (errors0 : Dict) (result0 : Result) (out : FqOut)
    (hv : ∀ l, l ≠ [] → pick l ∈ l) (hv' : ∀ l, l ≠ [] → pick' l ∈ l)
    (hrun : process_fastq_file pick env item errors0 result0 = some out)
    (hamb : out.state.amb = false) :
    process_fastq_file pick' env item errors0 result0 = some out := by
  unfold process_fastq_file at hrun ⊢
  dsimp only at hrun ⊢
  split at hrun
  · rename_i n heqio
    split at hrun
    · exact Option.noConfusion hrun
    · rename_i st rc2 li2 heq
      have hamb2 : st.amb = false := by
        rw [← Option.some_inj.mp hrun] at hamb
        exact hamb
      rw [fqScanLoop_pick_irrel pick pick' hv hv' _ _ _ _ _ _ _ _ _ heq hamb2]
      dsimp only
      exact hrun
  · rename_i heqio
    split at hrun
    · exact Option.noConfusion hrun
    · rename_i st rc2 li2 heq
      have hamb2 : st.amb = false := by
        rw [← fqPostScan_amb _ _ _ _ _ _ _ hrun]
        exact hamb
      rw [fqScanLoop_pick_irrel pick pick' hv hv' _ _ _ _ _ _ _ _ _ heq hamb2]
      dsimp only
      exact hrun

theorem pickHead_valid : ∀ l : List String, l ≠ [] → pickHead l ∈ l := by
  intro l hl
  cases l with
  | nil => exact absurd rfl hl
  | cons a t => exact List.mem_cons_self a t

theorem pickLast_valid : ∀ l : List String, l ≠ [] → pickLast l ∈ l := by
  intro l hl
  cases l with
  | nil => exact absurd rfl hl
  | cons a t =>
    show (a :: t).getLastD "" ∈ a :: t
    rw [List.getLastD_cons]
    exact List.getLastD_mem_cons t a

/-- C4 counterexample: on the stream of `c4env` the first read leaves
`read_numbers_set = ["2", "1"]`; the SRR-style second read then takes
`list(read_numbers_set)[0]`, and two valid set-iteration orders
(`pickHead`, `pickLast`) produce different sorted `fastq_signature`
lists — the original determinism claim fails exactly in the
more-than-one-element case it includes. -/
theorem c4_counterexample :
    (process_fastq_file pickHead c4env c4item [] emptyResult).map
        (fun o => o.result.fastq_signature) =
      some (some ["FC:1:2::@A:1:FC:1:2:3:4", "FC:1:2:ACGT:"]) ∧
    (process_fastq_file pickLast c4env c4item [] emptyResult).map
        (fun o => o.result.fastq_signature) =
      some (some ["FC:1:1::@A:1:FC:1:2:3:4", "FC:1:2:ACGT:"]) ∧
    (["FC:1:2::@A:1:FC:1:2:3:4", "FC:1:2:ACGT:"] : List String) ≠
      ["FC:1:1::@A:1:FC:1:2:3:4", "FC:1:2:ACGT:"] := by
  exact ⟨by decide, by decide, by decide⟩

theorem c4_signature_determinism_witness :
    process_fastq_file pickLast c4wenv c4item [] emptyResult =
      process_fastq_file pickHead c4wenv c4item [] emptyResult := by
  have hrun : process_fastq_file pickHead c4wenv c4item [] emptyResult =
      some ((process_fastq_file pickHead c4wenv c4item [] emptyResult).getD
        ⟨[], emptyResult, initFqState []⟩) := by
    decide
  have hamb : ((process_fastq_file pickHead c4wenv c4item [] emptyResult).getD
      ⟨[], emptyResult, initFqState []⟩).state.amb = false := by
    decide
  rw [c4_signature_determinism pickHead pickLast c4wenv c4item [] emptyResult
    ((process_fastq_file pickHead c4wenv c4item [] emptyResult).getD
      ⟨[], emptyResult, initFqState []⟩)
    pickHead_valid pickLast_valid hrun hamb]
  exact hrun.symm

/-- C10: the header `@A:1:FC:1:2:3:4/1| 1:N:0:ACGT` matches
`special_read_name_pattern` but not `read_name_pattern`, and its first
whitespace-separated token does not end in `/1` or `/2`; on it
`process_special_read_name_pattern` (with `srr_flag` false) leaves
`read_numbers_set` empty and adds the signature
`FC:1:not initialized:ACGT:` — whose read-number field is the literal
string `not initialized` — and `process_read_name_line` routes the
header to exactly that outcome. -/
theorem c10_special_not_initialized :
    matches_special_read_name_pattern "@A:1:FC:1:2:3:4/1| 1:N:0:ACGT" = true ∧
    matches_read_name_pattern "@A:1:FC:1:2:3:4/1| 1:N:0:ACGT" = false ∧
    lastChars 2 ((pySplit isPyWs "@A:1:FC:1:2:3:4/1| 1:N:0:ACGT").getD 0 "") ≠ "/1" ∧
    lastChars 2 ((pySplit isPyWs "@A:1:FC:1:2:3:4/1| 1:N:0:ACGT").getD 0 "") ≠ "/2" ∧
    process_special_read_name_pattern pickHead "@A:1:FC:1:2:3:4/1| 1:N:0:ACGT"
        (pySplit isPyWs "@A:1:FC:1:2:3:4/1| 1:N:0:ACGT") false (initFqState []) =
      some { initFqState [] with
        signatures_set := ["FC:1:not initialized:ACGT:"],
        signatures_no_barcode_set := ["FC:1:not initialized:"] } ∧
    process_read_name_line pickHead none 2 "@A:1:FC:1:2:3:4/1| 1:N:0:ACGT" false
        (initFqState []) =
      some { initFqState [] with
        signatures_set := ["FC:1:not initialized:ACGT:"],
        signatures_no_barcode_set := ["FC:1:not initialized:"] } := by
  refine ⟨?_, ?_, ?_, ?_, ?_, ?_⟩ <;> decide

theorem c8_read_length_error_iff_witness :
    ∃ n, c8wout.result.read_count = some n ∧
      (10 * readsQuantity c8wout.state.read_lengths_dictionary 4 < 9 * n →
        dget c8wout.errors "read_length" =
          some (readLengthErrMsg 4 (sortByKey c8wout.state.read_lengths_dictionary))) ∧
      (¬ 10 * readsQuantity c8wout.state.read_lengths_dictionary 4 < 9 * n →
        dget c8wout.errors "read_length" = none) :=
  c8_read_length_error_iff pickHead c4wenv c4item [] emptyResult none 4 c8wout
    rfl rfl rfl (by decide) rfl rfl (by decide)

theorem c9_ultima_bypass_witness :
    ∃ out, process_fastq_file pickHead c9env c4item [] emptyResult = some out ∧
      (∃ n, out.result.read_count = some n) ∧
      out.result.fastq_signature = emptyResult.fastq_signature ∧
      out.state.read_numbers_set = [] ∧
      out.state.signatures_set = [] ∧
      out.state.signatures_no_barcode_set = [] ∧
      (∀ k, k ∈ ["read_length", "inconsistent_read_numbers", "fastq_format_readname",
                 "not_unique_flowcell_details", "content_error"] →
        dget out.errors k = dget ([] : Dict) k) ∧
      process_fastq_file pickLast c9env c4item [] emptyResult =
        process_fastq_file pickHead c9env c4item [] emptyResult :=
  c9_ultima_bypass pickHead pickLast c9env c4item [] emptyResult rfl rfl

/-- `compare_flowcell_details` computes both barcode sets from its
first argument (checkfiles.py:767), so it tests nothing about its
second argument: it returns whether the first file's own
`(lane, barcode)` set is nonempty. -/
theorem compare_flowcell_details_self (a b : List FlowcellDetail) :
    compare_flowcell_details a b = !(create_a_list_of_barcodes a).isEmpty := by
  unfold compare_flowcell_details
  dsimp only
  cases h : create_a_list_of_barcodes a with
  | nil => rfl
  | cons x xs => simp

/-- C3 (amended): a fastq-signature search hit from another file (both
accessions present and different) is recorded as a conflict if and only
if the signature does not end in `::`, or both files declare (truthy)
`flowcell_details` and the hit's own `(lane, barcode)` set is nonempty.
The `(lane, barcode)` sets of the two files are never intersected:
`compare_flowcell_details` reads `flowcell_details_1` twice, and a
nonempty intersection does not suppress the conflict (see
`c3_counterexample`). -/
theorem c3_conflict_characterization (signature : String) (item : Item)
    (entry : SearchEntry) (ea ia : String)
    (hea : entry.accession = some ea) (hia : item.accession = some ia)
    (hne : ea ≠ ia) :
    conflictsForEntry signature item entry =
      (if (! pyEndsWith signature "::") ||
          (pyEndsWith signature "::" && truthyList entry.flowcell_details &&
            truthyList item.flowcell_details &&
            !(create_a_list_of_barcodes (entry.flowcell_details.getD [])).isEmpty) then
        [signature ++ " in file " ++ ea ++ " "]
      else []) := by
  unfold conflictsForEntry
  rw [compare_flowcell_details_self, hea, hia]
  dsimp only
  rw [if_pos hne]

theorem c3_conflict_characterization_witness :
    conflictsForEntry "FC:1:1::" c3item c3entry =
      (if (! pyEndsWith "FC:1:1::" "::") ||
          (pyEndsWith "FC:1:1::" "::" && truthyList c3entry.flowcell_details &&
            truthyList c3item.flowcell_details &&
            !(create_a_list_of_barcodes (c3entry.flowcell_details.getD [])).isEmpty) then
        ["FC:1:1::" ++ " in file " ++ "ENCFF000BBB" ++ " "]
      else []) :=
  c3_conflict_characterization "FC:1:1::" c3item c3entry "ENCFF000BBB" "ENCFF000AAA"
    rfl rfl (by decide)

/-- C3 counterexample: the signature `FC:1:1::` ends in `::`, both
files declare flowcell details, and their `(lane, barcode)` sets
genuinely intersect — the original claim says no conflict is recorded
for this hit, yet `check_for_fastq_signature_conflicts` records one
(and returns `false`). -/
theorem c3_counterexample :
    pyEndsWith "FC:1:1::" "::" = true ∧
    truthyList c3entry.flowcell_details = true ∧
    truthyList c3item.flowcell_details = true ∧
    ((create_a_list_of_barcodes (c3entry.flowcell_details.getD [])).any
      (fun x => (create_a_list_of_barcodes (c3item.flowcell_details.getD [])).contains x))
        = true ∧
    c3entry.accession ≠ c3item.accession ∧
    conflictsForEntry "FC:1:1::" c3item c3entry = ["FC:1:1:: in file ENCFF000BBB "] ∧
    check_for_fastq_signature_conflicts (fun _ => .ok [c3entry]) [] c3item ["FC:1:1::"] =
      ([("not_unique_flowcell_details",
          "Fastq file contains read name signature that conflict with signature of " ++
            "existing file(s): FC:1:1:: in file ENCFF000BBB "),
        ("content_error",
          "Fastq file contains read name signature that conflict with signature of " ++
            "existing file(s): FC:1:1:: in file ENCFF000BBB ")],
        false) := by
  refine ⟨?_, ?_, ?_, ?_, ?_, ?_, ?_⟩ <;> decide

theorem ceHas_update (v m : String) (e : Dict) (h : ceHas v e) :
    ceHas v (update_content_error e m) := by
  obtain ⟨s, hs⟩ := h
  refine ⟨s ++ ", " ++ m, ?_⟩
  unfold update_content_error
  rw [hs, dget_dset_self]
  simp [String.append_assoc]

theorem ceHas_dset (v : String) (e : Dict) (k x : String)
    (hk : k ≠ "content_error") (h : ceHas v e) : ceHas v (dset e k x) := by
  obtain ⟨s, hs⟩ := h
  exact ⟨s, by rw [dget_dset_ne _ _ _ _ (fun hh => hk hh.symm)]; exact hs⟩

theorem ceHas_of_dget (v : String) (e : Dict)
    (h : dget e "content_error" = some v) : ceHas v e :=
  ⟨"", by rw [h]; simp⟩

theorem ceHas_updset (v : String) (e : Dict) (k x m : String)
    (hk : k ≠ "content_error") (h : ceHas v e) :
    ceHas v (update_content_error (dset e k x) m) :=
  ceHas_update _ _ _ (ceHas_dset _ _ _ _ hk h)

theorem ceHas_contentmd5 (v : String) (md : MdSearchResp) (item : Item)
    (r : Result) (o : String) (e : Dict) (h : ceHas v e) :
    ceHas v (check_for_contentmd5sum_conflicts md item r o e).1 := by
  unfold check_for_contentmd5sum_conflicts
  dsimp only
  repeat' split
  all_goals
    first
    | exact h
    | exact ceHas_updset _ _ _ _ _ (by decide) h
    | exact ceHas_dset _ _ _ _ (by decide) h

theorem ceHas_checkFormatCore (v : String) (env : CheckFormatEnv)
    (encValData : String) (item : Item) (e : Dict) (r : Result)
    (chromInfo : String) (subreads : Bool) (h : ceHas v e) :
    ceHas v (checkFormatCore env encValData item e r chromInfo subreads).1 := by
  unfold checkFormatCore
  dsimp only
  repeat' split
  all_goals
    first
    | exact h
    | exact ceHas_updset _ _ _ _ _ (by decide) h
    | exact ceHas_updset _ _ _ _ _ (by decide) (ceHas_updset _ _ _ _ _ (by decide) h)

theorem ceHas_check_format (v : String) (env : CheckFormatEnv)
    (encValData : String) (item : Item) (e : Dict) (r : Result) (h : ceHas v e) :
    ceHas v (check_format env encValData item e r).1 := by
  unfold check_format
  dsimp only
  repeat' split
  all_goals
    first
    | exact h
    | exact ceHas_updset _ _ _ _ _ (by decide) h
    | exact ceHas_updset _ _ _ _ _ (by decide) (ceHas_updset _ _ _ _ _ (by decide) h)
    | exact ceHas_checkFormatCore _ _ _ _ _ _ _ _ h
    | exact ceHas_checkFormatCore _ _ _ _ _ _ _ _ (ceHas_updset _ _ _ _ _ (by decide) h)
    | exact ceHas_checkFormatCore _ _ _ _ _ _ _ _
        (ceHas_updset _ _ _ _ _ (by decide) (ceHas_updset _ _ _ _ _ (by decide) h))

theorem ceHas_of_eqKey (v : String) (e1 e2 : Dict)
    (heq : dget e2 "content_error" = dget e1 "content_error") (h : ceHas v e1) :
    ceHas v e2 := by
  obtain ⟨s, hs⟩ := h
  exact ⟨s, by rw [heq]; exact hs⟩

theorem ceHas_foldl {β α : Type} (v : String) (f : Dict × β → α → Dict × β)
    (hf : ∀ acc x, ceHas v acc.1 → ceHas v (f acc x).1) :
    ∀ (l : List α) (acc : Dict × β), ceHas v acc.1 → ceHas v (l.foldl f acc).1 := by
  intro l
  induction l with
  | nil => intro acc h; exact h
  | cons a as ih => intro acc h; exact ih _ (hf _ _ h)

theorem ceHas_optFoldl {γ α : Type} (v : String) (f : Option γ → α → Option γ)
    (g : γ → Dict) (hnone : ∀ x, f none x = none)
    (hf : ∀ y x z, f (some y) x = some z → ceHas v (g y) → ceHas v (g z)) :
    ∀ (l : List α) (acc : Option γ) (z : γ), l.foldl f acc = some z →
      (∀ y, acc = some y → ceHas v (g y)) → ceHas v (g z) := by
  intro l
  induction l with
  | nil => intro acc z h hacc; exact hacc z h
  | cons a as ih =>
    intro acc z h hacc
    refine ih _ z h ?_
    intro y hy
    rcases acc with _ | w
    · rw [hnone] at hy
      exact Option.noConfusion hy
    · exact hf w a y hy (hacc w rfl)

theorem ceHas_crisprGuideStep (v : String) (acc : Dict × Result × Bool) (l : String)
    (h : ceHas v acc.1) : ceHas v (crisprGuideStep acc l).1 := by
  unfold crisprGuideStep
  dsimp only
  split
  · exact h
  · exact ceHas_updset _ _ _ _ _ (by decide) h

theorem ceHas_validate_crispr (v : String) (env : CrisprEnv) (e : Dict) (r : Result)
    (h : ceHas v e) : ceHas v (validate_crispr env e r).1 := by
  unfold validate_crispr
  dsimp only
  have hg : ceHas v (env.guideLines.foldl crisprGuideStep (e, r, false)).1 :=
    ceHas_foldl v crisprGuideStep (fun acc x => ceHas_crisprGuideStep v acc x) _ _ h
  repeat' split
  all_goals
    first
    | exact hg
    | exact ceHas_updset _ _ _ _ _ (by decide) hg

theorem ceHas_mappedRunTypeStep (v : String) (y : Option String × Dict × Result)
    (x : String) (z : Option String × Dict × Result)
    (h : mappedRunTypeStep (some y) x = some z) (hy : ceHas v y.2.1) :
    ceHas v z.2.1 := by
  obtain ⟨npr, e1, r1⟩ := y
  unfold mappedRunTypeStep at h
  dsimp only at h
  split at h
  · rw [← Option.some_inj.mp h]
    exact ceHas_updset _ _ _ _ _ (by decide) hy
  · split at h
    · split at h
      · exact Option.noConfusion h
      · rw [← Option.some_inj.mp h]
        exact hy
    · rw [← Option.some_inj.mp h]
      exact hy

theorem ceHas_get_mapped_run_type_bam (v : String) (lines : List String)
    (e0 : Dict) (r0 : Result) (out : Option String × Dict × Result)
    (h : get_mapped_run_type_bam lines e0 r0 = some out) (h0 : ceHas v e0) :
    ceHas v out.2.1 := by
  unfold get_mapped_run_type_bam at h
  dsimp only at h
  have hscan : ∀ z, lines.foldl mappedRunTypeStep (some (none, e0, r0)) = some z →
      ceHas v z.2.1 := by
    intro z hz
    refine ceHas_optFoldl v mappedRunTypeStep (fun y => y.2.1) (fun x => rfl)
      (fun y x z hyz hy => ceHas_mappedRunTypeStep v y x z hyz hy) lines _ z hz ?_
    intro y hy
    rw [← Option.some_inj.mp hy]
    exact h0
  split at h
  · exact Option.noConfusion h
  · rename_i npr errors result heq
    have hz := hscan _ heq
    split at h
    · rw [← Option.some_inj.mp h]
      exact hz
    · split at h
      · rw [← Option.some_inj.mp h]
        exact hz
      · split at h
        · exact Option.noConfusion h
        · rw [← Option.some_inj.mp h]
          exact hz

theorem ceHas_mappedReadLengthStep (v : String) (y : Option Int × Dict × Result)
    (x : String) (z : Option Int × Dict × Result)
    (h : mappedReadLengthStep (some y) x = some z) (hy : ceHas v y.2.1) :
    ceHas v z.2.1 := by
  obtain ⟨rl, e1, r1⟩ := y
  unfold mappedReadLengthStep at h
  dsimp only at h
  split at h
  · rw [← Option.some_inj.mp h]
    exact ceHas_updset _ _ _ _ _ (by decide) hy
  · split at h
    · exact Option.noConfusion h
    · rw [← Option.some_inj.mp h]
      exact hy

theorem ceHas_get_mapped_read_length_bam (v : String) (lines : List String)
    (e0 : Dict) (r0 : Result) (out : Option Int × Dict × Result)
    (h : get_mapped_read_length_bam lines e0 r0 = some out) (h0 : ceHas v e0) :
    ceHas v out.2.1 := by
  unfold get_mapped_read_length_bam at h
  refine ceHas_optFoldl v mappedReadLengthStep (fun y => y.2.1) (fun x => rfl)
    (fun y x z hyz hy => ceHas_mappedReadLengthStep v y x z hyz hy) lines _ out h ?_
  intro y hy
  rw [← Option.some_inj.mp hy]
  exact h0

theorem ceHas_applyBamLookupWrite (v : String) (e : Dict) (w : BamLookupWrite)
    (h : ceHas v e) : ceHas v (applyBamLookupWrite e w) := by
  unfold applyBamLookupWrite
  cases w
  all_goals exact ceHas_dset _ _ _ _ (by decide) h

theorem ceHas_bamLookupFold (v : String) (ws : List BamLookupWrite) :
    ∀ (e : Dict), ceHas v e → ceHas v (ws.foldl applyBamLookupWrite e) := by
  induction ws with
  | nil => intro e h; exact h
  | cons w rest ih => intro e h; exact ih _ (ceHas_applyBamLookupWrite v e w h)

theorem ceHas_bamBlock (v : String) (env : CheckEnv) (lp : String)
    (e0 : Dict) (r0 : Result) (out : Dict × Result)
    (h : bamBlock env lp e0 r0 = some out) (h0 : ceHas v e0) : ceHas v out.1 := by
  unfold bamBlock at h
  dsimp only at h
  have hA : ceHas v (env.bam.lookupWrites.foldl applyBamLookupWrite e0) :=
    ceHas_bamLookupFold v _ _ h0
  split at h
  · split at h
    · split at h
      · rw [← Option.some_inj.mp h]
        exact ceHas_update _ _ _ (ceHas_dset _ _ _ _ (by decide)
          (ceHas_updset _ _ _ _ _ (by decide) hA))
      · split at h
        · exact Option.noConfusion h
        · rename_i rt1 heq1
          split at h
          · exact Option.noConfusion h
          · rename_i rl1 heq2
            have h1 := ceHas_get_mapped_run_type_bam v _ _ _ _ heq1 hA
            have h2 := ceHas_get_mapped_read_length_bam v _ _ _ _ heq2 h1
            split at h
            · rw [← Option.some_inj.mp h]
              exact h2
            · rw [← Option.some_inj.mp h]
              exact ceHas_updset _ _ _ _ _ (by decide) h2
    · rw [← Option.some_inj.mp h]
      exact hA
  · rw [← Option.some_inj.mp h]
    exact hA

theorem ceHas_gzStage (v : String) (env : CheckEnv) (item : Item) (g : Bool)
    (e0 : Dict) (r0 : Result) (h : ceHas v e0) :
    ceHas v (gzStage env item g e0 r0).1 := by
  unfold gzStage
  dsimp only
  repeat' split
  all_goals
    first
    | exact h
    | exact ceHas_updset _ _ _ _ _ (by decide) h
    | exact ceHas_dset _ _ _ _ (by decide) h
    | exact ceHas_dset _ _ _ _ (by decide) (ceHas_contentmd5 _ _ _ _ _ _ h)
    | exact ceHas_contentmd5 _ _ _ _ _ _ h
    | exact ceHas_dset _ _ _ _ (by decide) (ceHas_dset _ _ _ _ (by decide) h)

theorem ceHas_cfStage (v : String) (env : CheckEnv) (item : Item) (uz : String)
    (gz : Dict × Result × Bool × Bool) (h : ceHas v gz.1) :
    ceHas v (cfStage env item uz gz).1 := by
  unfold cfStage remove_local_file
  dsimp only
  repeat' split
  all_goals
    first
    | exact ceHas_check_format _ _ _ _ _ _ h
    | exact ceHas_dset _ _ _ _ (by decide) (ceHas_check_format _ _ _ _ _ _ h)

theorem ceHas_fqMixedCheck (v : String) (pu : Option String) (st : FqState)
    (h : ceHas v st.errors) : ceHas v (fqMixedCheck pu st).errors := by
  unfold fqMixedCheck
  split
  · exact ceHas_updset _ _ _ _ _ (by decide) h
  · exact h

theorem ceHas_process_read_lengths (v : String) (rld ll : List (Nat × Nat))
    (sub rc : Nat) (e : Dict) (h : ceHas v e) :
    ceHas v (process_read_lengths rld ll sub rc e) := by
  unfold process_read_lengths
  split
  · exact ceHas_updset _ _ _ _ _ (by decide) h
  · exact h

theorem ceHas_fqReadLength (v : String) (pu : Option String) (item : Item)
    (rc : Nat) (st : FqState) (h : ceHas v st.errors) :
    ceHas v (fqReadLength pu item rc st).errors := by
  unfold fqReadLength fqReadLength.noReadLengthError
  repeat' split
  all_goals
    first
    | exact h
    | exact ceHas_process_read_lengths _ _ _ _ _ _ h
    | exact ceHas_updset _ _ _ _ _ (by decide) h

theorem ceHas_fastqSigConflictStep (v : String)
    (sigSearch : String → Except String (List SearchEntry)) (item : Item)
    (acc : Dict × List String) (sgn : String) (h : ceHas v acc.1) :
    ceHas v (fastqSigConflictStep sigSearch item acc sgn).1 := by
  unfold fastqSigConflictStep
  repeat' split
  all_goals
    first
    | exact h
    | exact ceHas_dset _ _ _ _ (by decide) h

theorem ceHas_sigConflicts (v : String)
    (sigSearch : String → Except String (List SearchEntry)) (e : Dict)
    (item : Item) (sigs : List String) (h : ceHas v e) :
    ceHas v (check_for_fastq_signature_conflicts sigSearch e item sigs).1 := by
  unfold check_for_fastq_signature_conflicts
  dsimp only
  have hs : ceHas v ((pySort sigs).foldl (fastqSigConflictStep sigSearch item) (e, [])).1 :=
    ceHas_foldl v (fastqSigConflictStep sigSearch item)
      (fun acc x => ceHas_fastqSigConflictStep v sigSearch item acc x) _ _ h
  repeat' split
  all_goals
    first
    | exact hs
    | exact ceHas_updset _ _ _ _ _ (by decide) hs

theorem ceHas_fqPostScan (v : String)
    (sig : String → Except String (List SearchEntry)) (pu : Option String)
    (item : Item) (r0 : Result) (st0 : FqState) (rc : Nat) (out : FqOut)
    (h : fqPostScan sig pu item r0 st0 rc = some out) (h0 : ceHas v st0.errors) :
    ceHas v out.errors := by
  unfold fqPostScan at h
  dsimp only at h
  have hst : ceHas v (fqReadLength pu item rc (fqMixedCheck pu st0)).errors :=
    ceHas_fqReadLength v _ _ _ _ (ceHas_fqMixedCheck v _ _ h0)
  split at h
  · rw [← Option.some_inj.mp h]
    exact hst
  · split at h
    · exact Option.noConfusion h
    · rw [← Option.some_inj.mp h]
      exact ceHas_sigConflicts v _ _ _ _ hst

theorem ceHas_process_fastq_file (v : String) (pick : List String → String)
    (env : FqEnv) (item : Item) (errors0 : Dict) (result0 : Result) (out : FqOut)
    (h : process_fastq_file pick env item errors0 result0 = some out)
    (h0 : ceHas v errors0) : ceHas v out.errors := by
  unfold process_fastq_file at h
  dsimp only at h
  have hde : ceHas v
      (match env.detailsLookup with
        | .error e =>
          ((none : Option ReadNameDetails), dset
            (match env.platformLookup with
              | .error e2 =>
                ((none : Option String), dset errors0 "lookup_for_platform"
                  ("Network error occured, while looking for platform on the portal. " ++ e2))
              | .ok u => (u, errors0)).2 "lookup_for_read_name_detaisl"
            ("Network error occured, while looking for file read_name details on the portal. " ++ e))
        | .ok d => (d,
            (match env.platformLookup with
              | .error e2 =>
                ((none : Option String), dset errors0 "lookup_for_platform"
                  ("Network error occured, while looking for platform on the portal. " ++ e2))
              | .ok u => (u, errors0)).2)).2 := by
    rcases env.detailsLookup with e | d <;> rcases env.platformLookup with e2 | u <;>
      dsimp only
    · exact ceHas_dset _ _ _ _ (by decide) (ceHas_dset _ _ _ _ (by decide) h0)
    · exact ceHas_dset _ _ _ _ (by decide) h0
    · exact ceHas_dset _ _ _ _ (by decide) h0
    · exact h0
  split at h
  · split at h
    · exact Option.noConfusion h
    · rename_i st rc2 li2 heq
      have hst : ceHas v st.errors := by
        refine ceHas_of_eqKey v _ _ ?_ hde
        exact fqScanLoop_errors _ _ _ _ _ _ _ _ _ _ heq "content_error" (by decide) (by decide)
      rw [← Option.some_inj.mp h]
      exact ceHas_dset _ _ _ _ (by decide) hst
  · split at h
    · exact Option.noConfusion h
    · rename_i st rc2 li2 heq
      have hst : ceHas v st.errors := by
        refine ceHas_of_eqKey v _ _ ?_ hde
        exact fqScanLoop_errors _ _ _ _ _ _ _ _ _ _ heq "content_error" (by decide) (by decide)
      exact ceHas_fqPostScan v _ _ _ _ _ _ _ h hst

theorem ceHas_checkFileAfterGzip (v : String) (env : CheckEnv)
    (pick : List String → String) (job : CJob) (item : Item)
    (lp uz : String) (g : Bool) (e0 : Dict) (r0 : Result) (out : CJob) (sc : Bool)
    (h : checkFileAfterGzip env pick job item lp uz g e0 r0 = some (out, sc))
    (h0 : ceHas v e0) : ceHas v out.errors := by
  unfold checkFileAfterGzip at h
  dsimp only at h
  have hcf : ceHas v (cfStage env item uz (gzStage env item g e0 r0)).1 :=
    ceHas_cfStage v _ _ _ _ (ceHas_gzStage v _ _ _ _ _ h0)
  split at h
  · exact Option.noConfusion h
  · rename_i fqr heqfq
    have hfq : ceHas v fqr.1 := by
      split at heqfq
      · split at heqfq
        · rw [← Option.some_inj.mp heqfq]
          exact ceHas_dset _ _ _ _ (by decide) hcf
        · split at heqfq
          · exact Option.noConfusion heqfq
          · rename_i fout heqf
            rw [← Option.some_inj.mp heqfq]
            exact ceHas_process_fastq_file v _ _ _ _ _ _ heqf hcf
      · rw [← Option.some_inj.mp heqfq]
        exact hcf
    split at h
    · exact Option.noConfusion h
    · rename_i cr heqcr
      have hcr : ceHas v cr.1 := by
        split at heqcr
        · split at heqcr
          · exact Option.noConfusion heqcr
          · split at heqcr
            · split at heqcr
              · rw [← Option.some_inj.mp heqcr]
                exact hfq
              · split at heqcr
                · split at heqcr
                  · rw [← Option.some_inj.mp heqcr]
                    exact hfq
                  · split at heqcr
                    · rw [← Option.some_inj.mp heqcr]
                      exact ceHas_validate_crispr v _ _ _ hfq
                    · rw [← Option.some_inj.mp heqcr]
                      exact hfq
                · rw [← Option.some_inj.mp heqcr]
                  exact hfq
            · rw [← Option.some_inj.mp heqcr]
              exact hfq
        · rw [← Option.some_inj.mp heqcr]
          exact hfq
      split at h
      · exact Option.noConfusion h
      · rename_i bm heqbm
        have hbm : ceHas v bm.1 := by
          split at heqbm
          · split at heqbm
            · exact Option.noConfusion heqbm
            · split at heqbm
              · exact ceHas_bamBlock v _ _ _ _ _ heqbm hcr
              · rw [← Option.some_inj.mp heqbm]
                exact hcr
          · rw [← Option.some_inj.mp heqbm]
            exact hcr
        obtain ⟨h1, h2⟩ := Prod.mk.injEq _ _ _ _ |>.mp (Option.some_inj.mp h)
        rw [← h1]
        dsimp only
        repeat' split
        all_goals
          first
          | exact hbm
          | exact ceHas_dset _ _ _ _ (by decide) hbm
          | exact ceHas_dset _ _ _ _ (by decide) (ceHas_dset _ _ _ _ (by decide) hbm)

theorem dget_ne_nil (e : Dict) (k x : String) (h : dget e k = some x) : e ≠ [] := by
  intro hnil
  rw [hnil] at h
  exact Option.noConfusion h

theorem ceHas_update_fresh (m : String) (e : Dict)
    (h : dget e "content_error" = none) : ceHas m (update_content_error e m) := by
  refine ⟨"", ?_⟩
  unfold update_content_error
  rw [h, dget_dset_self]
  simp

theorem strContains_c6msg_left (d c : String) : strContains (c6msg d c) d := by
  unfold c6msg strContains
  refine ⟨"File metadata-specified md5sum ".data,
    (" does not match the calculated md5sum " ++ c).data, ?_⟩
  simp [String.data_append, List.append_assoc]

theorem strContains_c6msg_right (d c : String) : strContains (c6msg d c) c := by
  unfold c6msg strContains
  refine ⟨("File metadata-specified md5sum " ++ d ++
    " does not match the calculated md5sum ").data, [], ?_⟩
  simp [String.data_append, List.append_assoc]

theorem strContains_take_append (v1 s d : String) (n : Nat)
    (hlen : v1.length ≤ n) (h : strContains v1 d) :
    strContains (pyTake n (v1 ++ s)) d := by
  unfold strContains pyTake at *
  obtain ⟨p, t, hpt⟩ := h
  rw [String.data_append, List.take_append_eq_append_take, List.take_of_length_le hlen]
  refine ⟨p, t ++ s.data.take (n - v1.data.length), ?_⟩
  show p ++ d.data ++ (t ++ s.data.take (n - v1.data.length)) =
    v1.data ++ s.data.take (n - v1.data.length)
  rw [← hpt]
  simp [List.append_assoc]

theorem c6_md5Stage (env : CheckEnv) (item : Item) (e : Dict) (r : Result)
    (output : String)
    (hmd5 : env.md5Out = .ok output) (hne : pyTake 32 output ≠ item.md5sum)
    (hce0 : dget e "content_error" = none) :
    ceHas (c6msg item.md5sum (pyTake 32 output)) (md5Stage env item e r).1 := by
  unfold md5Stage
  rw [hmd5]
  dsimp only
  rw [if_pos hne]
  dsimp only
  refine ceHas_update_fresh _ _ ?_
  rw [dget_dset_ne _ _ _ _ (by decide)]
  split
  · rw [dget_dset_ne _ _ _ _ (by decide)]
    exact hce0
  · exact hce0

theorem c6_checkFileMain_ce (env : CheckEnv) (pick : List String → String)
    (job : CJob) (item : Item) (lp : String) (sz : Nat) (lm output : String)
    (out : CJob) (sc : Bool)
    (hstat : env.statResult = .ok sz lm) (hmd5 : env.md5Out = .ok output)
    (hne : pyTake 32 output ≠ item.md5sum)
    (hce0 : dget job.errors "content_error" = none)
    (h : checkFileMain env pick job item lp = some (out, sc)) :
    ceHas (c6msg item.md5sum (pyTake 32 output)) out.errors := by
  unfold checkFileMain at h
  rw [hstat] at h
  dsimp only at h
  have hmsg := c6_md5Stage env item job.errors
    { job.result with file_size := some sz, last_modified := some lm } output hmd5 hne hce0
  split at h
  · obtain ⟨h1, -⟩ := Prod.mk.injEq _ _ _ _ |>.mp (Option.some_inj.mp h)
    rw [← h1]
    exact hmsg
  · exact ceHas_checkFileAfterGzip _ _ _ _ _ _ _ _ _ _ _ _ h hmsg

theorem c6_check_file_ce (env : CheckEnv) (pick : List String → String)
    (job : CJob) (item : Item) (sz : Nat) (lm output : String)
    (out : CJob) (sc : Bool)
    (hitem : job.item = some item) (hskip : job.skip = false)
    (hnfa : item.no_file_available = false)
    (hstat : env.statResult = .ok sz lm) (hmd5 : env.md5Out = .ok output)
    (hne : pyTake 32 output ≠ item.md5sum)
    (hce0 : dget job.errors "content_error" = none)
    (hrun : check_file env pick job = some (out, sc)) :
    ceHas (c6msg item.md5sum (pyTake 32 output)) out.errors := by
  unfold check_file at hrun
  rw [hitem] at hrun
  dsimp only at hrun
  rw [hskip] at hrun
  simp only [Bool.false_eq_true, if_false] at hrun
  rcases hlf : job.local_file with _ | lp <;> rw [hlf] at hrun <;> dsimp only at hrun
  · rw [hnfa] at hrun
    simp only [Bool.false_eq_true, if_false] at hrun
    rcases hdu : job.download_url with _ | du <;> rw [hdu] at hrun <;> dsimp only at hrun
    · exact Option.noConfusion hrun
    · refine c6_checkFileMain_ce env pick _ item _ sz lm output out sc hstat hmd5 hne ?_ hrun
      exact hce0
  · refine c6_checkFileMain_ce env pick _ item _ sz lm output out sc hstat hmd5 hne ?_ hrun
    exact hce0

theorem patchData_content_error (job : CJob) (v : String)
    (hce : ceHas v job.errors)
    (hfnf : dget job.errors "file_not_found" = none) :
    (patchData job).2.status = some "content error" ∧
    ∃ s2, (patchData job).2.content_error_detail =
      some (pyStrip (pyTake 5000 (v ++ s2))) := by
  obtain ⟨s, hs⟩ := hce
  unfold patchData
  dsimp only
  rw [if_neg (fun (hc : job.errors = [] ∧ job.skip = false) => dget_ne_nil _ _ _ hs hc.1)]
  rcases hrn : dget job.errors "fastq_format_readname" with _ | rv <;> dsimp only
  · rw [hfnf, hs]
    exact ⟨rfl, s, rfl⟩
  · obtain ⟨s2, hs2⟩ := ceHas_update v _ job.errors ⟨s, hs⟩
    rw [update_content_error_other _ _ _ (by decide), hfnf, hs2]
    exact ⟨rfl, s2, rfl⟩

theorem c6_patch_side (penv : PatchEnv) (job : CJob) (pout : PatchOutcome)
    (resp : EtagResp) (v : String)
    (hce : ceHas v job.errors)
    (hfnf : dget job.errors "file_not_found" = none)
    (hfetch : penv.etagFetch = .ok resp) (hok : resp.ok = true)
    (hetag : resp.etag = job.etag) (hpok : penv.patchOk = true)
    (hpatch : patch_file penv job = some pout) :
    pout.patched = true ∧
    ∃ data, pout.request = some (job.etag, data) ∧
      data.status = some "content error" ∧
      ∃ s2, data.content_error_detail = some (pyStrip (pyTake 5000 (v ++ s2))) := by
  obtain ⟨hst, s2, hcd⟩ := patchData_content_error job v hce hfnf
  unfold patch_file at hpatch
  dsimp only at hpatch
  rw [if_pos (show (patchData job).2 ≠ emptyPatchData by
    intro heq; rw [heq] at hst; exact Option.noConfusion hst)] at hpatch
  rw [hfetch] at hpatch
  dsimp only at hpatch
  rw [if_pos hok, if_pos hetag.symm, if_pos hpok] at hpatch
  rw [← Option.some_inj.mp hpatch]
  exact ⟨rfl, _, rfl, hst, s2, hcd⟩

/-- C6: when the computed md5 of the local file (the first 32 bytes of
the `md5sum` output) differs from the record's declared md5sum, and the
PATCH goes through under a matching etag, the PATCHed status is
`content error` and `content_error_detail` is the (truncated, stripped)
`content_error` entry, which starts with the mismatch message naming
the declared and the computed value; both values appear in the
truncated entry whenever the message fits the 5000-character cap.  The
`file_not_found` hypothesis rules out the disjoint stat-failure state,
which the source only reaches when the file could not be read at
all. -/
theorem c6_md5_mismatch (env : CheckEnv) (pick : List String → String)
    (job : CJob) (item : Item) (sz : Nat) (lm output : String)
    (out : CJob) (sc : Bool) (penv : PatchEnv) (pout : PatchOutcome)
    (resp : EtagResp)
    (hitem : job.item = some item) (hskip : job.skip = false)
    (hnfa : item.no_file_available = false)
    (hstat : env.statResult = .ok sz lm) (hmd5 : env.md5Out = .ok output)
    (hne : pyTake 32 output ≠ item.md5sum)
    (hce0 : dget job.errors "content_error" = none)
    (hrun : check_file env pick job = some (out, sc))
    (hfnf : dget out.errors "file_not_found" = none)
    (hfetch : penv.etagFetch = .ok resp) (hok : resp.ok = true)
    (hetag : resp.etag = out.etag) (hpok : penv.patchOk = true)
    (hpatch : patch_file penv out = some pout) :
    pout.patched = true ∧
    ∃ data, pout.request = some (out.etag, data) ∧
      data.status = some "content error" ∧
      ∃ s2, data.content_error_detail =
          some (pyStrip (pyTake 5000 (c6msg item.md5sum (pyTake 32 output) ++ s2))) ∧
        ((c6msg item.md5sum (pyTake 32 output)).length ≤ 5000 →
          strContains (pyTake 5000 (c6msg item.md5sum (pyTake 32 output) ++ s2))
            item.md5sum ∧
          strContains (pyTake 5000 (c6msg item.md5sum (pyTake 32 output) ++ s2))
            (pyTake 32 output)) := by
  have hce := c6_check_file_ce env pick job item sz lm output out sc hitem hskip hnfa
    hstat hmd5 hne hce0 hrun
  obtain ⟨hp, data, hreq, hst, s2, hdet⟩ :=
    c6_patch_side penv out pout resp _ hce hfnf hfetch hok hetag hpok hpatch
  refine ⟨hp, data, hreq, hst, s2, hdet, ?_⟩
  intro hlen
  exact ⟨strContains_take_append _ _ _ _ hlen (strContains_c6msg_left _ _),
    strContains_take_append _ _ _ _ hlen (strContains_c6msg_right _ _)⟩

theorem gzStage_flags (env : CheckEnv) (item : Item) (g : Bool) (e0 : Dict)
    (r0 : Result) :
    (gzStage env item g e0 r0).2.2.1 = (gzStage env item g e0 r0).2.2.2 := by
  unfold gzStage
  dsimp only
  repeat' split
  all_goals rfl

theorem gzStage_bed (env : CheckEnv) (item : Item) (g : Bool) (e0 : Dict)
    (r0 : Result) (h : (gzStage env item g e0 r0).2.2.2 = true) :
    item.file_format = "bed" := by
  unfold gzStage at h
  dsimp only at h
  repeat' split at h
  all_goals first | exact Bool.noConfusion h | assumption

theorem cfStage_scratch_true (env : CheckEnv) (item : Item) (uz : String)
    (gz : Dict × Result × Bool × Bool) (hflags : gz.2.2.1 = gz.2.2.2)
    (h : (cfStage env item uz gz).2.2 = true) :
    gz.2.2.1 = true ∧ env.removeOk = false ∧
    dget (cfStage env item uz gz).1 "file_remove_error" =
      some ("OS could not remove the file " ++ uz) := by
  unfold cfStage remove_local_file at h ⊢
  dsimp only at h ⊢
  split at h
  · rename_i hpres
    rw [if_pos hpres]
    split at h
    · rename_i hex
      rw [if_pos hex]
      split at h
      · exact Bool.noConfusion h
      · rename_i hro
        rw [if_neg hro]
        refine ⟨hpres, Bool.not_eq_true _ ▸ hro, ?_⟩
        exact dget_dset_self _ _ _
    · rename_i hex
      exact absurd (hflags.trans (Bool.not_eq_true _ ▸ hex)) (by rw [hpres]; decide)
  · rename_i hpres
    exact absurd (hflags.symm.trans (Bool.not_eq_true _ ▸ hpres)) (by rw [h]; decide)

theorem cfStage_scratch_false (env : CheckEnv) (item : Item) (uz : String)
    (gz : Dict × Result × Bool × Bool) (hro : env.removeOk = true)
    (hflags : gz.2.2.1 = gz.2.2.2) : (cfStage env item uz gz).2.2 = false := by
  unfold cfStage remove_local_file
  dsimp only
  repeat' split
  all_goals
    first
    | rfl
    | (rename_i hrof
       exact absurd hro hrof)
    | (rename_i hex
       exact Bool.not_eq_true _ ▸ hex)
    | (rename_i hpres
       rw [← hflags]
       exact Bool.not_eq_true _ ▸ hpres)

theorem c7_afterGzip (env : CheckEnv) (pick : List String → String) (job : CJob)
    (item : Item) (lp uz : String) (g : Bool) (e0 : Dict) (r0 : Result)
    (out : CJob) (sc : Bool)
    (h : checkFileAfterGzip env pick job item lp uz g e0 r0 = some (out, sc)) :
    (env.removeOk = true → sc = false) ∧
    (sc = true → env.removeOk = false ∧ item.file_format = "bed" ∧
      dget out.errors "file_remove_error" =
        some ("OS could not remove the file " ++ uz)) := by
  unfold checkFileAfterGzip at h
  dsimp only at h
  split at h
  · exact Option.noConfusion h
  · rename_i fqr heqfq
    split at h
    · exact Option.noConfusion h
    · rename_i cr heqcr
      split at h
      · exact Option.noConfusion h
      · rename_i bm heqbm
        obtain ⟨h1, h2⟩ := Prod.mk.injEq _ _ _ _ |>.mp (Option.some_inj.mp h)
        constructor
        · intro hro
          rw [← h2]
          exact cfStage_scratch_false env item uz _ hro (gzStage_flags env item g e0 r0)
        · intro hsc
          rw [← h2] at hsc
          obtain ⟨hpres, hro, hfre⟩ :=
            cfStage_scratch_true env item uz _ (gzStage_flags env item g e0 r0) hsc
          have hbed : item.file_format = "bed" :=
            gzStage_bed env item g e0 r0 ((gzStage_flags env item g e0 r0) ▸ hpres)
          refine ⟨hro, hbed, ?_⟩
          rw [hbed] at heqfq heqcr heqbm
          rw [if_neg (fun hc => absurd hc.1 (by decide))] at heqfq
          rw [if_neg (fun hc => absurd hc (by decide))] at heqcr
          rw [if_neg (fun hc => absurd hc.1 (by decide))] at heqbm
          have hfqr := (Option.some_inj.mp heqfq).symm
          have hcr := (Option.some_inj.mp heqcr).symm
          have hbm := (Option.some_inj.mp heqbm).symm
          rw [← h1]
          dsimp only
          have hbm1 : bm.1 = (cfStage env item uz (gzStage env item g e0 r0)).1 := by
            rw [hbm, hcr, hfqr]
          split
          · split
            · rw [dget_dset_ne _ _ _ _ (by decide), dget_dset_ne _ _ _ _ (by decide), hbm1]
              exact hfre
            · rw [dget_dset_ne _ _ _ _ (by decide), hbm1]
              exact hfre
          · split
            · rw [dget_dset_ne _ _ _ _ (by decide), hbm1]
              exact hfre
            · rw [hbm1]
              exact hfre

theorem c7_checkFileMain (env : CheckEnv) (pick : List String → String)
    (job : CJob) (item : Item) (lp : String) (out : CJob) (sc : Bool)
    (h : checkFileMain env pick job item lp = some (out, sc)) :
    (env.removeOk = true → sc = false) ∧
    (sc = true → env.removeOk = false ∧ item.file_format = "bed" ∧
      dget out.errors "file_remove_error" =
        some ("OS could not remove the file " ++
          (pySliceNeg lp 18 7 ++ "_modified.bed"))) := by
  unfold checkFileMain at h
  dsimp only at h
  split at h
  · split at h
    · exact Option.noConfusion h
    · obtain ⟨-, h2⟩ := Prod.mk.injEq _ _ _ _ |>.mp (Option.some_inj.mp h)
      exact ⟨fun _ => h2.symm, fun hsc => absurd (h2.trans hsc) (by decide)⟩
  · obtain ⟨-, h2⟩ := Prod.mk.injEq _ _ _ _ |>.mp (Option.some_inj.mp h)
    exact ⟨fun _ => h2.symm, fun hsc => absurd (h2.trans hsc) (by decide)⟩
  · split at h
    · obtain ⟨-, h2⟩ := Prod.mk.injEq _ _ _ _ |>.mp (Option.some_inj.mp h)
      exact ⟨fun _ => h2.symm, fun hsc => absurd (h2.trans hsc) (by decide)⟩
    · exact c7_afterGzip env pick job item lp _ _ _ _ out sc h

/-- C7 (amended): when `os.remove` succeeds, no `_modified.bed` scratch
file remains at any successful return of `check_file`; but the scratch
file survives exactly when the job is a gzipped bed whose comment
stripping created it and `os.remove` raised `OSError`, in which case
`file_remove_error` is recorded — refuting the original claim that the
scratch path is gone on every exit path (see `c7_counterexample`). -/
theorem c7_scratch_cleanup (env : CheckEnv) (pick : List String → String)
    (job : CJob) (out : CJob) (sc : Bool)
    (hrun : check_file env pick job = some (out, sc)) :
    (env.removeOk = true → sc = false) ∧
    (sc = true → env.removeOk = false ∧
      (∃ item, job.item = some item ∧ item.file_format = "bed") ∧
      (dget out.errors "file_remove_error").isSome = true) := by
  unfold check_file at hrun
  split at hrun
  · exact Option.noConfusion hrun
  · rename_i item hitem
    dsimp only at hrun
    split at hrun
    · obtain ⟨-, h2⟩ := Prod.mk.injEq _ _ _ _ |>.mp (Option.some_inj.mp hrun)
      exact ⟨fun _ => h2.symm, fun hsc => absurd (h2.trans hsc) (by decide)⟩
    · split at hrun
      · obtain ⟨hm1, hm2⟩ := c7_checkFileMain env pick _ item _ out sc hrun
        refine ⟨hm1, fun hsc => ?_⟩
        obtain ⟨hro, hbed, hfre⟩ := hm2 hsc
        exact ⟨hro, ⟨item, hitem, hbed⟩, by rw [hfre]; rfl⟩
      · split at hrun
        · obtain ⟨-, h2⟩ := Prod.mk.injEq _ _ _ _ |>.mp (Option.some_inj.mp hrun)
          exact ⟨fun _ => h2.symm, fun hsc => absurd (h2.trans hsc) (by decide)⟩
        · split at hrun
          · exact Option.noConfusion hrun
          · obtain ⟨hm1, hm2⟩ := c7_checkFileMain env pick _ item _ out sc hrun
            refine ⟨hm1, fun hsc => ?_⟩
            obtain ⟨hro, hbed, hfre⟩ := hm2 hsc
            exact ⟨hro, ⟨item, hitem, hbed⟩, by rw [hfre]; rfl⟩

theorem aget_cons_self {α β : Type} [DecidableEq α] (m : List (α × β)) (k : α) (v : β) :
    aget ((k, v) :: m) k = some v := by
  simp [aget]

theorem aget_cons_ne {α β : Type} [DecidableEq α] (m : List (α × β)) (k k' : α) (v : β)
    (h : ¬(k' = k)) : aget ((k', v) :: m) k = aget m k := by
  simp [aget, h]

theorem aget_eq_none_iff {α β : Type} [DecidableEq α] (m : List (α × β)) (k : α) :
    aget m k = none ↔ k ∉ m.map Prod.fst := by
  induction m with
  | nil => simp [aget]
  | cons p m ih =>
    obtain ⟨k', v⟩ := p
    by_cases h : k' = k
    · simp [aget, h]
    · have h' : ¬(k = k') := fun hh => h hh.symm
      simp [aget, h, ih, h']

theorem mem_iff_aget {α β : Type} [DecidableEq α] {m : List (α × β)}
    (h : (m.map Prod.fst).Nodup) (k : α) (v : β) :
    (k, v) ∈ m ↔ aget m k = some v := by
  induction m with
  | nil => simp [aget]
  | cons p m ih =>
    obtain ⟨k', v'⟩ := p
    simp only [List.map_cons, List.nodup_cons] at h
    by_cases hk : k' = k
    · subst hk
      rw [aget_cons_self]
      constructor
      · intro hmem
        rcases List.mem_cons.mp hmem with heq | hm
        · rw [(Prod.mk.injEq _ _ _ _).mp heq.symm |>.2]
        · exact absurd (List.mem_map.mpr ⟨(k', v), hm, rfl⟩) h.1
      · intro hget
        rw [Option.some_inj.mp hget]
        exact List.mem_cons_self _ _
    · rw [aget_cons_ne _ _ _ _ hk, ← ih h.2, List.mem_cons]
      constructor
      · rintro (heq | hm)
        · exact absurd ((Prod.mk.injEq _ _ _ _).mp heq.symm).1 hk
        · exact hm
      · exact Or.inr

theorem aget_abump_self {α : Type} [DecidableEq α] (m : List (α × Nat)) (k : α) :
    aget (abump m k) k = some ((aget m k).getD 0 + 1) := by
  induction m with
  | nil => simp [aget, abump]
  | cons p m ih =>
    obtain ⟨k', v⟩ := p
    by_cases h : k' = k <;> simp [aget, abump, h, ih]

theorem aget_abump_ne {α : Type} [DecidableEq α] (m : List (α × Nat)) (k j : α)
    (h : j ≠ k) : aget (abump m k) j = aget m j := by
  have h' : ¬(k = j) := fun hh => h hh.symm
  induction m with
  | nil => simp [aget, abump, h']
  | cons p m ih =>
    obtain ⟨k', v⟩ := p
    by_cases hk : k' = k
    · subst hk
      simp [aget, abump, h']
    · by_cases hj : k' = j <;> simp [aget, abump, hk, hj, ih, h', h]

theorem keys_abump {α : Type} [DecidableEq α] (m : List (α × Nat)) (k : α) :
    (abump m k).map Prod.fst =
      if k ∈ m.map Prod.fst then m.map Prod.fst else m.map Prod.fst ++ [k] := by
  induction m with
  | nil => simp [abump]
  | cons p m ih =>
    obtain ⟨k', v⟩ := p
    by_cases h : k' = k
    · simp [abump, h]
    · have h' : ¬(k = k') := fun hh => h hh.symm
      simp only [abump, if_neg h, List.map_cons, ih, List.mem_cons]
      by_cases hm : k ∈ m.map Prod.fst
      · simp [hm]
      · simp [hm, h']

theorem keys_abump_nodup {α : Type} [DecidableEq α] (m : List (α × Nat)) (k : α)
    (h : (m.map Prod.fst).Nodup) : ((abump m k).map Prod.fst).Nodup := by
  rw [keys_abump]
  split
  · exact h
  · rename_i hk
    rw [List.nodup_append]
    exact ⟨h, List.nodup_singleton _,
      fun a ha hb => hk ((List.mem_singleton.mp hb) ▸ ha)⟩

theorem sumCounts_foldl_shift {α : Type} (l : List (α × Nat)) (n : Nat) :
    l.foldl (fun t p => t + p.2) n = n + sumCounts l := by
  induction l generalizing n with
  | nil => simp [sumCounts]
  | cons p l ih =>
    simp only [sumCounts, List.foldl_cons, Nat.zero_add]
    rw [ih, ih]
    omega

theorem sumCounts_cons {α : Type} (m : List (α × Nat)) (p : α × Nat) :
    sumCounts (p :: m) = p.2 + sumCounts m := by
  simp only [sumCounts, List.foldl_cons, Nat.zero_add]
  rw [sumCounts_foldl_shift]
  rfl

theorem sumCounts_abump {α : Type} [DecidableEq α] (m : List (α × Nat)) (k : α) :
    sumCounts (abump m k) = sumCounts m + 1 := by
  induction m with
  | nil => simp [abump, sumCounts]
  | cons p m ih =>
    obtain ⟨k', v⟩ := p
    by_cases h : k' = k
    · rw [abump, if_pos h, sumCounts_cons, sumCounts_cons]
      omega
    · rw [abump, if_neg h, sumCounts_cons, sumCounts_cons, ih]
      omega

theorem aget_addSigToDict_self (d : List ((String × String × String) × List (String × Nat)))
    (e : Sig5) :
    aget (addSigToDict d e) (sigKey e) =
      some (abump ((aget d (sigKey e)).getD []) (sigBarcode e)) := by
  induction d with
  | nil => simp [aget, addSigToDict, abump]
  | cons p d ih =>
    obtain ⟨k', bd⟩ := p
    by_cases h : k' = sigKey e <;> simp [aget, addSigToDict, h, ih]

theorem aget_addSigToDict_ne (d : List ((String × String × String) × List (String × Nat)))
    (e : Sig5) (key : String × String × String) (h : key ≠ sigKey e) :
    aget (addSigToDict d e) key = aget d key := by
  have h' : ¬(sigKey e = key) := fun hh => h hh.symm
  induction d with
  | nil => simp [aget, addSigToDict, h']
  | cons p d ih =>
    obtain ⟨k', bd⟩ := p
    by_cases hk : k' = sigKey e
    · subst hk
      simp [aget, addSigToDict, h']
    · by_cases hj : k' = key <;> simp [aget, addSigToDict, hk, hj, ih, h', h]

theorem keys_addSigToDict (d : List ((String × String × String) × List (String × Nat)))
    (e : Sig5) :
    (addSigToDict d e).map Prod.fst =
      if sigKey e ∈ d.map Prod.fst then d.map Prod.fst
      else d.map Prod.fst ++ [sigKey e] := by
  induction d with
  | nil => simp [addSigToDict]
  | cons p d ih =>
    obtain ⟨k', bd⟩ := p
    by_cases h : k' = sigKey e
    · simp [addSigToDict, h]
    · have h' : ¬(sigKey e = k') := fun hh => h hh.symm
      simp only [addSigToDict, if_neg h, List.map_cons, ih, List.mem_cons]
      by_cases hm : sigKey e ∈ d.map Prod.fst
      · simp [hm]
      · simp [hm, h']

theorem keys_addSigToDict_nodup (d : List ((String × String × String) × List (String × Nat)))
    (e : Sig5) (h : (d.map Prod.fst).Nodup) :
    ((addSigToDict d e).map Prod.fst).Nodup := by
  rw [keys_addSigToDict]
  split
  · exact h
  · rename_i hk
    rw [List.nodup_append]
    exact ⟨h, List.nodup_singleton _,
      fun a ha hb => hk ((List.mem_singleton.mp hb) ▸ ha)⟩

theorem bucketCount_append (entries : List Sig5) (e : Sig5) (key : String × String × String) :
    bucketCount (entries ++ [e]) key =
      bucketCount entries key + (if sigKey e = key then 1 else 0) := by
  simp only [bucketCount, List.countP_append, List.countP_cons, List.countP_nil]
  split <;> rename_i h <;> simp_all

theorem pairCount_append (entries : List Sig5) (e : Sig5) (key : String × String × String)
    (b : String) :
    pairCount (entries ++ [e]) key b =
      pairCount entries key b + (if sigKey e = key ∧ sigBarcode e = b then 1 else 0) := by
  simp only [pairCount, List.countP_append, List.countP_cons, List.countP_nil]
  split <;> rename_i h <;> simp_all

theorem buildFlowcellsDict_append (entries : List Sig5) (e : Sig5) :
    buildFlowcellsDict (entries ++ [e]) = addSigToDict (buildFlowcellsDict entries) e := by
  simp [buildFlowcellsDict, List.foldl_append]

theorem pairCount_le_bucketCount (entries : List Sig5) (key : String × String × String)
    (b : String) : pairCount entries key b ≤ bucketCount entries key := by
  apply List.countP_mono_left
  intro x hx h
  simp only [decide_eq_true_eq, Bool.and_eq_true] at h ⊢
  exact h.1

theorem buildFlowcellsDict_inv (entries : List Sig5) :
    DictInv entries (buildFlowcellsDict entries) := by
  induction entries using List.reverseRecOn with
  | nil =>
    refine ⟨by simp [buildFlowcellsDict], fun key h => ?_, fun key bd h => ?_⟩
    · simp [bucketCount]
    · simp [buildFlowcellsDict, aget] at h
  | append_singleton entries e ih =>
    obtain ⟨hnd, hnone, hsome⟩ := ih
    rw [buildFlowcellsDict_append]
    refine ⟨keys_addSigToDict_nodup _ _ hnd, fun key hget => ?_, fun key bd hget => ?_⟩
    · -- a key still absent after the insertion
      by_cases hk : key = sigKey e
      · rw [hk, aget_addSigToDict_self] at hget
        exact absurd hget (by simp)
      · have hk' : ¬(sigKey e = key) := fun hh => hk hh.symm
        rw [aget_addSigToDict_ne _ _ _ hk] at hget
        rw [bucketCount_append, hnone key hget]
        simp [hk']
    · by_cases hk : key = sigKey e
      · subst hk
        rw [aget_addSigToDict_self] at hget
        rcases hget0 : aget (buildFlowcellsDict entries) (sigKey e) with _ | bd0
        · -- the bucket is new
          have hbC : bucketCount entries (sigKey e) = 0 := hnone _ hget0
          have hpc0 : ∀ b, pairCount entries (sigKey e) b = 0 := by
            intro b
            have := pairCount_le_bucketCount entries (sigKey e) b
            omega
          rw [hget0] at hget
          simp only [Option.getD_none] at hget
          have hbd : bd = [(sigBarcode e, 1)] := by
            rw [Option.some_inj.mp hget.symm]; rfl
          subst hbd
          refine ⟨by simp, ?_, fun b hb => ?_, fun b c hb => ?_⟩
          · rw [sumCounts_cons, bucketCount_append, hbC]
            simp [sumCounts]
          · have hbne : ¬(b = sigBarcode e) := by
              intro hh
              rw [hh, aget_cons_self] at hb
              exact Option.noConfusion hb
            have hb2 : ¬(sigBarcode e = b) := fun hh => hbne hh.symm
            rw [pairCount_append, hpc0 b]
            simp [hb2]
          · have hbeq : b = sigBarcode e ∧ c = 1 := by
              by_cases hbb : sigBarcode e = b
              · rw [← hbb, aget_cons_self] at hb
                exact ⟨hbb.symm, (Option.some_inj.mp hb).symm⟩
              · rw [aget_cons_ne _ _ _ _ hbb] at hb
                simp [aget] at hb
            obtain ⟨hbe, hc⟩ := hbeq
            have hcond : (sigKey e = sigKey e ∧ sigBarcode e = b) := ⟨rfl, hbe.symm⟩
            rw [pairCount_append, hpc0 b, if_pos hcond, hc]
            exact ⟨rfl, Nat.one_pos⟩
        · -- the bucket existed already
          obtain ⟨hbdnd, hbdsum, hbdnone, hbdsome⟩ := hsome _ _ hget0
          rw [hget0] at hget
          simp only [Option.getD_some] at hget
          have hbd : bd = abump bd0 (sigBarcode e) := Option.some_inj.mp hget.symm
          subst hbd
          refine ⟨keys_abump_nodup _ _ hbdnd, ?_, fun b hb => ?_, fun b c hb => ?_⟩
          · rw [sumCounts_abump, bucketCount_append, hbdsum]
            simp
          · have hbne : b ≠ sigBarcode e := by
              intro hh
              rw [hh, aget_abump_self] at hb
              exact Option.noConfusion hb
            have hb2 : ¬(sigBarcode e = b) := fun hh => hbne hh.symm
            rw [aget_abump_ne _ _ _ hbne] at hb
            rw [pairCount_append, hbdnone b hb]
            simp [hb2]
          · by_cases hbb : b = sigBarcode e
            · rw [hbb, aget_abump_self] at hb
              have hc : c = (aget bd0 (sigBarcode e)).getD 0 + 1 :=
                (Option.some_inj.mp hb).symm
              have hcond : (sigKey e = sigKey e ∧ sigBarcode e = b) := ⟨rfl, hbb.symm⟩
              rw [pairCount_append, if_pos hcond]
              rcases hbd0 : aget bd0 (sigBarcode e) with _ | c0
              · rw [hbd0] at hc
                rw [← hbb] at hbd0
                rw [hbdnone b hbd0]
                simp [hc]
              · obtain ⟨hc0, hc0pos⟩ := hbdsome (sigBarcode e) c0 hbd0
                rw [hbd0] at hc
                simp only [Option.getD_some] at hc
                rw [hbb, ← hc0]
                exact ⟨by omega, by omega⟩
            · rw [aget_abump_ne _ _ _ hbb] at hb
              obtain ⟨hc0, hc0pos⟩ := hbdsome b c hb
              have hb2 : ¬(sigBarcode e = b) := fun hh => hbb hh.symm
              rw [pairCount_append]
              refine ⟨?_, hc0pos⟩
              rw [hc0]
              simp [hb2]
      · rw [aget_addSigToDict_ne _ _ _ hk] at hget
        obtain ⟨h1, h2, h3, h4⟩ := hsome _ _ hget
        have hk' : ¬(sigKey e = key) := fun hh => hk hh.symm
        have hcond : ∀ b, ¬(sigKey e = key ∧ sigBarcode e = b) := fun b hh => hk' hh.1
        refine ⟨h1, ?_, fun b hb => ?_, fun b c hb => ?_⟩
        · rw [bucketCount_append, h2]
          simp [hk']
        · rw [pairCount_append, h3 b hb]
          simp [hcond b]
        · obtain ⟨hc, hcpos⟩ := h4 b c hb
          refine ⟨?_, hcpos⟩
          rw [pairCount_append, hc]
          simp [hcond b]

/-- Membership in `saddQ`. -/
theorem mem_saddQ (l : List Quad) (x y : Quad) : y ∈ saddQ l x ↔ y ∈ l ∨ y = x := by
  unfold saddQ
  split
  · rename_i hm
    constructor
    · exact Or.inl
    · rintro (h | rfl)
      · exact h
      · exact hm
  · simp

/-- Membership in a fold that conditionally `saddQ`s. -/
theorem mem_condAdd_foldl {β : Type} (g : β → Quad) (P : β → Prop) [DecidablePred P]
    (l : List β) (acc : List Quad) (x : Quad) :
    x ∈ l.foldl (fun acc y => if P y then saddQ acc (g y) else acc) acc ↔
      x ∈ acc ∨ ∃ y ∈ l, P y ∧ g y = x := by
  induction l generalizing acc with
  | nil => simp
  | cons y l ih =>
    rw [List.foldl_cons, ih]
    constructor
    · rintro (h | ⟨z, hz, hPz, hgz⟩)
      · by_cases hp : P y
        · rw [if_pos hp, mem_saddQ] at h
          rcases h with h | h
          · exact Or.inl h
          · exact Or.inr ⟨y, List.mem_cons_self _ _, hp, h.symm⟩
        · rw [if_neg hp] at h
          exact Or.inl h
      · exact Or.inr ⟨z, List.mem_cons_of_mem _ hz, hPz, hgz⟩
    · rintro (h | ⟨z, hz, hPz, hgz⟩)
      · refine Or.inl ?_
        split
        · rw [mem_saddQ]
          exact Or.inl h
        · exact h
      · rcases List.mem_cons.mp hz with rfl | hz'
        · refine Or.inl ?_
          rw [if_pos hPz, mem_saddQ]
          exact Or.inr hgz.symm
        · exact Or.inr ⟨z, hz', hPz, hgz⟩

/-- Membership in the emission loop of `process_barcodes`. -/
theorem mem_processBarcodesCore
    (d : List ((String × String × String) × List (String × Nat))) (x : Quad) :
    x ∈ processBarcodesCore d ↔
      ∃ kbd ∈ d, ∃ p ∈ kbd.2, sumCounts kbd.2 < 100 * p.2 ∧
        (kbd.1.1, kbd.1.2.1, kbd.1.2.2, p.1) = x := by
  have main : ∀ (acc : List Quad),
      x ∈ d.foldl
        (fun acc kbd =>
          kbd.2.foldl
            (fun acc p =>
              if sumCounts kbd.2 < 100 * p.2 then
                saddQ acc (kbd.1.1, kbd.1.2.1, kbd.1.2.2, p.1)
              else acc)
            acc)
        acc ↔
      x ∈ acc ∨ ∃ kbd ∈ d, ∃ p ∈ kbd.2, sumCounts kbd.2 < 100 * p.2 ∧
        (kbd.1.1, kbd.1.2.1, kbd.1.2.2, p.1) = x := by
    induction d with
    | nil => simp
    | cons kbd d ih =>
      intro acc
      rw [List.foldl_cons, ih]
      have hinner :
          (x ∈ kbd.2.foldl
            (fun acc p =>
              if sumCounts kbd.2 < 100 * p.2 then
                saddQ acc (kbd.1.1, kbd.1.2.1, kbd.1.2.2, p.1)
              else acc)
            acc) ↔
            x ∈ acc ∨ ∃ p ∈ kbd.2, sumCounts kbd.2 < 100 * p.2 ∧
              (kbd.1.1, kbd.1.2.1, kbd.1.2.2, p.1) = x :=
        mem_condAdd_foldl
          (g := fun (p : String × Nat) => (kbd.1.1, kbd.1.2.1, kbd.1.2.2, p.1))
          (P := fun (p : String × Nat) => sumCounts kbd.2 < 100 * p.2) kbd.2 acc x
      rw [hinner]
      constructor
      · rintro ((h | ⟨p, hp, hP, hg⟩) | ⟨z, hz, p, hp, hP, hg⟩)
        · exact Or.inl h
        · exact Or.inr ⟨kbd, List.mem_cons_self _ _, p, hp, hP, hg⟩
        · exact Or.inr ⟨z, List.mem_cons_of_mem _ hz, p, hp, hP, hg⟩
      · rintro (h | ⟨z, hz, p, hp, hP, hg⟩)
        · exact Or.inl (Or.inl h)
        · rcases List.mem_cons.mp hz with rfl | hz'
          · exact Or.inl (Or.inr ⟨p, hp, hP, hg⟩)
          · exact Or.inr ⟨z, hz', p, hp, hP, hg⟩
  simpa using main []

/-- C5 (amended): `process_barcodes` keeps exactly the signatures whose
barcode represents strictly more than 1% of its
`(flowcell, lane, read)` bucket: a parsed signature `(f, l, r, b)` is
emitted iff it occurs in the input and `100 * count > total` for its
bucket — the source's float test `total/count < 100` is strict, so a
barcode at exactly one hundredth of the bucket is dropped. -/
theorem c5_process_barcodes_kept_iff (entries : List Sig5) (f l r b : String) :
    (f, l, r, b) ∈ processBarcodesCore (buildFlowcellsDict entries) ↔
      0 < pairCount entries (f, l, r) b ∧
        bucketCount entries (f, l, r) < 100 * pairCount entries (f, l, r) b := by
  obtain ⟨hnd, hnone, hsome⟩ := buildFlowcellsDict_inv entries
  rw [mem_processBarcodesCore]
  constructor
  · rintro ⟨⟨⟨kf, kl, kr⟩, bd⟩, hkbd, ⟨pb, pc⟩, hp, hlt, heq⟩
    simp only [Prod.mk.injEq] at heq
    obtain ⟨rfl, rfl, rfl, rfl⟩ := heq
    have hgetd : aget (buildFlowcellsDict entries) (kf, kl, kr) = some bd :=
      (mem_iff_aget hnd _ _).mp hkbd
    obtain ⟨hbdnd, hbdsum, hbdnone, hbdsome⟩ := hsome _ _ hgetd
    have hgetb : aget bd pb = some pc := (mem_iff_aget hbdnd _ _).mp hp
    obtain ⟨hc, hcpos⟩ := hbdsome _ _ hgetb
    simp only [sumCounts] at hlt hbdsum
    constructor
    · omega
    · omega
  · rintro ⟨hpos, hlt⟩
    have hbpos : 0 < bucketCount entries (f, l, r) := by
      have := pairCount_le_bucketCount entries (f, l, r) b
      omega
    rcases hget : aget (buildFlowcellsDict entries) (f, l, r) with _ | bd
    · rw [hnone _ hget] at hbpos
      exact absurd hbpos (by omega)
    · obtain ⟨hbdnd, hbdsum, hbdnone, hbdsome⟩ := hsome _ _ hget
      rcases hgetb : aget bd b with _ | c
      · rw [hbdnone _ hgetb] at hpos
        exact absurd hpos (by omega)
      · obtain ⟨hc, hcpos⟩ := hbdsome _ _ hgetb
        refine ⟨((f, l, r), bd), (mem_iff_aget hnd _ _).mpr hget, (b, c),
          (mem_iff_aget hbdnd _ _).mpr hgetb, ?_, rfl⟩
        rw [hbdsum, hc]
        exact hlt

set_option maxRecDepth 20000 in
/-- C5 (counterexample): the signature `F:1:1:B0:` accounts for exactly
one hundredth of its bucket — "at least 1%" in the claim's words — yet
`process_barcodes` returns the empty set, dropping it. -/
theorem c5_counterexample :
    process_barcodes c5sigs = some [] ∧
    "F:1:1:B0:" ∈ c5sigs ∧
    c5sigs.mapM parseSig5 = some c5entries ∧
    100 * pairCount c5entries ("F", "1", "1") "B0" =
      bucketCount c5entries ("F", "1", "1") := by
  refine ⟨?_, ?_, ?_, ?_⟩ <;> decide

theorem fetch_job_etag (fenv : FetchEnv) (h : fenv.editOk = true) :
    (fetch_job fenv).etag = fenv.editEtag := by
  unfold fetch_job
  dsimp only
  rw [h]
  rfl

/-- C1: `patch_file` issues a PATCH only when the freshly fetched
server etag equals the etag captured at the `frame=edit` read during
job creation; the PATCH then carries `If-Match` equal to that captured
etag, and when the two etags differ no PATCH is sent and (whenever a
PATCH would have been attempted at all, i.e. the data dict is
nonempty) the error key `etag_does_not_match` is recorded instead;
`fetch_files` indeed captures the `frame=edit` response etag in the
job. -/
theorem c1_etag_discipline (penv : PatchEnv) (job : CJob) (pout : PatchOutcome)
    (hpatch : patch_file penv job = some pout) :
    (∀ im data, pout.request = some (im, data) →
      im = job.etag ∧ data = (patchData job).2 ∧
      ∃ resp, penv.etagFetch = .ok resp ∧ resp.ok = true ∧ resp.etag = job.etag) ∧
    (∀ resp, penv.etagFetch = .ok resp → resp.ok = true → resp.etag ≠ job.etag →
      pout.request = none ∧ pout.patched = false ∧
      ((patchData job).2 ≠ emptyPatchData →
        (dget pout.errors "etag_does_not_match").isSome = true)) ∧
    (∀ fenv : FetchEnv, fenv.editOk = true → (fetch_job fenv).etag = fenv.editEtag) := by
  unfold patch_file at hpatch
  dsimp only at hpatch
  by_cases hdata : (patchData job).2 = emptyPatchData
  · rw [if_neg (not_not_intro hdata)] at hpatch
    rw [← Option.some_inj.mp hpatch]
    exact ⟨fun im d h => Option.noConfusion h,
      fun r hr hrok hrne => ⟨rfl, rfl, fun hne => absurd hdata hne⟩,
      fetch_job_etag⟩
  · rw [if_pos hdata] at hpatch
    rcases hef : penv.etagFetch with e | resp <;> rw [hef] at hpatch <;> dsimp only at hpatch
    · rw [← Option.some_inj.mp hpatch]
      refine ⟨fun im d h => Option.noConfusion h, fun r hr hrok hrne => ?_, fetch_job_etag⟩
      exact Except.noConfusion hr
    · rcases hok : resp.ok with _ | _ <;> rw [hok] at hpatch
      · simp only [Bool.false_eq_true, if_false] at hpatch
        rw [← Option.some_inj.mp hpatch]
        refine ⟨fun im d h => Option.noConfusion h, fun r hr hrok hrne => ?_, fetch_job_etag⟩
        rw [← Except.ok.inj hr] at hrok
        rw [hok] at hrok
        exact Bool.noConfusion hrok
      · rw [if_pos rfl] at hpatch
        by_cases hetag : job.etag = resp.etag
        · rw [if_pos hetag] at hpatch
          rcases hpo : penv.patchOk with _ | _ <;> rw [hpo] at hpatch
          · simp only [Bool.false_eq_true, if_false] at hpatch
            rw [← Option.some_inj.mp hpatch]
            refine ⟨fun im d h => ?_, fun r hr hrok hrne => ?_, fetch_job_etag⟩
            · obtain ⟨h1, h2⟩ := Prod.mk.injEq _ _ _ _ |>.mp (Option.some_inj.mp h)
              exact ⟨h1.symm, h2.symm, resp, rfl, hok, hetag.symm⟩
            · rw [← Except.ok.inj hr] at hrne
              exact absurd hetag.symm hrne
          · rw [if_pos rfl] at hpatch
            rw [← Option.some_inj.mp hpatch]
            refine ⟨fun im d h => ?_, fun r hr hrok hrne => ?_, fetch_job_etag⟩
            · obtain ⟨h1, h2⟩ := Prod.mk.injEq _ _ _ _ |>.mp (Option.some_inj.mp h)
              exact ⟨h1.symm, h2.symm, resp, rfl, hok, hetag.symm⟩
            · rw [← Except.ok.inj hr] at hrne
              exact absurd hetag.symm hrne
        · rw [if_neg hetag] at hpatch
          rcases hit : job.item with _ | it <;> rw [hit] at hpatch <;> dsimp only at hpatch
          · exact Option.noConfusion hpatch
          · rw [← Option.some_inj.mp hpatch]
            refine ⟨fun im d h => Option.noConfusion h, fun r hr hrok hrne => ?_, fetch_job_etag⟩
            exact ⟨rfl, rfl, fun _ => by rw [dget_dset_self]; rfl⟩

theorem c1_etag_discipline_witness :
    c1pout.request = some ("W1", (patchData c1job).2) ∧
    ("W1" = c1job.etag ∧ (patchData c1job).2 = (patchData c1job).2 ∧
      ∃ resp, c1penv.etagFetch = .ok resp ∧ resp.ok = true ∧ resp.etag = c1job.etag) :=
  ⟨rfl, (c1_etag_discipline c1penv c1job c1pout rfl).1 "W1" ((patchData c1job).2) rfl⟩

theorem patchData_empty (job : CJob)
    (hskip : job.skip = true)
    (hres : job.result = emptyResult)
    (hrn : dget job.errors "fastq_format_readname" = none)
    (hce : dget job.errors "content_error" = none)
    (hfnf : dget job.errors "file_not_found" = none) :
    patchData job = (job.errors, emptyPatchData) := by
  unfold patchData
  dsimp only
  rw [if_neg (fun (hc : job.errors = [] ∧ job.skip = false) =>
    Bool.noConfusion (hskip ▸ hc.2))]
  rw [hrn]
  dsimp only
  rw [hfnf, hce, hres]
  rfl

/-- C2 (amended): a skipped job that carries none of the
data-producing error keys (`content_error`, `fastq_format_readname`,
`file_not_found`) and no gathered results is not PATCHed — but this is
narrower than the claim: being skipped alone does not prevent a PATCH.
A job skipped by `check_file` after a `FileNotFoundError` carries the
`file_not_found` error, and `patch_file` then PATCHes it to status
`upload failed` (see `c2_counterexample`), exactly as the second half
of the claim states, contradicting its first half. -/
theorem c2_skip_no_patch (penv : PatchEnv) (job : CJob)
    (hskip : job.skip = true)
    (hres : job.result = emptyResult)
    (hrn : dget job.errors "fastq_format_readname" = none)
    (hce : dget job.errors "content_error" = none)
    (hfnf : dget job.errors "file_not_found" = none) :
    patch_file penv job = some { errors := job.errors, request := none, patched := false } := by
  have hd := patchData_empty job hskip hres hrn hce hfnf
  unfold patch_file
  dsimp only
  rw [hd]
  rw [if_neg (not_not_intro rfl)]

theorem c2_skip_no_patch_witness :
    patch_file c2penv c2sJob =
      some { errors := c2sJob.errors, request := none, patched := false } :=
  c2_skip_no_patch c2penv c2sJob rfl rfl rfl rfl rfl

theorem c2_counterexample :
    (check_file c2env pickHead c2job).isSome = true ∧
    c2out.1.skip = true ∧
    patch_file c2penv c2out.1 =
      some { errors := c2out.1.errors
             request := some ("W2", { emptyPatchData with status := some "upload failed" })
             patched := true } :=
  ⟨rfl, rfl, rfl⟩

theorem c7_counterexample :
    (check_file c7env pickHead c7job).isSome = true ∧
    c7out.2 = true ∧
    dget c7out.1.errors "file_remove_error" =
      some "OS could not remove the file ENCFF000BED_modified.bed" :=
  ⟨rfl, rfl, rfl⟩

theorem c7_scratch_cleanup_witness :
    c7envOk.removeOk = true ∧ c7outOk.2 = false :=
  ⟨rfl, (c7_scratch_cleanup c7envOk pickHead c7job c7outOk.1 c7outOk.2 rfl).1 rfl⟩

theorem c6_md5_mismatch_witness :
    c6pout.patched = true ∧
    ∃ data, c6pout.request = some (c6out.1.etag, data) ∧
      data.status = some "content error" ∧
      ∃ s2, data.content_error_detail =
          some (pyStrip (pyTake 5000
            (c6msg c7item.md5sum (pyTake 32 "ffffffffffffffffffffffffffffffff  f\n") ++ s2))) ∧
        ((c6msg c7item.md5sum (pyTake 32 "ffffffffffffffffffffffffffffffff  f\n")).length ≤ 5000 →
          strContains (pyTake 5000
              (c6msg c7item.md5sum (pyTake 32 "ffffffffffffffffffffffffffffffff  f\n") ++ s2))
            c7item.md5sum ∧
          strContains (pyTake 5000
              (c6msg c7item.md5sum (pyTake 32 "ffffffffffffffffffffffffffffffff  f\n") ++ s2))
            (pyTake 32 "ffffffffffffffffffffffffffffffff  f\n")) :=
  c6_md5_mismatch c6env pickHead c7job c7item 100 "2020-01-01T00:00:00"
    "ffffffffffffffffffffffffffffffff  f\n" c6out.1 c6out.2 c6penv c6pout
    { ok := true, etag := "W7", json_status := "uploading" }
    rfl rfl rfl rfl rfl (by decide) rfl rfl rfl rfl rfl rfl rfl rfl

end Checkfiles
